import Mathlib

/-!
# MAX-Core: a verification development

A shallow embedding of the state-transition engine of MAX-Core
(`src/maxcore/maxcore.cpp`, `include/maxcore/types.h`, `include/maxcore/maxcore.h`), of
its derived projection (`src/maxcore/derived.cpp`) and of its C interface
(`src/maxcore/c_api.cpp`).

## Number model

A C++ `double` is modelled by `Dbl K`: either a finite value of a linearly ordered
field `K` (taken exactly: no rounding, no overflow), or one of the three IEEE-754
special values `+inf`, `-inf`, `NaN`.  The operations follow IEEE-754 on the special
values (`inf - inf = NaN`, `0 * inf = NaN`, every comparison with `NaN` is false, ...).
There is a single zero.  Instantiating `K` with `ℚ` makes every definition executable.

`uint64_t` is modelled by `Nat` with an explicit `% 2 ^ 64` at the one place the
program does arithmetic on it (`step_counter += 1u`).  `size_t` values are only ever
compared, so they are plain `Nat`.

The forcing vector `const double* delta_input` is modelled by `Option (Nat → Dbl K)`:
`none` is the null pointer, `some d` is a pointer whose `i`-th element is `d i`.

`std::sqrt` is a library function outside the repository; `Step` takes it as a parameter.

## Rounding

The exact model says what the program computes when no result is rounded and none
overflows.  Where that matters, the same code is also given with the result of every
arithmetic operation rounded (`MaxCore.Step_rounded`); with the rounding of IEEE-754
binary64 (`round_binary64`: to nearest, ties to even, subnormals, overflow to infinity)
it evaluates the program on doubles.  `Step_rounded_fin` shows that without rounding it
is the exact model.
-/

namespace maxcore

/-! ## Definitions -/

/-- A `double`: a finite exact value, or one of the IEEE-754 special values. -/
inductive Dbl (K : Type) where
  | fin (x : K)
  | pinf
  | ninf
  | nan
  deriving DecidableEq, Repr

namespace Dbl

variable {K : Type} [LinearOrderedField K]

instance : Zero (Dbl K) := ⟨fin 0⟩
instance : One (Dbl K) := ⟨fin 1⟩

/-- Model of `std::isfinite`. -/
def isfinite : Dbl K → Bool
  | fin _ => true
  | _ => false

/-- Model of `a < b` on doubles: false as soon as one side is NaN. -/
def lt : Dbl K → Dbl K → Bool
  | fin a, fin b => decide (a < b)
  | fin _, pinf => true
  | ninf, fin _ => true
  | ninf, pinf => true
  | _, _ => false

/-- Model of `a > b` on doubles. -/
def gt (a b : Dbl K) : Bool := lt b a

/-- Model of `a == b` on doubles: NaN is equal to nothing. -/
def eq : Dbl K → Dbl K → Bool
  | fin a, fin b => decide (a = b)
  | pinf, pinf => true
  | ninf, ninf => true
  | _, _ => false

/-- Model of unary minus. -/
def neg : Dbl K → Dbl K
  | fin a => fin (-a)
  | pinf => ninf
  | ninf => pinf
  | nan => nan

/-- Model of `a + b`. -/
def add : Dbl K → Dbl K → Dbl K
  | fin a, fin b => fin (a + b)
  | fin _, pinf => pinf
  | fin _, ninf => ninf
  | pinf, fin _ => pinf
  | pinf, pinf => pinf
  | ninf, fin _ => ninf
  | ninf, ninf => ninf
  | _, _ => nan

/-- Model of `a - b`. -/
def sub (a b : Dbl K) : Dbl K := add a (neg b)

/-- The infinity with the sign of `a`, NaN when `a = 0`. -/
def signedInf (a : K) : Dbl K :=
  if 0 < a then pinf else if a < 0 then ninf else nan

/-- Model of `a * b`. -/
def mul : Dbl K → Dbl K → Dbl K
  | fin a, fin b => fin (a * b)
  | fin a, pinf => signedInf a
  | fin a, ninf => signedInf (-a)
  | pinf, fin b => signedInf b
  | ninf, fin b => signedInf (-b)
  | pinf, pinf => pinf
  | ninf, ninf => pinf
  | pinf, ninf => ninf
  | ninf, pinf => ninf
  | _, _ => nan

/-- Model of `a / b`.  The single zero of the model is taken as `+0`. -/
def div : Dbl K → Dbl K → Dbl K
  | fin a, fin b => if b = 0 then signedInf a else fin (a / b)
  | fin _, pinf => fin 0
  | fin _, ninf => fin 0
  | pinf, fin b => if b < 0 then ninf else pinf
  | ninf, fin b => if b < 0 then pinf else ninf
  | _, _ => nan

instance : Add (Dbl K) := ⟨add⟩
instance : Sub (Dbl K) := ⟨sub⟩
instance : Mul (Dbl K) := ⟨mul⟩
instance : Div (Dbl K) := ⟨div⟩

/-- Model of `std::max(a, b)`, which is `(a < b) ? b : a`. -/
def std_max (a b : Dbl K) : Dbl K := if lt a b then b else a

/-- Model of `std::min(a, b)`, which is `(b < a) ? b : a`. -/
def std_min (a b : Dbl K) : Dbl K := if lt b a then b else a

end Dbl

open Dbl

/-- The result of `Step` (`enum class EventFlag`). -/
inductive EventFlag where
  | NORMAL
  | COLLAPSE
  | ERROR
  deriving DecidableEq, Repr

/-- The state triple (`struct StructuralState`). -/
structure StructuralState (K : Type) where
  phi : Dbl K
  memory : Dbl K
  kappa : Dbl K
  deriving DecidableEq, Repr

/-- The lifecycle record (`struct LifecycleContext`); `step_counter` is a `uint64_t`. -/
structure LifecycleContext where
  step_counter : Nat
  terminal : Bool
  collapse_emitted : Bool
  deriving DecidableEq, Repr

/-- The eight coefficients (`struct ParameterSet`). -/
structure ParameterSet (K : Type) where
  alpha : Dbl K
  eta : Dbl K
  beta : Dbl K
  gamma : Dbl K
  rho : Dbl K
  lambda_phi : Dbl K
  lambda_m : Dbl K
  kappa_max : Dbl K
  deriving DecidableEq, Repr

/-- The engine (`class MaxCore`): configuration, two snapshots and the lifecycle. -/
structure MaxCore (K : Type) where
  params_ : ParameterSet K
  delta_dim_ : Nat
  delta_max_ : Option (Dbl K)
  current_ : StructuralState K
  previous_ : StructuralState K
  lifecycle_ : LifecycleContext
  deriving DecidableEq, Repr

section Engine

variable {K : Type} [LinearOrderedField K]

/-- The helper `is_finite` of maxcore.cpp. -/
def is_finite (x : Dbl K) : Bool := Dbl.isfinite x

/-- The helper `is_zero` of maxcore.cpp: `x == 0.0`. -/
def is_zero (x : Dbl K) : Bool := Dbl.eq x 0

/-- The helper `clamp_range` of maxcore.cpp. -/
def clamp_range (x lo hi : Dbl K) : Dbl K :=
  if Dbl.lt x lo then lo
  else if Dbl.gt x hi then hi
  else x

/-- The loop of `validate_params`: the first value that is not finite or not `> 0`
makes it return `false`. -/
def validate_params_loop : List (Dbl K) → Bool
  | [] => true
  | v :: vals => if !is_finite v || !(Dbl.gt v 0) then false else validate_params_loop vals

/-- The function `validate_params` of maxcore.cpp. -/
def validate_params (p : ParameterSet K) : Bool :=
  validate_params_loop
    [p.alpha, p.eta, p.beta, p.gamma, p.rho, p.lambda_phi, p.lambda_m, p.kappa_max]

/-- The function `validate_initial_state` of maxcore.cpp. -/
def validate_initial_state (s : StructuralState K) (kappa_max : Dbl K) : Bool :=
  if !is_finite s.phi || !is_finite s.memory || !is_finite s.kappa then false
  else if Dbl.lt s.phi 0 then false
  else if Dbl.lt s.memory 0 then false
  else if Dbl.lt s.kappa 0 then false
  else if Dbl.gt s.kappa kappa_max then false
  else true

/-- The function `max_rate` of maxcore.cpp. -/
def max_rate (p : ParameterSet K) : Dbl K :=
  let r := p.eta
  let r := Dbl.std_max r p.gamma
  let r := Dbl.std_max r p.rho
  let r := Dbl.std_max r p.lambda_phi
  let r := Dbl.std_max r p.lambda_m
  r

/-- The private constructor `MaxCore::MaxCore`. -/
def MaxCore.new (params : ParameterSet K) (delta_dim : Nat)
    (initial_state : StructuralState K) (delta_max : Option (Dbl K)) : MaxCore K :=
  { params_ := params
    delta_dim_ := delta_dim
    delta_max_ := delta_max
    current_ := initial_state
    previous_ := initial_state
    lifecycle_ := ⟨0, is_zero initial_state.kappa, false⟩ }

/-- The factory `MaxCore::Create`; `none` is `std::nullopt`. -/
def MaxCore.Create (params : ParameterSet K) (delta_dim : Nat)
    (initial_state : StructuralState K) (delta_max : Option (Dbl K)) : Option (MaxCore K) :=
  if delta_dim = 0 then none
  else if !validate_params params then none
  else if !validate_initial_state initial_state params.kappa_max then none
  else
    match delta_max with
    | some dm =>
      if !is_finite dm || !(Dbl.gt dm 0) then none
      else some (MaxCore.new params delta_dim initial_state delta_max)
    | none => some (MaxCore.new params delta_dim initial_state delta_max)

/-- Section 5 of `Step`: the loop accumulating `norm2`, with `n` iterations left, at
index `i`, with accumulator `norm2`.  `none` is the `return EventFlag::ERROR` inside
the loop. -/
def norm2_loop (delta_input : Nat → Dbl K) : Nat → Nat → Dbl K → Option (Dbl K)
  | 0, _, norm2 => some norm2
  | n + 1, i, norm2 =>
    let v := delta_input i
    if !is_finite v then none
    else
      let term := v * v
      norm2_loop delta_input n (i + 1) (norm2 + term)

/-- The optional norm guard of `Step` (the block on `delta_max_`): the value of `norm2`
after the block, or `none` for `return EventFlag::ERROR`. -/
def norm_guard (std_sqrt : Dbl K → Dbl K) (delta_max_ : Option (Dbl K)) (norm2 : Dbl K) :
    Option (Dbl K) :=
  match delta_max_ with
  | none => some norm2
  | some dm =>
    if !is_finite dm || !(Dbl.gt dm 0) then none
    else
      let dm2 := dm * dm
      if !is_finite dm2 then none
      else if Dbl.gt norm2 dm2 then
        let n := std_sqrt norm2
        if !is_finite n || !(Dbl.gt n 0) then none
        else
          let scale := dm / n
          if !is_finite scale || !(Dbl.gt scale 0) then none
          else some dm2
      else some norm2

/-- Sections 6 to 9 of `Step`: the canonical update of the candidate from `norm2`;
`none` for `return EventFlag::ERROR`. -/
def canonical_update (params_ : ParameterSet K) (current_ : StructuralState K)
    (norm2 dt : Dbl K) : Option (StructuralState K) :=
  let phi_next := current_.phi + (params_.alpha * norm2) - (params_.eta * current_.phi * dt)
  if !is_finite phi_next then none
  else
    let phi_next := if Dbl.lt phi_next 0 then 0 else phi_next
    let memory_next :=
      current_.memory + (params_.beta * phi_next * dt) - (params_.gamma * current_.memory * dt)
    if !is_finite memory_next then none
    else
      let memory_next := if Dbl.lt memory_next 0 then 0 else memory_next
      let kappa_next :=
        current_.kappa + (params_.rho * (params_.kappa_max - current_.kappa) * dt)
          - (params_.lambda_phi * phi_next * dt) - (params_.lambda_m * memory_next * dt)
      if !is_finite kappa_next then none
      else
        let kappa_next := clamp_range kappa_next 0 params_.kappa_max
        let next : StructuralState K := ⟨phi_next, memory_next, kappa_next⟩
        if !is_finite next.phi || !is_finite next.memory || !is_finite next.kappa then none
        else some next

/-- Sections 2 to 9 of `Step`: everything between the terminal short-circuit and the
commit.  The result is the candidate `next`, or `none` at each
`return EventFlag::ERROR`. -/
def MaxCore.candidate (std_sqrt : Dbl K → Dbl K) (self : MaxCore K)
    (delta_input : Option (Nat → Dbl K)) (delta_len : Nat) (dt : Dbl K) :
    Option (StructuralState K) :=
  match delta_input with
  | none => none
  | some delta =>
    if delta_len ≠ self.delta_dim_ then none
    else if !is_finite dt || !(Dbl.gt dt 0) then none
    else
      let mr := max_rate self.params_
      if !is_finite mr then none
      else
        let prod := dt * mr
        if !is_finite prod then none
        else if !(Dbl.lt prod 1) then none
        else
          match norm2_loop delta self.delta_dim_ 0 0 with
          | none => none
          | some norm2 =>
            if !is_finite norm2 || Dbl.lt norm2 0 then none
            else
              match norm_guard std_sqrt self.delta_max_ norm2 with
              | none => none
              | some norm2 => canonical_update self.params_ self.current_ norm2 dt

/-- Sections 10 to 12 of `Step`: collapse detection, the commit and the lifecycle
update, for a candidate `next` that passed every check. -/
def MaxCore.commit (self : MaxCore K) (next : StructuralState K) : EventFlag × MaxCore K :=
  let collapse_now := Dbl.gt self.current_.kappa 0 && is_zero next.kappa
  let committed : MaxCore K :=
    { self with
      previous_ := self.current_
      current_ := next
      lifecycle_ :=
        { step_counter := (self.lifecycle_.step_counter + 1) % 2 ^ 64
          terminal := is_zero next.kappa
          collapse_emitted :=
            if collapse_now then true else self.lifecycle_.collapse_emitted } }
  (if collapse_now then EventFlag.COLLAPSE else EventFlag.NORMAL, committed)

/-- The method `MaxCore::Step`: the returned flag and the engine after the call. -/
def MaxCore.Step (std_sqrt : Dbl K → Dbl K) (self : MaxCore K)
    (delta_input : Option (Nat → Dbl K)) (delta_len : Nat) (dt : Dbl K) :
    EventFlag × MaxCore K :=
  if is_zero self.current_.kappa then (EventFlag.NORMAL, self)
  else
    match self.candidate std_sqrt delta_input delta_len dt with
    | none => (EventFlag.ERROR, self)
    | some next => self.commit next

/-- One call of `Step`: its three arguments. -/
structure StepCall (K : Type) where
  delta_input : Option (Nat → Dbl K)
  delta_len : Nat
  dt : Dbl K

/-- The engine after a finite sequence of `Step` calls, made one after the other. -/
def MaxCore.run (std_sqrt : Dbl K → Dbl K) (self : MaxCore K) : List (StepCall K) → MaxCore K
  | [] => self
  | c :: cs => MaxCore.run std_sqrt (self.Step std_sqrt c.delta_input c.delta_len c.dt).2 cs

/-- The events returned by a finite sequence of `Step` calls, in the order of the
calls. -/
def MaxCore.trace (std_sqrt : Dbl K → Dbl K) (self : MaxCore K) :
    List (StepCall K) → List EventFlag
  | [] => []
  | c :: cs =>
    (self.Step std_sqrt c.delta_input c.delta_len c.dt).1 ::
      MaxCore.trace std_sqrt (self.Step std_sqrt c.delta_input c.delta_len c.dt).2 cs

/-- The engine before the first call of a finite sequence and after each of its calls. -/
def MaxCore.states (std_sqrt : Dbl K → Dbl K) (self : MaxCore K) :
    List (StepCall K) → List (MaxCore K)
  | [] => [self]
  | c :: cs =>
    self :: MaxCore.states std_sqrt (self.Step std_sqrt c.delta_input c.delta_len c.dt).2 cs

/-- The calls of a finite sequence that did not return ERROR, in their order. -/
def MaxCore.dropErrors (std_sqrt : Dbl K → Dbl K) (self : MaxCore K) :
    List (StepCall K) → List (StepCall K)
  | [] => []
  | c :: cs =>
    if (self.Step std_sqrt c.delta_input c.delta_len c.dt).1 = EventFlag.ERROR then
      MaxCore.dropErrors std_sqrt (self.Step std_sqrt c.delta_input c.delta_len c.dt).2 cs
    else
      c :: MaxCore.dropErrors std_sqrt (self.Step std_sqrt c.delta_input c.delta_len c.dt).2 cs

/-- The number of calls of a finite sequence that were made while `current.kappa != 0`
and did not return ERROR. -/
def MaxCore.commits (std_sqrt : Dbl K → Dbl K) (self : MaxCore K) : List (StepCall K) → Nat
  | [] => 0
  | c :: cs =>
    (if self.current_.kappa ≠ 0 ∧
        (self.Step std_sqrt c.delta_input c.delta_len c.dt).1 ≠ EventFlag.ERROR then 1 else 0)
      + MaxCore.commits std_sqrt (self.Step std_sqrt c.delta_input c.delta_len c.dt).2 cs

/-- The otherwise identical engine with no guard configured. -/
def MaxCore.without_guard (self : MaxCore K) : MaxCore K := { self with delta_max_ := none }

/-- The rounding step of a double operation: a finite exact result is rounded by `rnd`,
a special value is left as it is. -/
def Dbl.round (rnd : K → Dbl K) : Dbl K → Dbl K
  | fin x => rnd x
  | pinf => pinf
  | ninf => ninf
  | nan => nan

/-- Section 5 of `Step` with every arithmetic result rounded by `rnd`. -/
def norm2_loop_rounded (rnd : K → Dbl K) (delta_input : Nat → Dbl K) :
    Nat → Nat → Dbl K → Option (Dbl K)
  | 0, _, norm2 => some norm2
  | n + 1, i, norm2 =>
    let v := delta_input i
    if !is_finite v then none
    else
      let term := Dbl.round rnd (v * v)
      norm2_loop_rounded rnd delta_input n (i + 1) (Dbl.round rnd (norm2 + term))

/-- The optional norm guard of `Step` with every arithmetic result rounded by `rnd`. -/
def norm_guard_rounded (rnd : K → Dbl K) (std_sqrt : Dbl K → Dbl K)
    (delta_max_ : Option (Dbl K)) (norm2 : Dbl K) : Option (Dbl K) :=
  match delta_max_ with
  | none => some norm2
  | some dm =>
    if !is_finite dm || !(Dbl.gt dm 0) then none
    else
      let dm2 := Dbl.round rnd (dm * dm)
      if !is_finite dm2 then none
      else if Dbl.gt norm2 dm2 then
        let n := std_sqrt norm2
        if !is_finite n || !(Dbl.gt n 0) then none
        else
          let scale := Dbl.round rnd (dm / n)
          if !is_finite scale || !(Dbl.gt scale 0) then none
          else some dm2
      else some norm2

/-- Sections 6 to 9 of `Step` with every arithmetic result rounded by `rnd`, in the
order in which C++ evaluates the expressions. -/
def canonical_update_rounded (rnd : K → Dbl K) (params_ : ParameterSet K)
    (current_ : StructuralState K) (norm2 dt : Dbl K) : Option (StructuralState K) :=
  let phi_next :=
    Dbl.round rnd
      (Dbl.round rnd (current_.phi + Dbl.round rnd (params_.alpha * norm2))
        - Dbl.round rnd (Dbl.round rnd (params_.eta * current_.phi) * dt))
  if !is_finite phi_next then none
  else
    let phi_next := if Dbl.lt phi_next 0 then 0 else phi_next
    let memory_next :=
      Dbl.round rnd
        (Dbl.round rnd
            (current_.memory + Dbl.round rnd (Dbl.round rnd (params_.beta * phi_next) * dt))
          - Dbl.round rnd (Dbl.round rnd (params_.gamma * current_.memory) * dt))
    if !is_finite memory_next then none
    else
      let memory_next := if Dbl.lt memory_next 0 then 0 else memory_next
      let kappa_next :=
        Dbl.round rnd
          (Dbl.round rnd
              (Dbl.round rnd
                  (current_.kappa
                    + Dbl.round rnd
                        (Dbl.round rnd
                            (params_.rho * Dbl.round rnd (params_.kappa_max - current_.kappa))
                          * dt))
                - Dbl.round rnd (Dbl.round rnd (params_.lambda_phi * phi_next) * dt))
            - Dbl.round rnd (Dbl.round rnd (params_.lambda_m * memory_next) * dt))
      if !is_finite kappa_next then none
      else
        let kappa_next := clamp_range kappa_next 0 params_.kappa_max
        let next : StructuralState K := ⟨phi_next, memory_next, kappa_next⟩
        if !is_finite next.phi || !is_finite next.memory || !is_finite next.kappa then none
        else some next

/-- Sections 2 to 9 of `Step` with every arithmetic result rounded by `rnd`. -/
def MaxCore.candidate_rounded (rnd : K → Dbl K) (std_sqrt : Dbl K → Dbl K) (self : MaxCore K)
    (delta_input : Option (Nat → Dbl K)) (delta_len : Nat) (dt : Dbl K) :
    Option (StructuralState K) :=
  match delta_input with
  | none => none
  | some delta =>
    if delta_len ≠ self.delta_dim_ then none
    else if !is_finite dt || !(Dbl.gt dt 0) then none
    else
      let mr := max_rate self.params_
      if !is_finite mr then none
      else
        let prod := Dbl.round rnd (dt * mr)
        if !is_finite prod then none
        else if !(Dbl.lt prod 1) then none
        else
          match norm2_loop_rounded rnd delta self.delta_dim_ 0 0 with
          | none => none
          | some norm2 =>
            if !is_finite norm2 || Dbl.lt norm2 0 then none
            else
              match norm_guard_rounded rnd std_sqrt self.delta_max_ norm2 with
              | none => none
              | some norm2 => canonical_update_rounded rnd self.params_ self.current_ norm2 dt

/-- The method `MaxCore::Step` with every arithmetic result rounded by `rnd`.  With
`rnd = fin` (no rounding) this is `MaxCore.Step`. -/
def MaxCore.Step_rounded (rnd : K → Dbl K) (std_sqrt : Dbl K → Dbl K) (self : MaxCore K)
    (delta_input : Option (Nat → Dbl K)) (delta_len : Nat) (dt : Dbl K) :
    EventFlag × MaxCore K :=
  if is_zero self.current_.kappa then (EventFlag.NORMAL, self)
  else
    match self.candidate_rounded rnd std_sqrt delta_input delta_len dt with
    | none => (EventFlag.ERROR, self)
    | some next => self.commit next

/-! ### The specification side: plain values of the field `K` -/

/-- The value of a finite double, `0` for the special values. -/
def Dbl.toK : Dbl K → K
  | fin a => a
  | _ => 0

/-- A double that is finite and strictly positive. -/
def Dbl.FinPos (x : Dbl K) : Prop := ∃ a : K, x = fin a ∧ 0 < a

/-- Eight coefficients as plain values. -/
structure Coeffs (K : Type) where
  alpha : K
  eta : K
  beta : K
  gamma : K
  rho : K
  lambda_phi : K
  lambda_m : K
  kappa_max : K

/-- The parameter set whose eight doubles are the finite values of `p`. -/
def Coeffs.toDbl (p : Coeffs K) : ParameterSet K :=
  ⟨fin p.alpha, fin p.eta, fin p.beta, fin p.gamma, fin p.rho, fin p.lambda_phi,
    fin p.lambda_m, fin p.kappa_max⟩

/-- All eight coefficients are strictly positive. -/
def Coeffs.Valid (p : Coeffs K) : Prop :=
  0 < p.alpha ∧ 0 < p.eta ∧ 0 < p.beta ∧ 0 < p.gamma ∧ 0 < p.rho ∧ 0 < p.lambda_phi ∧
    0 < p.lambda_m ∧ 0 < p.kappa_max

/-- A state triple as plain values. -/
structure Point (K : Type) where
  phi : K
  memory : K
  kappa : K

/-- The state whose three doubles are the finite values of `s`. -/
def Point.toDbl (s : Point K) : StructuralState K := ⟨fin s.phi, fin s.memory, fin s.kappa⟩

/-- The spec's squared norm: the sum of the squares of the first `dim` components. -/
def spec_norm2 (v : Nat → K) (dim : Nat) : K := ∑ i in Finset.range dim, v i * v i

/-- The spec's magnitude guard: `n` is replaced by `T * T` when a guard `T` is
configured and `n > T * T`. -/
def spec_guard (T : Option K) (n : K) : K :=
  match T with
  | none => n
  | some T => if T * T < n then T * T else n

/-- The spec's `max_rate = max(eta, gamma, rho, lambda_phi, lambda_m)`. -/
def spec_max_rate (p : Coeffs K) : K :=
  max p.eta (max p.gamma (max p.rho (max p.lambda_phi p.lambda_m)))

/-- The spec's `clamp(x, lo, hi)`. -/
def spec_clamp (x lo hi : K) : K := max lo (min hi x)

/-- The spec's energy update `phi' = max(0, phi + alpha*n - eta*phi*dt)`. -/
def spec_phi (p : Coeffs K) (s : Point K) (n t : K) : K :=
  max 0 (s.phi + p.alpha * n - p.eta * s.phi * t)

/-- The spec's memory update `memory' = max(0, memory + beta*phi'*dt - gamma*memory*dt)`. -/
def spec_memory (p : Coeffs K) (s : Point K) (n t : K) : K :=
  max 0 (s.memory + p.beta * spec_phi p s n t * t - p.gamma * s.memory * t)

/-- The spec's stability update `kappa' = clamp(kappa + rho*(kappa_max - kappa)*dt
- lambda_phi*phi'*dt - lambda_m*memory'*dt, 0, kappa_max)`. -/
def spec_kappa (p : Coeffs K) (s : Point K) (n t : K) : K :=
  spec_clamp
    (s.kappa + p.rho * (p.kappa_max - s.kappa) * t - p.lambda_phi * spec_phi p s n t * t
      - p.lambda_m * spec_memory p s n t * t)
    0 p.kappa_max

/-- The spec's canonical update of the whole triple. -/
def spec_update (p : Coeffs K) (s : Point K) (n t : K) : Point K :=
  ⟨spec_phi p s n t, spec_memory p s n t, spec_kappa p s n t⟩

/-- The spec's unclamped energy candidate `phi + alpha*n - eta*phi*dt`. -/
def spec_phi_raw (p : Coeffs K) (s : Point K) (n t : K) : K :=
  s.phi + p.alpha * n - p.eta * s.phi * t

/-- The spec's unclamped memory candidate `memory + beta*phi'*dt - gamma*memory*dt`,
where `phi'` is the committed energy. -/
def spec_memory_raw (p : Coeffs K) (s : Point K) (n t : K) : K :=
  s.memory + p.beta * spec_phi p s n t * t - p.gamma * s.memory * t

/-- The spec's unclamped stability candidate `kappa + rho*(kappa_max - kappa)*dt
- lambda_phi*phi'*dt - lambda_m*memory'*dt`, where `phi'` and `memory'` are the committed
energy and memory. -/
def spec_kappa_raw (p : Coeffs K) (s : Point K) (n t : K) : K :=
  s.kappa + p.rho * (p.kappa_max - s.kappa) * t - p.lambda_phi * spec_phi p s n t * t
    - p.lambda_m * spec_memory p s n t * t

/-- What the program relies on about `std::sqrt`: the square root of a finite positive
double is a finite positive double. -/
def SqrtSpec (std_sqrt : Dbl K → Dbl K) : Prop :=
  ∀ x : K, 0 < x → ∃ r : K, 0 < r ∧ std_sqrt (fin x) = fin r

/-- The invariant of an engine that `Create` built: a valid parameter set, a nonzero
dimension, a valid guard, a finite current state within its bounds, a finite previous
state and a counter that fits 64 bits. -/
def MaxCore.WellFormed (e : MaxCore K) : Prop :=
  ∃ p : Coeffs K, ∃ s : Point K, ∃ s0 : Point K,
    p.Valid ∧ e.params_ = p.toDbl ∧ e.current_ = s.toDbl ∧ e.previous_ = s0.toDbl ∧
    0 ≤ s.phi ∧ 0 ≤ s.memory ∧ 0 ≤ s.kappa ∧ s.kappa ≤ p.kappa_max ∧
    e.delta_dim_ ≠ 0 ∧ (∀ dm, e.delta_max_ = some dm → Dbl.FinPos dm) ∧
    e.lifecycle_.step_counter < 2 ^ 64

/-- A square root on doubles from a square root `f` on the nonnegative finite values,
with the IEEE-754 results on the other arguments. -/
def sqrt_lift (f : K → K) : Dbl K → Dbl K
  | fin x => if x < 0 then nan else fin (f x)
  | pinf => pinf
  | ninf => nan
  | nan => nan

/-- The coefficients of tests/test_norm_guard.cpp: (1, 0.1, 0.5, 0.1, 0.2, 0.1, 0.1, 10). -/
def coeffs_guard : Coeffs K := ⟨1, 1 / 10, 1 / 2, 1 / 10, 1 / 5, 1 / 10, 1 / 10, 10⟩

/-- The guarded engine of tests/test_norm_guard.cpp right after `Create`: dimension 2,
initial state (0, 0, 10), guard 5. -/
def engine_guard : MaxCore K :=
  MaxCore.new (coeffs_guard : Coeffs K).toDbl 2 ⟨fin 0, fin 0, fin 10⟩ (some (fin 5))

/-- The components of a forcing vector of dimension 2. -/
def pair (a b : K) : Nat → K := fun i => if i = 0 then a else b

/-! ### The derived projection (`src/maxcore/derived.cpp`, `include/maxcore/derived.h`) -/

/-- The read-only frame of diagnostics (`struct DerivedFrame`). -/
structure DerivedFrame (K : Type) where
  d_phi : Dbl K
  d_memory : Dbl K
  d_kappa : Dbl K
  phi_rate : Dbl K
  memory_rate : Dbl K
  kappa_rate : Dbl K
  kappa_ratio : Dbl K
  kappa_distance : Dbl K
  load_term : Dbl K
  regen_term : Dbl K
  step_counter : Nat
  terminal : Bool
  collapse_emitted : Bool
  deriving DecidableEq, Repr

/-- The function `ComputeDerived` of derived.cpp; `none` is `std::nullopt`. -/
def ComputeDerived (current previous : StructuralState K) (lifecycle : LifecycleContext)
    (params : ParameterSet K) (dt : Dbl K) : Option (DerivedFrame K) :=
  if !is_finite current.phi || !is_finite current.memory || !is_finite current.kappa then none
  else if !is_finite previous.phi || !is_finite previous.memory || !is_finite previous.kappa
  then none
  else if !is_finite params.lambda_phi || !is_finite params.lambda_m || !is_finite params.rho
    || !is_finite params.kappa_max then none
  else if !(Dbl.gt params.kappa_max 0) then none
  else if !is_finite dt || !(Dbl.gt dt 0) then none
  else
    let d_phi := current.phi - previous.phi
    let d_memory := current.memory - previous.memory
    let d_kappa := current.kappa - previous.kappa
    if !is_finite d_phi || !is_finite d_memory || !is_finite d_kappa then none
    else
      let phi_rate := d_phi / dt
      let memory_rate := d_memory / dt
      let kappa_rate := d_kappa / dt
      if !is_finite phi_rate || !is_finite memory_rate || !is_finite kappa_rate then none
      else
        let kappa_ratio := current.kappa / params.kappa_max
        if !is_finite kappa_ratio then none
        else
          let kappa_ratio := Dbl.std_max 0 (Dbl.std_min 1 kappa_ratio)
          let kappa_distance := current.kappa
          if !is_finite kappa_distance || Dbl.lt kappa_distance 0 then none
          else
            let load_term :=
              (params.lambda_phi * current.phi) + (params.lambda_m * current.memory)
            let regen_term := params.rho * (params.kappa_max - current.kappa)
            if !is_finite load_term || !is_finite regen_term then none
            else
              some
                { d_phi := d_phi
                  d_memory := d_memory
                  d_kappa := d_kappa
                  phi_rate := phi_rate
                  memory_rate := memory_rate
                  kappa_rate := kappa_rate
                  kappa_ratio := kappa_ratio
                  kappa_distance := kappa_distance
                  load_term := load_term
                  regen_term := regen_term
                  step_counter := lifecycle.step_counter
                  terminal := lifecycle.terminal
                  collapse_emitted := lifecycle.collapse_emitted }

/-! ### The C interface (`src/maxcore/c_api.cpp`, `include/maxcore/c_api.h`)

A pointer argument is an `Option`: `none` is the null pointer.  A function with an
output pointer returns its `int` result together with what the pointer holds after the
call. -/

/-- The C enumeration `maxcore_event`. -/
inductive maxcore_event where
  | MAXCORE_EVENT_NORMAL
  | MAXCORE_EVENT_COLLAPSE
  | MAXCORE_EVENT_ERROR
  deriving DecidableEq, Repr

/-- The integer value of a `maxcore_event` enumerator. -/
def maxcore_event.code : maxcore_event → Nat
  | MAXCORE_EVENT_NORMAL => 0
  | MAXCORE_EVENT_COLLAPSE => 1
  | MAXCORE_EVENT_ERROR => 2

/-- The integer value of an `EventFlag` enumerator (`enum class EventFlag : uint8_t`). -/
def EventFlag.code : EventFlag → Nat
  | NORMAL => 0
  | COLLAPSE => 1
  | ERROR => 2

/-- The C struct `maxcore_params`. -/
structure maxcore_params (K : Type) where
  alpha : Dbl K
  eta : Dbl K
  beta : Dbl K
  gamma : Dbl K
  rho : Dbl K
  lambda_phi : Dbl K
  lambda_m : Dbl K
  kappa_max : Dbl K
  deriving DecidableEq, Repr

/-- The C struct `maxcore_state`. -/
structure maxcore_state (K : Type) where
  phi : Dbl K
  memory : Dbl K
  kappa : Dbl K
  deriving DecidableEq, Repr

/-- The C struct `maxcore_lifecycle`; the two flags are of type `int`. -/
structure maxcore_lifecycle where
  step_counter : Nat
  terminal : Int
  collapse_emitted : Int
  deriving DecidableEq, Repr

/-- The C struct `maxcore_derived_frame`; the two flags are of type `int`. -/
structure maxcore_derived_frame (K : Type) where
  d_phi : Dbl K
  d_memory : Dbl K
  d_kappa : Dbl K
  phi_rate : Dbl K
  memory_rate : Dbl K
  kappa_rate : Dbl K
  kappa_ratio : Dbl K
  kappa_distance : Dbl K
  load_term : Dbl K
  regen_term : Dbl K
  step_counter : Nat
  terminal : Int
  collapse_emitted : Int
  deriving DecidableEq, Repr

/-- The object behind a handle (`struct maxcore_handle`). -/
structure maxcore_handle (K : Type) where
  params : ParameterSet K
  delta_dim : Nat
  delta_max : Option (Dbl K)
  core : MaxCore K
  last_error : String
  deriving DecidableEq, Repr

/-- The helper `to_cpp_params` of c_api.cpp. -/
def to_cpp_params (p : maxcore_params K) : ParameterSet K :=
  { alpha := p.alpha
    eta := p.eta
    beta := p.beta
    gamma := p.gamma
    rho := p.rho
    lambda_phi := p.lambda_phi
    lambda_m := p.lambda_m
    kappa_max := p.kappa_max }

/-- The helper `to_cpp_state` of c_api.cpp. -/
def to_cpp_state (s : maxcore_state K) : StructuralState K := ⟨s.phi, s.memory, s.kappa⟩

/-- The helper `from_cpp_state` of c_api.cpp: the struct `out` after the three
assignments. -/
def from_cpp_state (s : StructuralState K) (out : maxcore_state K) : maxcore_state K :=
  { out with phi := s.phi, memory := s.memory, kappa := s.kappa }

/-- The helper `from_cpp_lifecycle` of c_api.cpp: the struct `out` after the three
assignments. -/
def from_cpp_lifecycle (lc : LifecycleContext) (out : maxcore_lifecycle) : maxcore_lifecycle :=
  { out with
    step_counter := lc.step_counter
    terminal := if lc.terminal then 1 else 0
    collapse_emitted := if lc.collapse_emitted then 1 else 0 }

/-- The function `maxcore_create`; `none` is the null handle.  The heap is not part of
the model: `alloc` tells whether `new (std::nothrow)` returned an object. -/
def maxcore_create (alloc : Bool) (params : Option (maxcore_params K)) (delta_dim : Nat)
    (initial_state : Option (maxcore_state K)) (delta_max_opt : Option (Dbl K)) :
    Option (maxcore_handle K) :=
  match params, initial_state with
  | some params, some initial_state =>
    let p := to_cpp_params params
    let init := to_cpp_state initial_state
    let dm : Option (Dbl K) :=
      match delta_max_opt with
      | some d => some d
      | none => none
    match MaxCore.Create p delta_dim init dm with
    | none => none
    | some core =>
      if !alloc then none
      else
        let h : maxcore_handle K := ⟨p, delta_dim, dm, core, ""⟩
        some { h with last_error := "" }
  | _, _ => none

/-- The function `maxcore_step`: the returned event and the handle after the call. -/
def maxcore_step (std_sqrt : Dbl K → Dbl K) (h : Option (maxcore_handle K))
    (delta_input : Option (Nat → Dbl K)) (delta_len : Nat) (dt : Dbl K) :
    maxcore_event × Option (maxcore_handle K) :=
  match h with
  | none => (maxcore_event.MAXCORE_EVENT_ERROR, none)
  | some h =>
    let r := h.core.Step std_sqrt delta_input delta_len dt
    let ev := r.1
    let h := { h with core := r.2 }
    if ev = EventFlag.ERROR then
      (maxcore_event.MAXCORE_EVENT_ERROR, some { h with last_error := "Step() returned ERROR" })
    else
      let h := { h with last_error := "" }
      if ev = EventFlag.COLLAPSE then (maxcore_event.MAXCORE_EVENT_COLLAPSE, some h)
      else (maxcore_event.MAXCORE_EVENT_NORMAL, some h)

/-- The function `maxcore_get_current`. -/
def maxcore_get_current (h : Option (maxcore_handle K)) (out : Option (maxcore_state K)) :
    Int × Option (maxcore_state K) :=
  match h, out with
  | some h, some out => (1, some (from_cpp_state h.core.current_ out))
  | _, _ => (0, out)

/-- The function `maxcore_get_previous`. -/
def maxcore_get_previous (h : Option (maxcore_handle K)) (out : Option (maxcore_state K)) :
    Int × Option (maxcore_state K) :=
  match h, out with
  | some h, some out => (1, some (from_cpp_state h.core.previous_ out))
  | _, _ => (0, out)

/-- The function `maxcore_get_lifecycle`. -/
def maxcore_get_lifecycle (h : Option (maxcore_handle K)) (out : Option maxcore_lifecycle) :
    Int × Option maxcore_lifecycle :=
  match h, out with
  | some h, some out => (1, some (from_cpp_lifecycle h.core.lifecycle_ out))
  | _, _ => (0, out)

/-- The function `maxcore_compute_derived`. -/
def maxcore_compute_derived (h : Option (maxcore_handle K)) (dt : Dbl K)
    (out : Option (maxcore_derived_frame K)) : Int × Option (maxcore_derived_frame K) :=
  match h, out with
  | some h, some out =>
    match ComputeDerived h.core.current_ h.core.previous_ h.core.lifecycle_ h.params dt with
    | none => (0, some out)
    | some d =>
      (1, some
        { out with
          d_phi := d.d_phi
          d_memory := d.d_memory
          d_kappa := d.d_kappa
          phi_rate := d.phi_rate
          memory_rate := d.memory_rate
          kappa_rate := d.kappa_rate
          kappa_ratio := d.kappa_ratio
          kappa_distance := d.kappa_distance
          load_term := d.load_term
          regen_term := d.regen_term
          step_counter := d.step_counter
          terminal := if d.terminal then 1 else 0
          collapse_emitted := if d.collapse_emitted then 1 else 0 })
  | _, _ => (0, out)

/-- The function `maxcore_last_error`. -/
def maxcore_last_error (h : Option (maxcore_handle K)) : String :=
  match h with
  | none => "null handle"
  | some h => if h.last_error.isEmpty then "" else h.last_error

/-- The handle after a finite sequence of `maxcore_step` calls. -/
def capi_run (std_sqrt : Dbl K → Dbl K) (h : Option (maxcore_handle K)) :
    List (StepCall K) → Option (maxcore_handle K)
  | [] => h
  | c :: cs => capi_run std_sqrt (maxcore_step std_sqrt h c.delta_input c.delta_len c.dt).2 cs

/-- The events returned by a finite sequence of `maxcore_step` calls. -/
def capi_trace (std_sqrt : Dbl K → Dbl K) (h : Option (maxcore_handle K)) :
    List (StepCall K) → List maxcore_event
  | [] => []
  | c :: cs =>
    (maxcore_step std_sqrt h c.delta_input c.delta_len c.dt).1 ::
      capi_trace std_sqrt (maxcore_step std_sqrt h c.delta_input c.delta_len c.dt).2 cs

/-- The C frame that holds the values of a `DerivedFrame`, booleans as 0 or 1. -/
def DerivedFrame.toC (d : DerivedFrame K) : maxcore_derived_frame K :=
  { d_phi := d.d_phi
    d_memory := d.d_memory
    d_kappa := d.d_kappa
    phi_rate := d.phi_rate
    memory_rate := d.memory_rate
    kappa_rate := d.kappa_rate
    kappa_ratio := d.kappa_ratio
    kappa_distance := d.kappa_distance
    load_term := d.load_term
    regen_term := d.regen_term
    step_counter := d.step_counter
    terminal := if d.terminal then 1 else 0
    collapse_emitted := if d.collapse_emitted then 1 else 0 }

/-- The parity requirement on `maxcore_compute_derived`, given what `ComputeDerived`
yields on the core: result 1 and the values of the frame written to the output, or
result 0 and the output left as it was. -/
def derived_parity (d : Option (DerivedFrame K)) (out : maxcore_derived_frame K) :
    Int × Option (maxcore_derived_frame K) :=
  match d with
  | some d => (1, some d.toC)
  | none => (0, some out)

/-- The spec's outputs of the derived projection, on plain values: deltas
`current - previous`, rates `delta / dt`, `kappa_ratio = clamp(kappa / kappa_max, 0, 1)`,
`kappa_distance = kappa`, `load_term = lambda_phi*phi + lambda_m*memory`,
`regen_term = rho*(kappa_max - kappa)`, and the lifecycle fields verbatim. -/
def spec_derived (c q : Point K) (lifecycle : LifecycleContext)
    (lambda_phi lambda_m rho kappa_max t : K) : DerivedFrame K :=
  { d_phi := fin (c.phi - q.phi)
    d_memory := fin (c.memory - q.memory)
    d_kappa := fin (c.kappa - q.kappa)
    phi_rate := fin ((c.phi - q.phi) / t)
    memory_rate := fin ((c.memory - q.memory) / t)
    kappa_rate := fin ((c.kappa - q.kappa) / t)
    kappa_ratio := fin (spec_clamp (c.kappa / kappa_max) 0 1)
    kappa_distance := fin c.kappa
    load_term := fin (lambda_phi * c.phi + lambda_m * c.memory)
    regen_term := fin (rho * (kappa_max - c.kappa))
    step_counter := lifecycle.step_counter
    terminal := lifecycle.terminal
    collapse_emitted := lifecycle.collapse_emitted }

end Engine

/-! ### Concrete data over `ℚ` used to evaluate the model -/

/-- An executable stand-in for `std::sqrt` on rationals: exact on squares of rationals,
rounded down to a multiple of `1 / den` otherwise, and never `0` on a positive input. -/
def sqrtQ : Dbl ℚ → Dbl ℚ
  | fin x => if x < 0 then nan else fin ((Nat.sqrt (x.num.toNat * x.den) : ℚ) / (x.den : ℚ))
  | pinf => pinf
  | ninf => nan
  | nan => nan

/-- The forcing vector with the two given components. -/
def vec2 (a b : ℚ) : Nat → Dbl ℚ := fun i => if i = 0 then fin a else fin b

/-- A forcing vector whose second component is NaN (case D of
tests/test_validation.cpp). -/
def vec_nan : Nat → Dbl ℚ := fun i => if i = 0 then fin 1 else nan

/-- The coefficients of tests/test_canonical.cpp:
(alpha, eta, beta, gamma, rho, lambda_phi, lambda_m, kappa_max)
= (2, 0.5, 0.25, 0.5, 0.1, 0.2, 0.3, 10). -/
def coeffs_canonical : Coeffs ℚ := ⟨2, 1 / 2, 1 / 4, 1 / 2, 1 / 10, 1 / 5, 3 / 10, 10⟩

/-- The engine of tests/test_canonical.cpp right after `Create`: dimension 2, initial
state (1, 2, 5), no guard. -/
def engine_canonical : MaxCore ℚ :=
  MaxCore.new coeffs_canonical.toDbl 2 ⟨fin 1, fin 2, fin 5⟩ none

/-- The coefficients of tests/test_dt_stability.cpp, where `eta = 2` is the largest
rate: (1, 2, 0.5, 0.1, 0.2, 0.1, 0.1, 10). -/
def coeffs_stability : Coeffs ℚ := ⟨1, 2, 1 / 2, 1 / 10, 1 / 5, 1 / 10, 1 / 10, 10⟩

/-- The engine of tests/test_dt_stability.cpp right after `Create`: dimension 2, initial
state (0, 0, 10), no guard. -/
def engine_stability : MaxCore ℚ :=
  MaxCore.new coeffs_stability.toDbl 2 ⟨fin 0, fin 0, fin 10⟩ none

/-- The canonical configuration created at rest: initial state (0, 0, kappa_max). -/
def engine_rest : MaxCore ℚ :=
  MaxCore.new coeffs_canonical.toDbl 2 ⟨fin 0, fin 0, fin 10⟩ none

/-- The engine at rest with the given value of `step_counter`. -/
def engine_rest_at (c : Nat) : MaxCore ℚ :=
  { engine_rest with lifecycle_ := ⟨c, false, false⟩ }

/-- The call that keeps an engine at rest: zero forcing, `dt = 0.1`. -/
def rest_call : StepCall ℚ := ⟨some (vec2 0 0), 2, fin (1 / 10)⟩

/-- The coefficients of tests/test_collapse.cpp: (1, 0.1, 0.5, 0.1, 0.05, 0.25, 0.25, 10). -/
def coeffs_collapse : Coeffs ℚ := ⟨1, 1 / 10, 1 / 2, 1 / 10, 1 / 20, 1 / 4, 1 / 4, 10⟩

/-- The engine of tests/test_collapse.cpp right after `Create`: dimension 2, initial
state (0, 0, 10), no guard. -/
def engine_collapse : MaxCore ℚ :=
  MaxCore.new coeffs_collapse.toDbl 2 ⟨fin 0, fin 0, fin 10⟩ none

/-- The call repeated by tests/test_collapse.cpp: forcing (1, 2), `dt = 0.01`. -/
def collapse_call : StepCall ℚ := ⟨some (vec2 1 2), 2, fin (1 / 100)⟩

/-- The state committed by the step of tests/test_canonical.cpp. -/
def state_canonical : StructuralState ℚ :=
  ⟨fin (1019 / 20), fin (2539 / 800), fin (314863 / 80000)⟩

/-- The frame that `ComputeDerived` yields after the step of tests/test_canonical.cpp,
for `dt = 0.1`. -/
def frame_canonical : DerivedFrame ℚ :=
  { d_phi := fin (999 / 20)
    d_memory := fin (939 / 800)
    d_kappa := fin (-85137 / 80000)
    phi_rate := fin (999 / 2)
    memory_rate := fin (939 / 80)
    kappa_rate := fin (-85137 / 8000)
    kappa_ratio := fin (314863 / 800000)
    kappa_distance := fin (314863 / 80000)
    load_term := fin (89137 / 8000)
    regen_term := fin (485137 / 800000)
    step_counter := 1
    terminal := false
    collapse_emitted := false }

/-- A parameter set whose coefficients `alpha`, `eta`, `beta`, `gamma` are not finite;
the other four are those of tests/test_canonical.cpp. -/
def params_nonfinite : ParameterSet ℚ :=
  ⟨nan, pinf, ninf, nan, fin (1 / 10), fin (1 / 5), fin (3 / 10), fin 10⟩

/-- The parameters of tests/test_canonical.cpp as a C struct. -/
def capi_params_canonical : maxcore_params ℚ :=
  ⟨fin 2, fin (1 / 2), fin (1 / 4), fin (1 / 2), fin (1 / 10), fin (1 / 5), fin (3 / 10), fin 10⟩

/-- The initial state (1, 2, 5) of tests/test_canonical.cpp as a C struct. -/
def capi_state_canonical : maxcore_state ℚ := ⟨fin 1, fin 2, fin 5⟩

/-- The valid call of tests/test_canonical.cpp followed by a call with `dt == 0`. -/
def calls_valid_then_error : List (StepCall ℚ) :=
  [⟨some (vec2 3 4), 2, fin (1 / 10)⟩, ⟨some (vec2 1 2), 2, fin 0⟩]

/-- The parameters of tests/test_c_api_error_channel.cpp as a C struct:
(1, 0.1, 0.5, 0.1, 0.2, 0.1, 0.1, 10). -/
def capi_params_channel : maxcore_params ℚ :=
  ⟨fin 1, fin (1 / 10), fin (1 / 2), fin (1 / 10), fin (1 / 5), fin (1 / 10), fin (1 / 10),
    fin 10⟩

/-- The initial state (0, 0, 10) of tests/test_c_api_error_channel.cpp as a C struct. -/
def capi_state_rest : maxcore_state ℚ := ⟨fin 0, fin 0, fin 10⟩

/-- The object behind the handle that `maxcore_create` returns in
tests/test_c_api_error_channel.cpp. -/
def handle_channel : maxcore_handle ℚ :=
  ⟨to_cpp_params capi_params_channel, 2, none,
    MaxCore.new (to_cpp_params capi_params_channel) 2 ⟨fin 0, fin 0, fin 10⟩ none, ""⟩

/-- The same object with the error text of an earlier rejected call. -/
def handle_channel_error : maxcore_handle ℚ :=
  { handle_channel with last_error := "Step() returned ERROR" }

/-- The power `2 ^ k` for an integer `k`. -/
def pow2 (k : Int) : ℚ :=
  if 0 ≤ k then ((2 ^ k.toNat : Nat) : ℚ) else 1 / ((2 ^ (-k).toNat : Nat) : ℚ)

/-- The number of binary digits of `n`, computed with `fuel` halvings at most. -/
def bit_length_fuel : Nat → Nat → Nat
  | 0, _ => 0
  | fuel + 1, n => if n = 0 then 0 else bit_length_fuel fuel (n / 2) + 1

/-- The number of binary digits of `n`: `2 ^ (bit_length n - 1) <= n < 2 ^ bit_length n`
for `n > 0`. -/
def bit_length (n : Nat) : Nat := bit_length_fuel n n

/-- The integer `floor (log2 a)` for a rational `a > 0`: with
`k = bit_length num - bit_length den` one has `2 ^ (k - 1) < a < 2 ^ (k + 1)`. -/
def floor_log2 (a : ℚ) : Int :=
  let k : Int := (bit_length a.num.toNat : Int) - (bit_length a.den : Int)
  if pow2 k ≤ a then k else k - 1

/-- The integer nearest to a rational `m >= 0`, a tie going to the even one. -/
def round_half_even (m : ℚ) : Nat :=
  let n := m.num.toNat / m.den
  let r := m - (n : ℚ)
  if 2 * r < 1 then n
  else if 1 < 2 * r then n + 1
  else if n % 2 = 0 then n else n + 1

/-- Rounding of a rational `a > 0` to IEEE-754 binary64, to nearest, ties to even: the
result is a multiple of the quantum `2 ^ e`, where `e = max (floor (log2 a)) (-1022) - 52`
(53 significant bits, subnormals below `2 ^ -1022`), or `+inf` when the rounded value
reaches `2 ^ 1024`. -/
def round_binary64_pos (a : ℚ) : Dbl ℚ :=
  let e : Int := max (floor_log2 a) (-1022) - 52
  let r : ℚ := (round_half_even (a / pow2 e) : ℚ) * pow2 e
  if pow2 1024 ≤ r then pinf else fin r

/-- Rounding of an exact result to IEEE-754 binary64 (round to nearest, ties to even). -/
def round_binary64 (x : ℚ) : Dbl ℚ :=
  if x = 0 then fin 0
  else if 0 < x then round_binary64_pos x
  else Dbl.neg (round_binary64_pos (-x))

/-- The components of a forcing vector of dimension 4. -/
def quad (a b c d : ℚ) : Nat → ℚ :=
  fun i => if i = 0 then a else if i = 1 then b else if i = 2 then c else d

/-- Coefficients that are exact in binary64: (1, 0.5, 0.25, 0.5, 0.125, 0.25, 0.25, 8). -/
def coeffs_dyadic : Coeffs ℚ := ⟨1, 1 / 2, 1 / 4, 1 / 2, 1 / 8, 1 / 4, 1 / 4, 8⟩

/-- An engine of dimension 4 with the dyadic coefficients, created at rest (0, 0, 8)
without a guard. -/
def engine_dyadic : MaxCore ℚ := MaxCore.new coeffs_dyadic.toDbl 4 ⟨fin 0, fin 0, fin 8⟩ none

/-- A pointer to the doubles 3, 4 followed in memory by a NaN and then by 7s. -/
def vec2_then_garbage : Nat → Dbl ℚ :=
  fun i => if i = 0 then fin 3 else if i = 1 then fin 4 else if i = 2 then nan else fin 7

/-- An engine that is terminal from its construction: the same configuration with
initial state (1, 2, 0). -/
def engine_terminal : MaxCore ℚ :=
  MaxCore.new coeffs_canonical.toDbl 2 ⟨fin 1, fin 2, fin 0⟩ none

end maxcore

/-! ## Theorems -/

namespace maxcore

open Dbl

set_option linter.unusedSectionVars false

section Lemmas

variable {K : Type} [LinearOrderedField K]

/-! ### Arithmetic of the number model -/

theorem Dbl.zero_def : (0 : Dbl K) = fin 0 := rfl

theorem Dbl.one_def : (1 : Dbl K) = fin 1 := rfl

theorem Dbl.add_def (x y : Dbl K) : x + y = Dbl.add x y := rfl

theorem Dbl.sub_def (x y : Dbl K) : x - y = Dbl.add x (Dbl.neg y) := rfl

theorem Dbl.mul_def (x y : Dbl K) : x * y = Dbl.mul x y := rfl

theorem Dbl.div_def (x y : Dbl K) : x / y = Dbl.div x y := rfl

@[simp] theorem Dbl.fin_add_fin (a b : K) : (fin a + fin b : Dbl K) = fin (a + b) := rfl

@[simp] theorem Dbl.fin_sub_fin (a b : K) : (fin a - fin b : Dbl K) = fin (a - b) := by
  simp [Dbl.sub_def, Dbl.add, Dbl.neg, sub_eq_add_neg]

@[simp] theorem Dbl.fin_mul_fin (a b : K) : (fin a * fin b : Dbl K) = fin (a * b) := rfl

theorem Dbl.fin_div_fin (a b : K) (hb : b ≠ 0) : (fin a / fin b : Dbl K) = fin (a / b) := by
  simp [Dbl.div_def, Dbl.div, hb]

@[simp] theorem Dbl.lt_fin_fin (a b : K) : Dbl.lt (fin a) (fin b) = decide (a < b) := rfl

@[simp] theorem Dbl.gt_fin_fin (a b : K) : Dbl.gt (fin a) (fin b) = decide (b < a) := rfl

@[simp] theorem Dbl.lt_fin_zero (a : K) : Dbl.lt (fin a) 0 = decide (a < 0) := rfl

@[simp] theorem Dbl.gt_fin_zero (a : K) : Dbl.gt (fin a) 0 = decide (0 < a) := rfl

@[simp] theorem Dbl.lt_fin_one (a : K) : Dbl.lt (fin a) 1 = decide (a < 1) := rfl

@[simp] theorem Dbl.eq_fin_fin (a b : K) : Dbl.eq (fin a) (fin b) = decide (a = b) := rfl

@[simp] theorem is_finite_fin (a : K) : is_finite (fin a) = true := rfl

@[simp] theorem is_finite_pinf : is_finite (pinf : Dbl K) = false := rfl

@[simp] theorem is_finite_ninf : is_finite (ninf : Dbl K) = false := rfl

@[simp] theorem is_finite_nan : is_finite (nan : Dbl K) = false := rfl

@[simp] theorem is_zero_fin (a : K) : is_zero (fin a) = decide (a = 0) := rfl

theorem is_finite_iff (x : Dbl K) : is_finite x = true ↔ ∃ a : K, x = fin a := by
  cases x <;> simp

theorem is_finite_false_iff (x : Dbl K) : is_finite x = false ↔ ∀ a : K, x ≠ fin a := by
  cases x <;> simp

theorem is_zero_iff (x : Dbl K) : is_zero x = true ↔ x = 0 := by
  cases x <;> simp [is_zero, Dbl.eq, Dbl.zero_def]

theorem is_zero_false_iff (x : Dbl K) : is_zero x = false ↔ x ≠ 0 := by
  cases x <;> simp [is_zero, Dbl.eq, Dbl.zero_def]

theorem is_finite_signedInf (a : K) : is_finite (signedInf a) = false := by
  unfold signedInf; split_ifs <;> rfl

theorem is_finite_add {x y : Dbl K} (h : is_finite (x + y) = true) :
    is_finite x = true ∧ is_finite y = true := by
  cases x <;> cases y <;> simp_all [Dbl.add_def, Dbl.add]

theorem is_finite_sub {x y : Dbl K} (h : is_finite (x - y) = true) :
    is_finite x = true ∧ is_finite y = true := by
  cases x <;> cases y <;> simp_all [Dbl.sub_def, Dbl.add, Dbl.neg]

theorem is_finite_mul {x y : Dbl K} (h : is_finite (x * y) = true) :
    is_finite x = true ∧ is_finite y = true := by
  cases x <;> cases y <;> simp_all [Dbl.mul_def, Dbl.mul, is_finite_signedInf]

theorem Dbl.gt_zero_iff (x : Dbl K) (hx : is_finite x = true) :
    Dbl.gt x 0 = true ↔ Dbl.FinPos x := by
  obtain ⟨a, rfl⟩ := (is_finite_iff x).1 hx
  simp [Dbl.FinPos]

theorem Dbl.finPos_iff (x : Dbl K) :
    Dbl.FinPos x ↔ (is_finite x = true ∧ Dbl.gt x 0 = true) := by
  constructor
  · rintro ⟨a, rfl, ha⟩; simp [ha]
  · rintro ⟨h1, h2⟩; exact (Dbl.gt_zero_iff x h1).1 h2

theorem Dbl.std_max_fin (a b : K) : Dbl.std_max (fin a) (fin b) = fin (max a b) := by
  unfold Dbl.std_max
  by_cases h : a < b
  · simp [h, max_eq_right h.le]
  · simp [h, max_eq_left (not_lt.1 h)]

theorem clamp_range_fin (x lo hi : K) (h : lo ≤ hi) :
    clamp_range (fin x) (fin lo) (fin hi) = fin (spec_clamp x lo hi) := by
  unfold clamp_range spec_clamp
  by_cases h1 : x < lo
  · simp [h1, min_eq_right (le_trans h1.le h), max_eq_left h1.le]
  · by_cases h2 : hi < x
    · simp [h1, h2, min_eq_left h2.le, max_eq_right h]
    · simp [h1, h2, min_eq_right (not_lt.1 h2), max_eq_right (not_lt.1 h1)]

/-! ### The structure of `Step` -/

theorem Step_terminal (std_sqrt : Dbl K → Dbl K) (self : MaxCore K)
    (delta_input : Option (Nat → Dbl K)) (delta_len : Nat) (dt : Dbl K)
    (h : is_zero self.current_.kappa = true) :
    self.Step std_sqrt delta_input delta_len dt = (EventFlag.NORMAL, self) := by
  simp [MaxCore.Step, h]

theorem Step_of_candidate_none (std_sqrt : Dbl K → Dbl K) (self : MaxCore K)
    (delta_input : Option (Nat → Dbl K)) (delta_len : Nat) (dt : Dbl K)
    (h : is_zero self.current_.kappa = false)
    (hc : self.candidate std_sqrt delta_input delta_len dt = none) :
    self.Step std_sqrt delta_input delta_len dt = (EventFlag.ERROR, self) := by
  simp [MaxCore.Step, h, hc]

theorem Step_of_candidate_some (std_sqrt : Dbl K → Dbl K) (self : MaxCore K)
    (delta_input : Option (Nat → Dbl K)) (delta_len : Nat) (dt : Dbl K)
    (next : StructuralState K)
    (h : is_zero self.current_.kappa = false)
    (hc : self.candidate std_sqrt delta_input delta_len dt = some next) :
    self.Step std_sqrt delta_input delta_len dt = self.commit next := by
  simp [MaxCore.Step, h, hc]

theorem commit_fst_ne_error (self : MaxCore K) (next : StructuralState K) :
    (self.commit next).1 ≠ EventFlag.ERROR := by
  unfold MaxCore.commit
  dsimp only
  split <;> simp

theorem Step_error_iff (std_sqrt : Dbl K → Dbl K) (self : MaxCore K)
    (delta_input : Option (Nat → Dbl K)) (delta_len : Nat) (dt : Dbl K) :
    (self.Step std_sqrt delta_input delta_len dt).1 = EventFlag.ERROR ↔
      (is_zero self.current_.kappa = false ∧
        self.candidate std_sqrt delta_input delta_len dt = none) := by
  cases hz : is_zero self.current_.kappa
  · cases hc : self.candidate std_sqrt delta_input delta_len dt with
    | none => simp [Step_of_candidate_none _ _ _ _ _ hz hc]
    | some next =>
      simp [Step_of_candidate_some _ _ _ _ _ next hz hc, commit_fst_ne_error]
  · simp [Step_terminal _ _ _ _ _ hz]

theorem candidate_eq_some_iff (std_sqrt : Dbl K → Dbl K) (self : MaxCore K)
    (delta_input : Option (Nat → Dbl K)) (delta_len : Nat) (dt : Dbl K)
    (next : StructuralState K) :
    self.candidate std_sqrt delta_input delta_len dt = some next ↔
      ∃ delta norm2 norm2g, delta_input = some delta ∧ delta_len = self.delta_dim_ ∧
        is_finite dt = true ∧ Dbl.gt dt 0 = true ∧
        is_finite (max_rate self.params_) = true ∧
        is_finite (dt * max_rate self.params_) = true ∧
        Dbl.lt (dt * max_rate self.params_) 1 = true ∧
        norm2_loop delta self.delta_dim_ 0 0 = some norm2 ∧
        is_finite norm2 = true ∧ Dbl.lt norm2 0 = false ∧
        norm_guard std_sqrt self.delta_max_ norm2 = some norm2g ∧
        canonical_update self.params_ self.current_ norm2g dt = some next := by
  cases delta_input with
  | none => simp [MaxCore.candidate]
  | some delta =>
    unfold MaxCore.candidate
    by_cases h1 : delta_len = self.delta_dim_
    · by_cases h2 : is_finite dt = true
      · by_cases h3 : Dbl.gt dt 0 = true
        · by_cases h4 : is_finite (max_rate self.params_) = true
          · by_cases h5 : is_finite (dt * max_rate self.params_) = true
            · by_cases h6 : Dbl.lt (dt * max_rate self.params_) 1 = true
              · cases h7 : norm2_loop delta self.delta_dim_ 0 0 with
                | none => simp [h1, h2, h3, h4, h5, h6, h7]
                | some norm2 =>
                  by_cases h8 : is_finite norm2 = true
                  · by_cases h9 : Dbl.lt norm2 0 = true
                    · simp [h1, h2, h3, h4, h5, h6, h7, h8, h9]
                    · cases h10 : norm_guard std_sqrt self.delta_max_ norm2 with
                      | none => simp [h1, h2, h3, h4, h5, h6, h7, h8, h9, h10]
                      | some norm2g => simp [h1, h2, h3, h4, h5, h6, h7, h8, h9, h10]
                  · simp [h1, h2, h3, h4, h5, h6, h7, h8]
              · simp [h1, h2, h3, h4, h5, h6]
            · simp [h1, h2, h3, h4, h5]
          · simp [h1, h2, h3, h4]
        · simp [h1, h2, h3]
      · simp [h1, h2]
    · simp [h1]

theorem norm_guard_eq_some_iff (std_sqrt : Dbl K → Dbl K) (delta_max_ : Option (Dbl K))
    (norm2 r : Dbl K) :
    norm_guard std_sqrt delta_max_ norm2 = some r ↔
      (delta_max_ = none ∧ norm2 = r) ∨
      ∃ dm, delta_max_ = some dm ∧ is_finite dm = true ∧ Dbl.gt dm 0 = true ∧
        is_finite (dm * dm) = true ∧
        ((Dbl.gt norm2 (dm * dm) = false ∧ norm2 = r) ∨
          (Dbl.gt norm2 (dm * dm) = true ∧ is_finite (std_sqrt norm2) = true ∧
            Dbl.gt (std_sqrt norm2) 0 = true ∧ is_finite (dm / std_sqrt norm2) = true ∧
            Dbl.gt (dm / std_sqrt norm2) 0 = true ∧ dm * dm = r)) := by
  cases delta_max_ with
  | none => simp [norm_guard]
  | some dm =>
    unfold norm_guard
    by_cases h1 : is_finite dm = true
    · by_cases h2 : Dbl.gt dm 0 = true
      · by_cases h3 : is_finite (dm * dm) = true
        · by_cases h4 : Dbl.gt norm2 (dm * dm) = true
          · by_cases h5 : is_finite (std_sqrt norm2) = true
            · by_cases h6 : Dbl.gt (std_sqrt norm2) 0 = true
              · by_cases h7 : is_finite (dm / std_sqrt norm2) = true
                · by_cases h8 : Dbl.gt (dm / std_sqrt norm2) 0 = true
                  · simp [h1, h2, h3, h4, h5, h6, h7, h8]
                  · simp [h1, h2, h3, h4, h5, h6, h7, h8]
                · simp [h1, h2, h3, h4, h5, h6, h7]
              · simp [h1, h2, h3, h4, h5, h6]
            · simp [h1, h2, h3, h4, h5]
          · simp [h1, h2, h3, h4]
        · simp [h1, h2, h3]
      · simp [h1, h2]
    · simp [h1]

theorem relu_fin (x : K) :
    (if Dbl.lt (fin x) 0 = true then (0 : Dbl K) else fin x) = fin (max 0 x) := by
  by_cases h : x < 0
  · simp [h, max_eq_left h.le, Dbl.zero_def]
  · simp [h, max_eq_right (not_lt.1 h)]

theorem canonical_update_fin (p : Coeffs K) (s : Point K) (n t : K) (hk : 0 ≤ p.kappa_max) :
    canonical_update p.toDbl s.toDbl (fin n) (fin t) = some (spec_update p s n t).toDbl := by
  have hc : ∀ x : K, clamp_range (fin x) 0 (fin p.kappa_max) = fin (spec_clamp x 0 p.kappa_max) :=
    fun x => clamp_range_fin x 0 p.kappa_max hk
  simp only [canonical_update, Coeffs.toDbl, Point.toDbl, Dbl.fin_mul_fin, Dbl.fin_add_fin,
    Dbl.fin_sub_fin, relu_fin, is_finite_fin, hc]
  simp [spec_update, spec_kappa, spec_memory, spec_phi]

theorem canonical_update_finite {P : ParameterSet K} {S : StructuralState K} {N T : Dbl K}
    {next : StructuralState K} (h : canonical_update P S N T = some next) :
    (is_finite P.alpha = true ∧ is_finite P.eta = true ∧ is_finite P.beta = true ∧
      is_finite P.gamma = true ∧ is_finite P.rho = true ∧ is_finite P.lambda_phi = true ∧
      is_finite P.lambda_m = true ∧ is_finite P.kappa_max = true) ∧
    (is_finite S.phi = true ∧ is_finite S.memory = true ∧ is_finite S.kappa = true) ∧
    is_finite N = true ∧ is_finite T = true := by
  unfold canonical_update at h
  simp only [] at h
  have h1 : is_finite (S.phi + P.alpha * N - P.eta * S.phi * T) = true := by
    by_contra hc
    simp [hc] at h
  simp only [h1, Bool.not_true, Bool.false_eq_true, if_false] at h
  generalize (if Dbl.lt (S.phi + P.alpha * N - P.eta * S.phi * T) 0 = true then (0 : Dbl K)
    else S.phi + P.alpha * N - P.eta * S.phi * T) = phi1 at h
  have h2 : is_finite (S.memory + P.beta * phi1 * T - P.gamma * S.memory * T) = true := by
    by_contra hc
    simp [hc] at h
  simp only [h2, Bool.not_true, Bool.false_eq_true, if_false] at h
  generalize (if Dbl.lt (S.memory + P.beta * phi1 * T - P.gamma * S.memory * T) 0 = true
    then (0 : Dbl K) else S.memory + P.beta * phi1 * T - P.gamma * S.memory * T) = mem1 at h
  have h3 : is_finite (S.kappa + P.rho * (P.kappa_max - S.kappa) * T - P.lambda_phi * phi1 * T
      - P.lambda_m * mem1 * T) = true := by
    by_contra hc
    simp [hc] at h
  have a1 := is_finite_sub h1
  have a2 := is_finite_add a1.1
  have a3 := is_finite_mul a2.2
  have a4 := is_finite_mul a1.2
  have a5 := is_finite_mul a4.1
  have b1 := is_finite_sub h2
  have b2 := is_finite_add b1.1
  have b3 := is_finite_mul b2.2
  have b4 := is_finite_mul b3.1
  have b5 := is_finite_mul b1.2
  have b6 := is_finite_mul b5.1
  have c1 := is_finite_sub h3
  have c2 := is_finite_sub c1.1
  have c3 := is_finite_add c2.1
  have c4 := is_finite_mul c3.2
  have c5 := is_finite_mul c4.1
  have c6 := is_finite_sub c5.2
  have c7 := is_finite_mul c2.2
  have c8 := is_finite_mul c7.1
  have c9 := is_finite_mul c1.2
  have c10 := is_finite_mul c9.1
  exact ⟨⟨a3.1, a5.1, b4.1, b6.1, c5.1, c8.1, c10.1, c6.1⟩, ⟨a2.1, b2.1, c3.1⟩, a3.2, a4.2⟩

theorem Dbl.fin_toK {x : Dbl K} (h : is_finite x = true) : fin (Dbl.toK x) = x := by
  cases x <;> simp_all [Dbl.toK]

/-! ### The accumulation loop -/

theorem norm2_loop_fin (delta : Nat → Dbl K) (v : Nat → K) :
    ∀ (n i : Nat) (a : K), (∀ j, j < n → delta (i + j) = fin (v (i + j))) →
      norm2_loop delta n i (fin a)
        = some (fin (a + ∑ j in Finset.range n, v (i + j) * v (i + j))) := by
  intro n
  induction n with
  | zero => intro i a _; simp [norm2_loop]
  | succ n ih =>
    intro i a h
    have h0 : delta i = fin (v i) := by simpa using h 0 (Nat.succ_pos n)
    have hrest : ∀ j, j < n → delta (i + 1 + j) = fin (v (i + 1 + j)) := by
      intro j hj
      have := h (j + 1) (Nat.succ_lt_succ hj)
      simpa [Nat.add_assoc, Nat.add_comm 1 j] using this
    rw [norm2_loop]
    simp only [h0, is_finite_fin, Bool.not_true, Bool.false_eq_true, if_false,
      Dbl.fin_mul_fin, Dbl.fin_add_fin]
    rw [ih (i + 1) (a + v i * v i) hrest, Finset.sum_range_succ']
    simp [Nat.add_assoc, Nat.add_comm 1, add_assoc, add_comm (v i * v i)]

theorem norm2_loop_some_finite (delta : Nat → Dbl K) :
    ∀ (n i : Nat) (acc r : Dbl K), norm2_loop delta n i acc = some r →
      ∀ j, j < n → is_finite (delta (i + j)) = true := by
  intro n
  induction n with
  | zero => intro i acc r _ j hj; exact absurd hj (Nat.not_lt_zero j)
  | succ n ih =>
    intro i acc r h j hj
    rw [norm2_loop] at h
    by_cases h0 : is_finite (delta i) = true
    · simp only [h0, Bool.not_true, Bool.false_eq_true, if_false] at h
      cases j with
      | zero => simpa using h0
      | succ j =>
        have := ih (i + 1) _ r h j (Nat.lt_of_succ_lt_succ hj)
        simpa [Nat.add_assoc, Nat.add_comm 1 j] using this
    · simp [h0] at h

theorem norm2_loop_spec (delta : Nat → Dbl K) (dim : Nat) (r : Dbl K)
    (h : norm2_loop delta dim 0 0 = some r) :
    (∀ i, i < dim → delta i = fin (Dbl.toK (delta i))) ∧
      r = fin (spec_norm2 (fun i => Dbl.toK (delta i)) dim) := by
  have hf : ∀ i, i < dim → delta i = fin (Dbl.toK (delta i)) := by
    intro i hi
    have := norm2_loop_some_finite delta dim 0 0 r h i hi
    rw [Nat.zero_add] at this
    exact (Dbl.fin_toK this).symm
  refine ⟨hf, ?_⟩
  have h2 := norm2_loop_fin delta (fun i => Dbl.toK (delta i)) dim 0 0
    (by intro j hj; simpa using hf j hj)
  rw [Dbl.zero_def] at h
  rw [h2] at h
  simpa [spec_norm2, eq_comm] using h

theorem spec_norm2_nonneg (v : Nat → K) (dim : Nat) : 0 ≤ spec_norm2 v dim :=
  Finset.sum_nonneg (fun i _ => mul_self_nonneg (v i))

theorem spec_norm2_congr (v w : Nat → K) (dim : Nat) (h : ∀ i, i < dim → v i = w i) :
    spec_norm2 v dim = spec_norm2 w dim := by
  unfold spec_norm2
  apply Finset.sum_congr rfl
  intro i hi
  rw [h i (Finset.mem_range.1 hi)]

theorem norm2_loop_of_fin (delta : Nat → Dbl K) (v : Nat → K) (dim : Nat)
    (h : ∀ i, i < dim → delta i = fin (v i)) :
    norm2_loop delta dim 0 0 = some (fin (spec_norm2 v dim)) := by
  rw [Dbl.zero_def, norm2_loop_fin delta v dim 0 0 (by intro j hj; simpa using h j hj)]
  simp [spec_norm2]

/-! ### The rate bound and the parameter check -/

theorem max_rate_fin (p : Coeffs K) : max_rate p.toDbl = fin (spec_max_rate p) := by
  simp only [max_rate, Coeffs.toDbl, Dbl.std_max_fin, spec_max_rate, max_assoc]

theorem validate_params_loop_iff (l : List (Dbl K)) :
    validate_params_loop l = true ↔ ∀ v, v ∈ l → Dbl.FinPos v := by
  induction l with
  | nil => simp [validate_params_loop]
  | cons v vals ih =>
    rw [validate_params_loop, List.forall_mem_cons, Dbl.finPos_iff, ← ih]
    cases h1 : is_finite v <;> cases h2 : Dbl.gt v 0 <;> simp

theorem validate_params_iff_forall (P : ParameterSet K) :
    validate_params P = true ↔
      ∀ v, v ∈ [P.alpha, P.eta, P.beta, P.gamma, P.rho, P.lambda_phi, P.lambda_m, P.kappa_max] →
        Dbl.FinPos v :=
  validate_params_loop_iff _

theorem validate_params_iff (P : ParameterSet K) :
    validate_params P = true ↔ ∃ p : Coeffs K, p.Valid ∧ P = p.toDbl := by
  rw [validate_params_iff_forall]
  constructor
  · intro h
    simp only [List.forall_mem_cons, List.not_mem_nil, false_imp_iff, implies_true,
      and_true] at h
    obtain ⟨⟨a, ha, ha'⟩, ⟨b, hb, hb'⟩, ⟨c, hc, hc'⟩, ⟨d, hd, hd'⟩, ⟨e, he, he'⟩,
      ⟨f, hf, hf'⟩, ⟨g, hg, hg'⟩, ⟨k, hk, hk'⟩⟩ := h
    refine ⟨⟨a, b, c, d, e, f, g, k⟩, ⟨ha', hb', hc', hd', he', hf', hg', hk'⟩, ?_⟩
    cases P
    simp_all [Coeffs.toDbl]
  · rintro ⟨p, ⟨h1, h2, h3, h4, h5, h6, h7, h8⟩, rfl⟩
    simp [Coeffs.toDbl, Dbl.FinPos, h1, h2, h3, h4, h5, h6, h7, h8]

/-! ### The norm guard -/

theorem norm_guard_some_spec {std_sqrt : Dbl K → Dbl K} {g : Option (Dbl K)} {n : K}
    {r : Dbl K} (h : norm_guard std_sqrt g (fin n) = some r) :
    ∃ T : Option K, g = T.map fin ∧ (∀ x, T = some x → 0 < x) ∧ r = fin (spec_guard T n) := by
  rcases (norm_guard_eq_some_iff std_sqrt g (fin n) r).1 h with ⟨hg, hr⟩ | ⟨dm, hg, h1, h2, _, h4⟩
  · exact ⟨none, by simp [hg], by simp, by simp [spec_guard, hr]⟩
  · obtain ⟨x, rfl⟩ := (is_finite_iff dm).1 h1
    have hx : 0 < x := by simpa using h2
    refine ⟨some x, by simp [hg], by intro y hy; cases hy; exact hx, ?_⟩
    rcases h4 with ⟨h5, hr⟩ | ⟨h5, _, _, _, _, hr⟩
    · have : ¬ x * x < n := by simpa using h5
      simp [spec_guard, this, hr]
    · have : x * x < n := by simpa using h5
      simp [spec_guard, this, ← hr]

theorem norm_guard_of_valid {std_sqrt : Dbl K → Dbl K} (hsqrt : SqrtSpec std_sqrt)
    (T : Option K) (hT : ∀ x, T = some x → 0 < x) (n : K) :
    norm_guard std_sqrt (T.map fin) (fin n) = some (fin (spec_guard T n)) := by
  cases T with
  | none => simp [norm_guard, spec_guard]
  | some x =>
    have hx : 0 < x := hT x rfl
    rw [norm_guard_eq_some_iff]
    right
    refine ⟨fin x, rfl, rfl, by simp [hx], rfl, ?_⟩
    by_cases hn : x * x < n
    · right
      have hn0 : 0 < n := lt_of_le_of_lt (mul_self_nonneg x) hn
      obtain ⟨r, hr, hs⟩ := hsqrt n hn0
      rw [hs, Dbl.fin_div_fin x r hr.ne']
      refine ⟨by simp [hn], rfl, by simp [hr], rfl, by simp [div_pos hx hr], ?_⟩
      simp [spec_guard, hn]
    · left
      simp [spec_guard, hn]

/-! ### The candidate on finite data -/

theorem state_of_finite {S : StructuralState K}
    (h : is_finite S.phi = true ∧ is_finite S.memory = true ∧ is_finite S.kappa = true) :
    ∃ s : Point K, S = s.toDbl := by
  refine ⟨⟨Dbl.toK S.phi, Dbl.toK S.memory, Dbl.toK S.kappa⟩, ?_⟩
  cases S
  simp only [Point.toDbl, Dbl.fin_toK h.1, Dbl.fin_toK h.2.1, Dbl.fin_toK h.2.2]

theorem candidate_some_spec {std_sqrt : Dbl K → Dbl K} {self : MaxCore K}
    {delta_input : Option (Nat → Dbl K)} {delta_len : Nat} {dt : Dbl K}
    {next : StructuralState K} (p : Coeffs K) (hp : self.params_ = p.toDbl)
    (hk : 0 ≤ p.kappa_max)
    (h : self.candidate std_sqrt delta_input delta_len dt = some next) :
    ∃ (delta : Nat → Dbl K) (v : Nat → K) (s : Point K) (t : K) (T : Option K),
      delta_input = some delta ∧ delta_len = self.delta_dim_ ∧
      (∀ i, i < self.delta_dim_ → delta i = fin (v i)) ∧
      self.current_ = s.toDbl ∧ dt = fin t ∧ 0 < t ∧ t * spec_max_rate p < 1 ∧
      self.delta_max_ = T.map fin ∧ (∀ x, T = some x → 0 < x) ∧
      next = (spec_update p s (spec_guard T (spec_norm2 v self.delta_dim_)) t).toDbl := by
  obtain ⟨delta, norm2, norm2g, h1, h2, h3, h4, _, _, h7, h8, _, _, h11, h12⟩ :=
    (candidate_eq_some_iff _ _ _ _ _ _).1 h
  obtain ⟨t, rfl⟩ := (is_finite_iff dt).1 h3
  obtain ⟨hv, rfl⟩ := norm2_loop_spec delta _ _ h8
  obtain ⟨T, hT1, hT2, rfl⟩ := norm_guard_some_spec h11
  obtain ⟨s, hs⟩ := state_of_finite (canonical_update_finite h12).2.1
  refine ⟨delta, fun i => Dbl.toK (delta i), s, t, T, h1, h2, hv, hs, rfl, by simpa using h4,
    ?_, hT1, hT2, ?_⟩
  · rw [hp, max_rate_fin] at h7
    simpa using h7
  · rw [hp, hs, canonical_update_fin p s _ t hk] at h12
    exact (Option.some.inj h12).symm

theorem candidate_of_valid {std_sqrt : Dbl K → Dbl K} (hsqrt : SqrtSpec std_sqrt)
    (self : MaxCore K) (p : Coeffs K) (s : Point K) (T : Option K) (delta : Nat → Dbl K)
    (v : Nat → K) (t : K)
    (hp : self.params_ = p.toDbl) (hk : 0 ≤ p.kappa_max) (hs : self.current_ = s.toDbl)
    (hg : self.delta_max_ = T.map fin) (hT : ∀ x, T = some x → 0 < x)
    (hd : ∀ i, i < self.delta_dim_ → delta i = fin (v i))
    (ht : 0 < t) (hst : t * spec_max_rate p < 1) :
    self.candidate std_sqrt (some delta) self.delta_dim_ (fin t)
      = some (spec_update p s (spec_guard T (spec_norm2 v self.delta_dim_)) t).toDbl := by
  rw [candidate_eq_some_iff]
  refine ⟨delta, fin (spec_norm2 v self.delta_dim_),
    fin (spec_guard T (spec_norm2 v self.delta_dim_)), rfl, rfl, rfl, by simp [ht], ?_, ?_, ?_,
    norm2_loop_of_fin delta v _ hd, rfl, ?_, ?_, ?_⟩
  · rw [hp, max_rate_fin]; rfl
  · rw [hp, max_rate_fin]; rfl
  · rw [hp, max_rate_fin]; simp [hst]
  · simp [not_lt.2 (spec_norm2_nonneg v self.delta_dim_)]
  · rw [hg]; exact norm_guard_of_valid hsqrt T hT _
  · rw [hp, hs]; exact canonical_update_fin p s _ t hk

/-! ### Construction and the invariant of engines built by `Create` -/

theorem validate_initial_state_iff (S : StructuralState K) (kmax : K) :
    validate_initial_state S (fin kmax) = true ↔
      ∃ s : Point K, S = s.toDbl ∧ 0 ≤ s.phi ∧ 0 ≤ s.memory ∧ 0 ≤ s.kappa ∧ s.kappa ≤ kmax := by
  constructor
  · intro h
    unfold validate_initial_state at h
    by_cases hf : is_finite S.phi = true ∧ is_finite S.memory = true ∧ is_finite S.kappa = true
    · obtain ⟨s, rfl⟩ := state_of_finite hf
      refine ⟨s, rfl, ?_⟩
      simp only [Point.toDbl, is_finite_fin, Bool.not_true, Bool.or_self, Bool.false_eq_true,
        if_false, Dbl.lt_fin_zero, Dbl.gt_fin_fin, decide_eq_true_eq] at h
      split_ifs at h with h1 h2 h3 h4
      exact ⟨not_lt.1 h1, not_lt.1 h2, not_lt.1 h3, not_lt.1 h4⟩
    · exfalso
      rcases S with ⟨a, b, c⟩
      cases a <;> cases b <;> cases c <;> simp_all
  · rintro ⟨s, rfl, h1, h2, h3, h4⟩
    simp [validate_initial_state, Point.toDbl, not_lt.2 h1, not_lt.2 h2, not_lt.2 h3,
      not_lt.2 h4]

theorem Create_eq_some_iff (params : ParameterSet K) (delta_dim : Nat)
    (initial_state : StructuralState K) (delta_max : Option (Dbl K)) (e : MaxCore K) :
    MaxCore.Create params delta_dim initial_state delta_max = some e ↔
      delta_dim ≠ 0 ∧ validate_params params = true ∧
      validate_initial_state initial_state params.kappa_max = true ∧
      (∀ dm, delta_max = some dm → Dbl.FinPos dm) ∧
      MaxCore.new params delta_dim initial_state delta_max = e := by
  unfold MaxCore.Create
  by_cases h1 : delta_dim = 0
  · simp [h1]
  · by_cases h2 : validate_params params = true
    · by_cases h3 : validate_initial_state initial_state params.kappa_max = true
      · cases delta_max with
        | none => simp [h1, h2, h3]
        | some dm =>
          by_cases h4 : is_finite dm = true
          · by_cases h5 : Dbl.gt dm 0 = true
            · simp [h1, h2, h3, h4, h5, Dbl.finPos_iff]
            · simp [h1, h2, h3, h4, h5, Dbl.finPos_iff]
          · simp [h1, h2, h3, h4, Dbl.finPos_iff]
      · simp [h1, h2, h3]
    · simp [h1, h2]

theorem spec_clamp_bounds (x lo hi : K) (h : lo ≤ hi) :
    lo ≤ spec_clamp x lo hi ∧ spec_clamp x lo hi ≤ hi :=
  ⟨le_max_left _ _, max_le h (min_le_left _ _)⟩

theorem wellFormed_create {params : ParameterSet K} {delta_dim : Nat}
    {initial_state : StructuralState K} {delta_max : Option (Dbl K)} {e : MaxCore K}
    (h : MaxCore.Create params delta_dim initial_state delta_max = some e) :
    e.WellFormed := by
  obtain ⟨h1, h2, h3, h4, rfl⟩ := (Create_eq_some_iff _ _ _ _ _).1 h
  obtain ⟨p, hv, rfl⟩ := (validate_params_iff _).1 h2
  obtain ⟨s, rfl, a1, a2, a3, a4⟩ := (validate_initial_state_iff _ _).1 h3
  exact ⟨p, s, s, hv, rfl, rfl, rfl, a1, a2, a3, a4, h1, h4, by simp [MaxCore.new]⟩

theorem wellFormed_step (std_sqrt : Dbl K → Dbl K) {e : MaxCore K} (hw : e.WellFormed)
    (delta_input : Option (Nat → Dbl K)) (delta_len : Nat) (dt : Dbl K) :
    (e.Step std_sqrt delta_input delta_len dt).2.WellFormed := by
  cases hz : is_zero e.current_.kappa with
  | true => rw [Step_terminal _ _ _ _ _ hz]; exact hw
  | false =>
    cases hc : e.candidate std_sqrt delta_input delta_len dt with
    | none => rw [Step_of_candidate_none _ _ _ _ _ hz hc]; exact hw
    | some next =>
      rw [Step_of_candidate_some _ _ _ _ _ next hz hc]
      obtain ⟨p, s, s0, hv, hp, hs, _, _, _, _, _, hd, hg, _⟩ := hw
      have hk : 0 ≤ p.kappa_max := hv.2.2.2.2.2.2.2.le
      obtain ⟨_, v, s1, t, T, _, _, _, hs1, _, _, _, _, _, hn⟩ := candidate_some_spec p hp hk hc
      refine ⟨p, spec_update p s1 (spec_guard T (spec_norm2 v e.delta_dim_)) t, s, hv, hp, hn,
        hs, le_max_left _ _, le_max_left _ _, (spec_clamp_bounds _ _ _ hk).1,
        (spec_clamp_bounds _ _ _ hk).2, hd, hg, ?_⟩
      exact Nat.mod_lt _ (by norm_num)

theorem wellFormed_run (std_sqrt : Dbl K → Dbl K) (calls : List (StepCall K)) :
    ∀ e : MaxCore K, e.WellFormed → (e.run std_sqrt calls).WellFormed := by
  induction calls with
  | nil => intro e hw; exact hw
  | cons c cs ih =>
    intro e hw
    exact ih _ (wellFormed_step std_sqrt hw c.delta_input c.delta_len c.dt)

theorem max_rate_of_fin (P : ParameterSet K) (eta gamma rho lambda_phi lambda_m : K)
    (h1 : P.eta = fin eta) (h2 : P.gamma = fin gamma) (h3 : P.rho = fin rho)
    (h4 : P.lambda_phi = fin lambda_phi) (h5 : P.lambda_m = fin lambda_m) :
    max_rate P = fin (max eta (max gamma (max rho (max lambda_phi lambda_m)))) := by
  simp only [max_rate, h1, h2, h3, h4, h5, Dbl.std_max_fin, max_assoc]

theorem Step_config (std_sqrt : Dbl K → Dbl K) (self : MaxCore K)
    (delta_input : Option (Nat → Dbl K)) (delta_len : Nat) (dt : Dbl K) :
    (self.Step std_sqrt delta_input delta_len dt).2.params_ = self.params_ ∧
    (self.Step std_sqrt delta_input delta_len dt).2.delta_dim_ = self.delta_dim_ ∧
    (self.Step std_sqrt delta_input delta_len dt).2.delta_max_ = self.delta_max_ := by
  cases hz : is_zero self.current_.kappa with
  | true => rw [Step_terminal _ _ _ _ _ hz]; exact ⟨rfl, rfl, rfl⟩
  | false =>
    cases hc : self.candidate std_sqrt delta_input delta_len dt with
    | none => rw [Step_of_candidate_none _ _ _ _ _ hz hc]; exact ⟨rfl, rfl, rfl⟩
    | some next => rw [Step_of_candidate_some _ _ _ _ _ next hz hc]; exact ⟨rfl, rfl, rfl⟩

theorem run_config (std_sqrt : Dbl K → Dbl K) (calls : List (StepCall K)) :
    ∀ e : MaxCore K, (e.run std_sqrt calls).params_ = e.params_ ∧
      (e.run std_sqrt calls).delta_dim_ = e.delta_dim_ ∧
      (e.run std_sqrt calls).delta_max_ = e.delta_max_ := by
  induction calls with
  | nil => intro e; exact ⟨rfl, rfl, rfl⟩
  | cons c cs ih =>
    intro e
    obtain ⟨h1, h2, h3⟩ := ih (e.Step std_sqrt c.delta_input c.delta_len c.dt).2
    obtain ⟨g1, g2, g3⟩ := Step_config std_sqrt e c.delta_input c.delta_len c.dt
    exact ⟨h1.trans g1, h2.trans g2, h3.trans g3⟩

/-! ### The three outcomes of `Step` -/

theorem Step_cases (std_sqrt : Dbl K → Dbl K) (self : MaxCore K)
    (delta_input : Option (Nat → Dbl K)) (delta_len : Nat) (dt : Dbl K) :
    (is_zero self.current_.kappa = true ∧
      self.Step std_sqrt delta_input delta_len dt = (EventFlag.NORMAL, self)) ∨
    (is_zero self.current_.kappa = false ∧
      self.candidate std_sqrt delta_input delta_len dt = none ∧
      self.Step std_sqrt delta_input delta_len dt = (EventFlag.ERROR, self)) ∨
    (is_zero self.current_.kappa = false ∧
      ∃ next, self.candidate std_sqrt delta_input delta_len dt = some next ∧
        self.Step std_sqrt delta_input delta_len dt = self.commit next) := by
  cases hz : is_zero self.current_.kappa with
  | true => exact Or.inl ⟨rfl, Step_terminal _ _ _ _ _ hz⟩
  | false =>
    cases hc : self.candidate std_sqrt delta_input delta_len dt with
    | none => exact Or.inr (Or.inl ⟨rfl, rfl, Step_of_candidate_none _ _ _ _ _ hz hc⟩)
    | some next =>
      exact Or.inr (Or.inr ⟨rfl, next, rfl, Step_of_candidate_some _ _ _ _ _ next hz hc⟩)

theorem commit_fst (self : MaxCore K) (next : StructuralState K) :
    (self.commit next).1 =
      if (Dbl.gt self.current_.kappa 0 && is_zero next.kappa) = true then EventFlag.COLLAPSE
      else EventFlag.NORMAL := rfl

theorem commit_collapse_iff (self : MaxCore K) (next : StructuralState K) :
    (self.commit next).1 = EventFlag.COLLAPSE ↔
      (Dbl.gt self.current_.kappa 0 = true ∧ is_zero next.kappa = true) := by
  rw [commit_fst]
  cases Dbl.gt self.current_.kappa 0 <;> cases is_zero next.kappa <;> simp

theorem commit_normal_iff (self : MaxCore K) (next : StructuralState K) :
    (self.commit next).1 = EventFlag.NORMAL ↔
      ¬ (Dbl.gt self.current_.kappa 0 = true ∧ is_zero next.kappa = true) := by
  rw [commit_fst]
  cases Dbl.gt self.current_.kappa 0 <;> cases is_zero next.kappa <;> simp

theorem Step_collapse_terminal (std_sqrt : Dbl K → Dbl K) (self : MaxCore K)
    (delta_input : Option (Nat → Dbl K)) (delta_len : Nat) (dt : Dbl K)
    (h : (self.Step std_sqrt delta_input delta_len dt).1 = EventFlag.COLLAPSE) :
    is_zero (self.Step std_sqrt delta_input delta_len dt).2.current_.kappa = true := by
  rcases Step_cases std_sqrt self delta_input delta_len dt with
    ⟨_, hs⟩ | ⟨_, _, hs⟩ | ⟨_, next, _, hs⟩
  · rw [hs] at h; cases h
  · rw [hs] at h; cases h
  · rw [hs] at h ⊢
    exact ((commit_collapse_iff _ _).1 h).2

theorem Step_terminal_flag (std_sqrt : Dbl K → Dbl K) (self : MaxCore K)
    (delta_input : Option (Nat → Dbl K)) (delta_len : Nat) (dt : Dbl K)
    (h : self.lifecycle_.terminal = is_zero self.current_.kappa) :
    (self.Step std_sqrt delta_input delta_len dt).2.lifecycle_.terminal
      = is_zero (self.Step std_sqrt delta_input delta_len dt).2.current_.kappa := by
  rcases Step_cases std_sqrt self delta_input delta_len dt with
    ⟨_, hs⟩ | ⟨_, _, hs⟩ | ⟨_, next, _, hs⟩
  · rw [hs]; exact h
  · rw [hs]; exact h
  · rw [hs]; rfl

theorem run_terminal_flag (std_sqrt : Dbl K → Dbl K) (calls : List (StepCall K)) :
    ∀ e : MaxCore K, e.lifecycle_.terminal = is_zero e.current_.kappa →
      (e.run std_sqrt calls).lifecycle_.terminal = is_zero (e.run std_sqrt calls).current_.kappa := by
  induction calls with
  | nil => intro e h; exact h
  | cons c cs ih =>
    intro e h
    exact ih _ (Step_terminal_flag std_sqrt e c.delta_input c.delta_len c.dt h)

theorem run_of_terminal (std_sqrt : Dbl K → Dbl K) (calls : List (StepCall K)) :
    ∀ e : MaxCore K, is_zero e.current_.kappa = true →
      e.run std_sqrt calls = e ∧
      e.trace std_sqrt calls = List.replicate calls.length EventFlag.NORMAL := by
  induction calls with
  | nil => intro e _; exact ⟨rfl, rfl⟩
  | cons c cs ih =>
    intro e h
    have hs := Step_terminal std_sqrt e c.delta_input c.delta_len c.dt h
    simp only [MaxCore.run, MaxCore.trace, hs, List.length_cons, List.replicate_succ]
    exact ⟨(ih e h).1, by rw [(ih e h).2]⟩

theorem Step_collapse_emitted_mono (std_sqrt : Dbl K → Dbl K) (self : MaxCore K)
    (delta_input : Option (Nat → Dbl K)) (delta_len : Nat) (dt : Dbl K)
    (h : self.lifecycle_.collapse_emitted = true) :
    (self.Step std_sqrt delta_input delta_len dt).2.lifecycle_.collapse_emitted = true := by
  rcases Step_cases std_sqrt self delta_input delta_len dt with
    ⟨_, hs⟩ | ⟨_, _, hs⟩ | ⟨_, next, _, hs⟩
  · rw [hs]; exact h
  · rw [hs]; exact h
  · rw [hs]
    show (if (Dbl.gt self.current_.kappa 0 && is_zero next.kappa) = true then true
      else self.lifecycle_.collapse_emitted) = true
    rw [h]; simp

theorem states_collapse_emitted (std_sqrt : Dbl K → Dbl K) (calls : List (StepCall K)) :
    ∀ e : MaxCore K, e.lifecycle_.collapse_emitted = true →
      (e.states std_sqrt calls).map (fun x => x.lifecycle_.collapse_emitted)
        = List.replicate (calls.length + 1) true := by
  induction calls with
  | nil => intro e h; simp [MaxCore.states, h]
  | cons c cs ih =>
    intro e h
    have := ih _ (Step_collapse_emitted_mono std_sqrt e c.delta_input c.delta_len c.dt h)
    simp only [MaxCore.states, List.map_cons, this, h, List.length_cons]
    rfl

/-! ### Rescaling the forcing vector -/

theorem spec_norm2_scale (v : Nat → K) (c : K) (dim : Nat) :
    spec_norm2 (fun i => v i * c) dim = c * c * spec_norm2 v dim := by
  unfold spec_norm2
  rw [Finset.mul_sum]
  apply Finset.sum_congr rfl
  intro i _
  ring

theorem spec_norm2_rescaled (v : Nat → K) (T r : K) (dim : Nat) (hr : 0 < r)
    (hrr : r * r = spec_norm2 v dim) :
    spec_norm2 (fun i => v i * (T / r)) dim = T * T := by
  rw [spec_norm2_scale, ← hrr]
  field_simp

theorem candidate_guard_rescale (std_sqrt : Dbl K → Dbl K) (hsqrt : SqrtSpec std_sqrt)
    (self : MaxCore K) (T r : K) (delta : Nat → Dbl K) (v : Nat → K) (delta_len : Nat)
    (dt : Dbl K) (hg : self.delta_max_ = some (fin T)) (hT : 0 < T)
    (hd : ∀ i, i < self.delta_dim_ → delta i = fin (v i))
    (hr : 0 < r) (hrr : r * r = spec_norm2 v self.delta_dim_)
    (hbig : T * T < spec_norm2 v self.delta_dim_) :
    self.candidate std_sqrt (some delta) delta_len dt
      = self.without_guard.candidate std_sqrt (some (fun i => delta i * fin (T / r)))
          delta_len dt := by
  have h1 : norm2_loop delta self.delta_dim_ 0 0
      = some (fin (spec_norm2 v self.delta_dim_)) := norm2_loop_of_fin delta v _ hd
  have h2 : norm2_loop (fun i => delta i * fin (T / r)) self.delta_dim_ 0 0
      = some (fin (T * T)) := by
    rw [norm2_loop_of_fin _ (fun i => v i * (T / r)) _
      (by intro i hi; simp only [hd i hi, Dbl.fin_mul_fin]),
      spec_norm2_rescaled v T r _ hr hrr]
  have h3 : norm_guard std_sqrt (some (fin T)) (fin (spec_norm2 v self.delta_dim_))
      = some (fin (T * T)) := by
    have := norm_guard_of_valid hsqrt (some T) (by intro x hx; cases hx; exact hT)
      (spec_norm2 v self.delta_dim_)
    simpa [spec_guard, hbig] using this
  have h4 : norm_guard std_sqrt none (fin (T * T)) = some (fin (T * T)) := rfl
  have h5 : ¬ spec_norm2 v self.delta_dim_ < 0 := not_lt.2 (spec_norm2_nonneg _ _)
  have h6 : ¬ T * T < 0 := not_lt.2 (mul_self_nonneg T)
  simp only [MaxCore.candidate, MaxCore.without_guard, h1, h2, hg, h3, h4, is_finite_fin,
    Dbl.lt_fin_zero, h5, h6, decide_False, Bool.not_true, Bool.or_self, Bool.false_eq_true,
    if_false]

/-! ### Counting the commits -/

theorem run_step_counter (std_sqrt : Dbl K → Dbl K) (calls : List (StepCall K)) :
    ∀ e : MaxCore K, e.lifecycle_.step_counter < 2 ^ 64 →
      (e.run std_sqrt calls).lifecycle_.step_counter
        = (e.lifecycle_.step_counter + e.commits std_sqrt calls) % 2 ^ 64 := by
  induction calls with
  | nil =>
    intro e h
    simp only [MaxCore.run, MaxCore.commits, Nat.add_zero]
    exact (Nat.mod_eq_of_lt h).symm
  | cons c cs ih =>
    intro e h
    rcases Step_cases std_sqrt e c.delta_input c.delta_len c.dt with
      ⟨hz, hs⟩ | ⟨_, _, hs⟩ | ⟨hz, next, _, hs⟩
    · have h0 : ¬ e.current_.kappa ≠ 0 := not_not.2 ((is_zero_iff _).1 hz)
      simp only [MaxCore.run, MaxCore.commits, hs, h0, false_and, if_false, Nat.zero_add]
      exact ih e h
    · simp only [MaxCore.run, MaxCore.commits, hs, ne_eq, not_true_eq_false, and_false,
        if_false, Nat.zero_add]
      exact ih e h
    · have h0 : e.current_.kappa ≠ 0 := (is_zero_false_iff _).1 hz
      have h1 : (e.commit next).1 ≠ EventFlag.ERROR := commit_fst_ne_error _ _
      have hlt : (e.commit next).2.lifecycle_.step_counter < 2 ^ 64 :=
        Nat.mod_lt _ (by norm_num)
      simp only [MaxCore.run, MaxCore.commits, hs, h0, h1, ne_eq, not_false_eq_true, and_self,
        if_true]
      rw [ih _ hlt]
      show ((e.lifecycle_.step_counter + 1) % 2 ^ 64 + _) % 2 ^ 64 = _
      rw [Nat.mod_add_mod, Nat.add_assoc]

/-! ### Dropping the rejected calls -/

theorem dropErrors_spec (std_sqrt : Dbl K → Dbl K) (calls : List (StepCall K)) :
    ∀ e : MaxCore K,
      e.trace std_sqrt (e.dropErrors std_sqrt calls)
        = (e.trace std_sqrt calls).filter (fun ev => decide (ev ≠ EventFlag.ERROR)) ∧
      e.run std_sqrt (e.dropErrors std_sqrt calls) = e.run std_sqrt calls := by
  induction calls with
  | nil => intro e; exact ⟨rfl, rfl⟩
  | cons c cs ih =>
    intro e
    by_cases hev : (e.Step std_sqrt c.delta_input c.delta_len c.dt).1 = EventFlag.ERROR
    · obtain ⟨hz, hc⟩ := (Step_error_iff _ _ _ _ _).1 hev
      have hs := Step_of_candidate_none _ _ _ _ _ hz hc
      simp only [MaxCore.dropErrors, MaxCore.trace, MaxCore.run, hs, if_true, ne_eq,
        not_true_eq_false, decide_False, List.filter_cons_of_neg, Bool.false_eq_true,
        not_false_eq_true]
      exact ih e
    · obtain ⟨h1, h2⟩ := ih (e.Step std_sqrt c.delta_input c.delta_len c.dt).2
      simp only [MaxCore.dropErrors, hev, if_false, MaxCore.trace, MaxCore.run, ne_eq,
        not_false_eq_true, decide_True, List.filter_cons_of_pos]
      exact ⟨by rw [h1], h2⟩

theorem sqrt_lift_spec (f : K → K) (hf : ∀ x, 0 < x → 0 < f x) : SqrtSpec (sqrt_lift f) := by
  intro x hx
  exact ⟨f x, hf x hx, by simp [sqrt_lift, not_lt.2 hx.le]⟩

/-! ### The derived projection -/

theorem Dbl.std_min_fin (a b : K) : Dbl.std_min (fin a) (fin b) = fin (min a b) := by
  unfold Dbl.std_min
  by_cases h : b < a
  · simp [h, min_eq_right h.le]
  · simp [h, min_eq_left (not_lt.1 h)]

theorem ComputeDerived_fin (c q : Point K) (lc : LifecycleContext) (P : ParameterSet K)
    (lp lm rho km t : K) (h1 : P.lambda_phi = fin lp) (h2 : P.lambda_m = fin lm)
    (h3 : P.rho = fin rho) (h4 : P.kappa_max = fin km) :
    ComputeDerived c.toDbl q.toDbl lc P (fin t)
      = if 0 < km ∧ 0 < t ∧ 0 ≤ c.kappa then some (spec_derived c q lc lp lm rho km t)
        else none := by
  unfold ComputeDerived
  by_cases hkm : 0 < km
  · by_cases ht : 0 < t
    · by_cases hk : 0 ≤ c.kappa
      · simp only [Point.toDbl, h1, h2, h3, h4, is_finite_fin, Dbl.fin_sub_fin, Dbl.fin_mul_fin,
          Dbl.fin_add_fin, Dbl.fin_div_fin _ _ ht.ne', Dbl.fin_div_fin _ _ hkm.ne',
          Dbl.zero_def, Dbl.one_def, Dbl.std_min_fin, Dbl.std_max_fin, Dbl.gt_fin_fin,
          Dbl.lt_fin_fin]
        simp [hkm, ht, hk, not_lt.2 hk, spec_derived, spec_clamp]
      · simp only [Point.toDbl, h1, h2, h3, h4, is_finite_fin, Dbl.fin_sub_fin, Dbl.fin_mul_fin,
          Dbl.fin_add_fin, Dbl.fin_div_fin _ _ ht.ne', Dbl.fin_div_fin _ _ hkm.ne',
          Dbl.zero_def, Dbl.one_def, Dbl.std_min_fin, Dbl.std_max_fin, Dbl.gt_fin_fin,
          Dbl.lt_fin_fin]
        simp [hkm, ht, hk, not_le.1 hk]
    · simp [Point.toDbl, h1, h2, h3, h4, hkm, ht, Dbl.zero_def]
  · simp [Point.toDbl, h1, h2, h3, h4, hkm, Dbl.zero_def]

theorem ComputeDerived_some_inv {C Q : StructuralState K} {lc : LifecycleContext}
    {P : ParameterSet K} {dt : Dbl K} {f : DerivedFrame K}
    (h : ComputeDerived C Q lc P dt = some f) :
    ∃ (c q : Point K) (lp lm rho km t : K),
      C = c.toDbl ∧ Q = q.toDbl ∧ P.lambda_phi = fin lp ∧ P.lambda_m = fin lm ∧
      P.rho = fin rho ∧ P.kappa_max = fin km ∧ dt = fin t ∧
      0 < km ∧ 0 < t ∧ 0 ≤ c.kappa ∧ f = spec_derived c q lc lp lm rho km t := by
  have hC : is_finite C.phi = true ∧ is_finite C.memory = true ∧ is_finite C.kappa = true := by
    by_contra hc
    have : (!is_finite C.phi || !is_finite C.memory || !is_finite C.kappa) = true := by
      cases h1 : is_finite C.phi <;> cases h2 : is_finite C.memory <;>
        cases h3 : is_finite C.kappa <;> simp_all
    simp [ComputeDerived, this] at h
  obtain ⟨c, rfl⟩ := state_of_finite hC
  have hQ : is_finite Q.phi = true ∧ is_finite Q.memory = true ∧ is_finite Q.kappa = true := by
    by_contra hc
    have : (!is_finite Q.phi || !is_finite Q.memory || !is_finite Q.kappa) = true := by
      cases h1 : is_finite Q.phi <;> cases h2 : is_finite Q.memory <;>
        cases h3 : is_finite Q.kappa <;> simp_all
    simp [ComputeDerived, this] at h
  obtain ⟨q, rfl⟩ := state_of_finite hQ
  have hP : is_finite P.lambda_phi = true ∧ is_finite P.lambda_m = true ∧
      is_finite P.rho = true ∧ is_finite P.kappa_max = true := by
    by_contra hc
    have : (!is_finite P.lambda_phi || !is_finite P.lambda_m || !is_finite P.rho
        || !is_finite P.kappa_max) = true := by
      cases h1 : is_finite P.lambda_phi <;> cases h2 : is_finite P.lambda_m <;>
        cases h3 : is_finite P.rho <;> cases h4 : is_finite P.kappa_max <;> simp_all
    simp [ComputeDerived, Point.toDbl, this] at h
  obtain ⟨lp, h1⟩ := (is_finite_iff _).1 hP.1
  obtain ⟨lm, h2⟩ := (is_finite_iff _).1 hP.2.1
  obtain ⟨rho, h3⟩ := (is_finite_iff _).1 hP.2.2.1
  obtain ⟨km, h4⟩ := (is_finite_iff _).1 hP.2.2.2
  have hdt : is_finite dt = true := by
    by_contra hc
    have : is_finite dt = false := by simpa using hc
    simp [ComputeDerived, Point.toDbl, h1, h2, h3, h4, this] at h
  obtain ⟨t, rfl⟩ := (is_finite_iff _).1 hdt
  rw [ComputeDerived_fin c q lc P lp lm rho km t h1 h2 h3 h4] at h
  by_cases hcond : 0 < km ∧ 0 < t ∧ 0 ≤ c.kappa
  · rw [if_pos hcond] at h
    exact ⟨c, q, lp, lm, rho, km, t, rfl, rfl, h1, h2, h3, h4, rfl, hcond.1, hcond.2.1,
      hcond.2.2, (Option.some.inj h).symm⟩
  · rw [if_neg hcond] at h
    cases h

theorem ComputeDerived_ignores_unused (C Q : StructuralState K) (lc : LifecycleContext)
    (P : ParameterSet K) (dt a b c d : Dbl K) :
    ComputeDerived C Q lc { P with alpha := a, eta := b, beta := c, gamma := d } dt
      = ComputeDerived C Q lc P dt := rfl

theorem ComputeDerived_none_of_invalid (C Q : StructuralState K) (lc : LifecycleContext)
    (P : ParameterSet K) (dt : Dbl K)
    (h : is_finite C.phi = false ∨ is_finite C.memory = false ∨ is_finite C.kappa = false ∨
      is_finite Q.phi = false ∨ is_finite Q.memory = false ∨ is_finite Q.kappa = false ∨
      is_finite P.lambda_phi = false ∨ is_finite P.lambda_m = false ∨
      is_finite P.rho = false ∨ is_finite P.kappa_max = false ∨
      Dbl.gt P.kappa_max 0 = false ∨ is_finite dt = false ∨ Dbl.gt dt 0 = false) :
    ComputeDerived C Q lc P dt = none := by
  cases hf : ComputeDerived C Q lc P dt with
  | none => rfl
  | some f =>
    exfalso
    obtain ⟨c, q, lp, lm, rho, km, t, rfl, rfl, h1, h2, h3, h4, rfl, hkm, ht, _, _⟩ :=
      ComputeDerived_some_inv hf
    simp [Point.toDbl, h1, h2, h3, h4, hkm, ht] at h

/-! ### The C interface -/

theorem maxcore_create_eq (params : maxcore_params K) (delta_dim : Nat)
    (initial_state : maxcore_state K) (delta_max_opt : Option (Dbl K)) :
    maxcore_create true (some params) delta_dim (some initial_state) delta_max_opt
      = (MaxCore.Create (to_cpp_params params) delta_dim (to_cpp_state initial_state)
          delta_max_opt).map
        (fun core => ⟨to_cpp_params params, delta_dim, delta_max_opt, core, ""⟩) := by
  have hdm : (match delta_max_opt with
      | some d => some d
      | none => none) = delta_max_opt := by
    cases delta_max_opt <;> rfl
  simp only [maxcore_create, hdm]
  cases MaxCore.Create (to_cpp_params params) delta_dim (to_cpp_state initial_state)
    delta_max_opt <;> rfl

theorem maxcore_step_some (std_sqrt : Dbl K → Dbl K) (h : maxcore_handle K)
    (delta_input : Option (Nat → Dbl K)) (delta_len : Nat) (dt : Dbl K) :
    ∃ h1 : maxcore_handle K,
      (maxcore_step std_sqrt (some h) delta_input delta_len dt).2 = some h1 ∧
      h1.core = (h.core.Step std_sqrt delta_input delta_len dt).2 ∧
      h1.params = h.params ∧
      (maxcore_step std_sqrt (some h) delta_input delta_len dt).1.code
        = (h.core.Step std_sqrt delta_input delta_len dt).1.code := by
  refine ⟨{ h with
      core := (h.core.Step std_sqrt delta_input delta_len dt).2
      last_error :=
        if (h.core.Step std_sqrt delta_input delta_len dt).1 = EventFlag.ERROR then
          "Step() returned ERROR"
        else "" }, ?_, rfl, rfl, ?_⟩
  · unfold maxcore_step
    cases hev : (h.core.Step std_sqrt delta_input delta_len dt).1 <;> simp [hev]
  · unfold maxcore_step
    cases hev : (h.core.Step std_sqrt delta_input delta_len dt).1 <;>
      simp [hev, maxcore_event.code, EventFlag.code]

theorem capi_run_some (std_sqrt : Dbl K → Dbl K) (calls : List (StepCall K)) :
    ∀ h : maxcore_handle K,
      ∃ h1 : maxcore_handle K,
        capi_run std_sqrt (some h) calls = some h1 ∧
        h1.core = h.core.run std_sqrt calls ∧ h1.params = h.params ∧
        (capi_trace std_sqrt (some h) calls).map maxcore_event.code
          = (h.core.trace std_sqrt calls).map EventFlag.code := by
  induction calls with
  | nil => intro h; exact ⟨h, rfl, rfl, rfl, rfl⟩
  | cons c cs ih =>
    intro h
    obtain ⟨h1, e1, e2, e3, e4⟩ := maxcore_step_some std_sqrt h c.delta_input c.delta_len c.dt
    obtain ⟨h2, f1, f2, f3, f4⟩ := ih h1
    refine ⟨h2, ?_, ?_, f3.trans e3, ?_⟩
    · simp only [capi_run, e1]; exact f1
    · rw [f2, e2]; rfl
    · simp only [capi_trace, MaxCore.trace, List.map_cons, e1, e4, f4, e2]

/-! ### The last-error channel, the collapse flag and the bounds of the update -/

theorem maxcore_step_last_error (std_sqrt : Dbl K → Dbl K) (h : maxcore_handle K)
    (delta_input : Option (Nat → Dbl K)) (delta_len : Nat) (dt : Dbl K) :
    maxcore_last_error (maxcore_step std_sqrt (some h) delta_input delta_len dt).2
      = if (maxcore_step std_sqrt (some h) delta_input delta_len dt).1
            = maxcore_event.MAXCORE_EVENT_ERROR
        then "Step() returned ERROR" else "" := by
  simp only [maxcore_step]
  have hne : "Step() returned ERROR".isEmpty = false := by decide
  cases hev : (h.core.Step std_sqrt delta_input delta_len dt).1 <;>
    simp [hev, maxcore_last_error, hne]

theorem maxcore_create_last_error (alloc : Bool) (params : Option (maxcore_params K))
    (delta_dim : Nat) (initial_state : Option (maxcore_state K))
    (delta_max_opt : Option (Dbl K)) (h0 : maxcore_handle K)
    (h : maxcore_create alloc params delta_dim initial_state delta_max_opt = some h0) :
    h0.last_error = "" := by
  unfold maxcore_create at h
  cases params with
  | none => simp at h
  | some p =>
    cases initial_state with
    | none => simp at h
    | some s =>
      simp only at h
      split at h
      · cases h
      · split_ifs at h
        cases h
        rfl

theorem Step_collapse_inv (std_sqrt : Dbl K → Dbl K) (self : MaxCore K)
    (delta_input : Option (Nat → Dbl K)) (delta_len : Nat) (dt : Dbl K)
    (h : self.lifecycle_.collapse_emitted = true → is_zero self.current_.kappa = true) :
    (self.Step std_sqrt delta_input delta_len dt).2.lifecycle_.collapse_emitted = true →
      is_zero (self.Step std_sqrt delta_input delta_len dt).2.current_.kappa = true := by
  rcases Step_cases std_sqrt self delta_input delta_len dt with
    ⟨_, hs⟩ | ⟨_, _, hs⟩ | ⟨hz, next, _, hs⟩
  · rw [hs]; exact h
  · rw [hs]; exact h
  · rw [hs]
    intro hc
    have hc1 : (if (Dbl.gt self.current_.kappa 0 && is_zero next.kappa) = true then true
      else self.lifecycle_.collapse_emitted) = true := hc
    show is_zero next.kappa = true
    split_ifs at hc1 with h1
    · simp only [Bool.and_eq_true] at h1
      exact h1.2
    · rw [h hc1] at hz
      cases hz

theorem run_collapse_inv (std_sqrt : Dbl K → Dbl K) (calls : List (StepCall K)) :
    ∀ e : MaxCore K,
      (e.lifecycle_.collapse_emitted = true → is_zero e.current_.kappa = true) →
      (e.run std_sqrt calls).lifecycle_.collapse_emitted = true →
        is_zero (e.run std_sqrt calls).current_.kappa = true := by
  induction calls with
  | nil => intro e h; exact h
  | cons c cs ih =>
    intro e h
    exact ih _ (Step_collapse_inv std_sqrt e c.delta_input c.delta_len c.dt h)

theorem coeffs_toDbl_inj {p q : Coeffs K} (h : p.toDbl = q.toDbl) : p = q := by
  cases p; cases q
  simpa [Coeffs.toDbl] using h

theorem point_toDbl_inj {s r : Point K} (h : s.toDbl = r.toDbl) : s = r := by
  cases s; cases r
  simpa [Point.toDbl] using h

theorem option_map_fin_inj {T U : Option K} (h : T.map fin = U.map fin) : T = U := by
  cases T <;> cases U <;> simp_all

theorem spec_rate_bounds (p : Coeffs K) (t : K) (ht : 0 < t) (hst : t * spec_max_rate p < 1) :
    t * p.eta < 1 ∧ t * p.gamma < 1 ∧ t * p.rho < 1 ∧ t * p.lambda_phi < 1 ∧
      t * p.lambda_m < 1 := by
  have h1 : p.eta ≤ spec_max_rate p := le_max_left _ _
  have h2 : p.gamma ≤ spec_max_rate p := le_trans (le_max_left _ _) (le_max_right _ _)
  have h3 : p.rho ≤ spec_max_rate p :=
    le_trans (le_max_left _ _) (le_trans (le_max_right _ _) (le_max_right _ _))
  have h4 : p.lambda_phi ≤ spec_max_rate p :=
    le_trans (le_max_left _ _)
      (le_trans (le_max_right _ _) (le_trans (le_max_right _ _) (le_max_right _ _)))
  have h5 : p.lambda_m ≤ spec_max_rate p :=
    le_trans (le_max_right _ _)
      (le_trans (le_max_right _ _) (le_trans (le_max_right _ _) (le_max_right _ _)))
  have key : ∀ x, x ≤ spec_max_rate p → t * x < 1 := fun x hx =>
    lt_of_le_of_lt (mul_le_mul_of_nonneg_left hx ht.le) hst
  exact ⟨key _ h1, key _ h2, key _ h3, key _ h4, key _ h5⟩

theorem spec_raw_bounds (p : Coeffs K) (s : Point K) (n t : K) (hv : p.Valid)
    (h1 : 0 ≤ s.phi) (h2 : 0 ≤ s.memory) (h4 : s.kappa ≤ p.kappa_max)
    (hn : 0 ≤ n) (ht : 0 < t) (hst : t * spec_max_rate p < 1) :
    0 ≤ spec_phi_raw p s n t ∧ 0 ≤ spec_memory_raw p s n t ∧
      spec_kappa_raw p s n t ≤ p.kappa_max := by
  obtain ⟨a1, a2, a3, a4, a5, a6, a7, a8⟩ := hv
  obtain ⟨b1, b2, b3, b4, b5⟩ := spec_rate_bounds p t ht hst
  have hphi : 0 ≤ spec_phi p s n t := le_max_left _ _
  have hmem : 0 ≤ spec_memory p s n t := le_max_left _ _
  refine ⟨?_, ?_, ?_⟩
  · have e1 : spec_phi_raw p s n t = s.phi * (1 - t * p.eta) + p.alpha * n := by
      unfold spec_phi_raw; ring
    rw [e1]
    have := mul_nonneg h1 (sub_nonneg.2 b1.le)
    have := mul_nonneg a1.le hn
    linarith
  · have e1 : spec_memory_raw p s n t
        = s.memory * (1 - t * p.gamma) + p.beta * spec_phi p s n t * t := by
      unfold spec_memory_raw; ring
    rw [e1]
    have := mul_nonneg h2 (sub_nonneg.2 b2.le)
    have := mul_nonneg (mul_nonneg a3.le hphi) ht.le
    linarith
  · have e1 : spec_kappa_raw p s n t
        = p.kappa_max - (p.kappa_max - s.kappa) * (1 - t * p.rho)
          - p.lambda_phi * spec_phi p s n t * t - p.lambda_m * spec_memory p s n t * t := by
      unfold spec_kappa_raw; ring
    rw [e1]
    have := mul_nonneg (sub_nonneg.2 h4) (sub_nonneg.2 b3.le)
    have := mul_nonneg (mul_nonneg a6.le hphi) ht.le
    have := mul_nonneg (mul_nonneg a7.le hmem) ht.le
    linarith

theorem spec_update_raw (p : Coeffs K) (s : Point K) (n t : K) (hv : p.Valid)
    (h1 : 0 ≤ s.phi) (h2 : 0 ≤ s.memory) (h4 : s.kappa ≤ p.kappa_max)
    (hn : 0 ≤ n) (ht : 0 < t) (hst : t * spec_max_rate p < 1) :
    spec_phi p s n t = spec_phi_raw p s n t ∧
    spec_memory p s n t = spec_memory_raw p s n t ∧
    spec_kappa p s n t = max 0 (spec_kappa_raw p s n t) := by
  obtain ⟨r1, r2, r3⟩ := spec_raw_bounds p s n t hv h1 h2 h4 hn ht hst
  refine ⟨max_eq_right r1, max_eq_right r2, ?_⟩
  show spec_clamp (spec_kappa_raw p s n t) 0 p.kappa_max = _
  unfold spec_clamp
  rw [min_eq_right r3]

theorem spec_update_mono (p : Coeffs K) (s : Point K) (n1 n2 t : K) (hv : p.Valid)
    (ht : 0 ≤ t) (hn : n1 ≤ n2) :
    spec_phi p s n1 t ≤ spec_phi p s n2 t ∧
    spec_memory p s n1 t ≤ spec_memory p s n2 t ∧
    spec_kappa p s n2 t ≤ spec_kappa p s n1 t := by
  obtain ⟨a1, a2, a3, a4, a5, a6, a7, a8⟩ := hv
  have hphi : spec_phi p s n1 t ≤ spec_phi p s n2 t := by
    unfold spec_phi
    apply max_le_max le_rfl
    have := mul_le_mul_of_nonneg_left hn a1.le
    linarith
  have hmem : spec_memory p s n1 t ≤ spec_memory p s n2 t := by
    unfold spec_memory
    apply max_le_max le_rfl
    have := mul_le_mul_of_nonneg_right (mul_le_mul_of_nonneg_left hphi a3.le) ht
    linarith
  refine ⟨hphi, hmem, ?_⟩
  unfold spec_kappa spec_clamp
  apply max_le_max le_rfl
  apply min_le_min le_rfl
  have := mul_le_mul_of_nonneg_right (mul_le_mul_of_nonneg_left hphi a6.le) ht
  have := mul_le_mul_of_nonneg_right (mul_le_mul_of_nonneg_left hmem a7.le) ht
  linarith

theorem Step_accepted_spec (std_sqrt : Dbl K → Dbl K) (self : MaxCore K) (p : Coeffs K)
    (T : Option K) (delta : Nat → Dbl K) (v : Nat → K) (delta_len : Nat) (dt : Dbl K)
    (hp : self.params_ = p.toDbl) (hkm : 0 ≤ p.kappa_max)
    (hk : is_zero self.current_.kappa = false)
    (hg : self.delta_max_ = T.map fin)
    (hd : ∀ i, i < self.delta_dim_ → delta i = fin (v i))
    (ha : (self.Step std_sqrt (some delta) delta_len dt).1 ≠ EventFlag.ERROR) :
    ∃ (s : Point K) (t : K), self.current_ = s.toDbl ∧ dt = fin t ∧ 0 < t ∧
      t * spec_max_rate p < 1 ∧ (∀ x, T = some x → 0 < x) ∧
      (self.Step std_sqrt (some delta) delta_len dt).2.current_
        = (spec_update p s (spec_guard T (spec_norm2 v self.delta_dim_)) t).toDbl := by
  rcases Step_cases std_sqrt self (some delta) delta_len dt with
    ⟨hz, _⟩ | ⟨_, _, hs⟩ | ⟨_, next, hc, hs⟩
  · rw [hk] at hz; cases hz
  · rw [hs] at ha; exact absurd rfl ha
  · obtain ⟨d1, v1, s, t, T1, e1, _, e3, e4, e5, e6, e7, e8, e9, e10⟩ :=
      candidate_some_spec p hp hkm hc
    cases e1
    have hT : T1 = T := option_map_fin_inj (e8.symm.trans hg)
    subst hT
    have hv : spec_norm2 v1 self.delta_dim_ = spec_norm2 v self.delta_dim_ := by
      apply spec_norm2_congr
      intro i hi
      have := (e3 i hi).symm.trans (hd i hi)
      simpa using this
    refine ⟨s, t, e4, e5, e6, e7, e9, ?_⟩
    rw [hs, ← hv, ← e10]
    rfl

theorem run_of_create_spec (std_sqrt : Dbl K → Dbl K) (p : Coeffs K) (delta_dim : Nat)
    (initial_state : StructuralState K) (delta_max : Option (Dbl K)) (e : MaxCore K)
    (calls : List (StepCall K))
    (hcreate : MaxCore.Create p.toDbl delta_dim initial_state delta_max = some e) :
    p.Valid ∧ (e.run std_sqrt calls).params_ = p.toDbl ∧
    (e.run std_sqrt calls).delta_dim_ = delta_dim ∧
    (e.run std_sqrt calls).delta_max_ = delta_max ∧
    (∀ dm, delta_max = some dm → Dbl.FinPos dm) ∧
    ∃ s : Point K, (e.run std_sqrt calls).current_ = s.toDbl ∧ 0 ≤ s.phi ∧ 0 ≤ s.memory ∧
      0 ≤ s.kappa ∧ s.kappa ≤ p.kappa_max := by
  obtain ⟨c1, c2, c3⟩ := run_config std_sqrt calls e
  obtain ⟨_, _, _, hdm, he⟩ := (Create_eq_some_iff _ _ _ _ _).1 hcreate
  have hp : (e.run std_sqrt calls).params_ = p.toDbl := by rw [c1, ← he]; rfl
  have hdim : (e.run std_sqrt calls).delta_dim_ = delta_dim := by rw [c2, ← he]; rfl
  have hmax : (e.run std_sqrt calls).delta_max_ = delta_max := by rw [c3, ← he]; rfl
  obtain ⟨p1, s, _, hv, hp1, hs, _, b1, b2, b3, b4, _, _, _⟩ :=
    wellFormed_run std_sqrt calls e (wellFormed_create hcreate)
  have hpp : p1 = p := coeffs_toDbl_inj (hp1.symm.trans hp)
  subst hpp
  exact ⟨hv, hp, hdim, hmax, hdm, s, hs, b1, b2, b3, b4⟩

theorem norm_guard_inactive (std_sqrt : Dbl K → Dbl K) (T n : K) (hT : 0 < T)
    (hn : n ≤ T * T) :
    norm_guard std_sqrt (some (fin T)) (fin n) = some (fin n) := by
  simp [norm_guard, hT, not_lt.2 hn]

theorem candidate_none_iff {std_sqrt : Dbl K → Dbl K} (hsqrt : SqrtSpec std_sqrt)
    (self : MaxCore K) (hw : self.WellFormed)
    (delta_input : Option (Nat → Dbl K)) (delta_len : Nat) (dt : Dbl K) :
    self.candidate std_sqrt delta_input delta_len dt = none ↔
      (delta_input = none ∨ delta_len ≠ self.delta_dim_ ∨ is_finite dt = false ∨
        Dbl.gt dt 0 = false ∨ Dbl.lt (dt * max_rate self.params_) 1 = false ∨
        ∃ delta i, delta_input = some delta ∧ i < self.delta_dim_ ∧
          is_finite (delta i) = false) := by
  obtain ⟨p, s, _, hv, hp, hs, _, _, _, _, _, _, hg, _⟩ := hw
  constructor
  · intro hnone
    by_contra hcon
    simp only [not_or, not_exists, not_and, Bool.not_eq_false, ne_eq, not_not] at hcon
    obtain ⟨h1, h2, h3, h4, h5, h6⟩ := hcon
    cases delta_input with
    | none => exact h1 rfl
    | some delta =>
      obtain ⟨t, rfl⟩ := (is_finite_iff dt).1 h3
      have ht : 0 < t := by simpa using h4
      have hst : t * spec_max_rate p < 1 := by
        rw [hp, max_rate_fin] at h5
        simpa using h5
      have hT : ∃ T : Option K, self.delta_max_ = T.map fin ∧ ∀ x, T = some x → 0 < x := by
        cases hdm : self.delta_max_ with
        | none => exact ⟨none, rfl, by simp⟩
        | some dm =>
          obtain ⟨x, rfl, hx⟩ := hg dm hdm
          exact ⟨some x, rfl, by intro y hy; cases hy; exact hx⟩
      obtain ⟨T, hT1, hT2⟩ := hT
      have hd : ∀ i, i < self.delta_dim_ → delta i = fin (Dbl.toK (delta i)) := by
        intro i hi
        exact (Dbl.fin_toK (h6 delta i rfl hi)).symm
      have hc := candidate_of_valid hsqrt self p s T delta (fun i => Dbl.toK (delta i)) t hp
        hv.2.2.2.2.2.2.2.le hs hT1 hT2 hd ht hst
      rw [← h2, hnone] at hc
      cases hc
  · intro h
    cases hc : self.candidate std_sqrt delta_input delta_len dt with
    | none => rfl
    | some next =>
      exfalso
      obtain ⟨delta, norm2, norm2g, e1, e2, e3, e4, _, _, e7, e8, _, _, _, _⟩ :=
        (candidate_eq_some_iff _ _ _ _ _ _).1 hc
      rcases h with h | h | h | h | h | ⟨d, i, hd, hi, hfin⟩
      · rw [e1] at h; cases h
      · exact h e2
      · rw [e3] at h; cases h
      · rw [e4] at h; cases h
      · rw [e7] at h; cases h
      · rw [e1] at hd
        cases hd
        have := norm2_loop_some_finite delta _ _ _ _ e8 i hi
        rw [Nat.zero_add, hfin] at this
        cases this

/-! ### The rounded model without rounding, and calls with the same arguments -/

theorem Dbl.round_fin (x : Dbl K) : Dbl.round fin x = x := by
  cases x <;> rfl

theorem norm2_loop_rounded_fin (delta : Nat → Dbl K) :
    ∀ (n i : Nat) (acc : Dbl K),
      norm2_loop_rounded fin delta n i acc = norm2_loop delta n i acc := by
  intro n
  induction n with
  | zero => intro i acc; rfl
  | succ n ih =>
    intro i acc
    simp only [norm2_loop_rounded, norm2_loop, Dbl.round_fin, ih]

theorem norm_guard_rounded_fin (std_sqrt : Dbl K → Dbl K) (g : Option (Dbl K)) (norm2 : Dbl K) :
    norm_guard_rounded fin std_sqrt g norm2 = norm_guard std_sqrt g norm2 := by
  cases g <;> simp only [norm_guard_rounded, norm_guard, Dbl.round_fin]

theorem canonical_update_rounded_fin (P : ParameterSet K) (S : StructuralState K)
    (norm2 dt : Dbl K) :
    canonical_update_rounded fin P S norm2 dt = canonical_update P S norm2 dt := by
  simp only [canonical_update_rounded, canonical_update, Dbl.round_fin]

theorem candidate_rounded_fin (std_sqrt : Dbl K → Dbl K) (self : MaxCore K)
    (delta_input : Option (Nat → Dbl K)) (delta_len : Nat) (dt : Dbl K) :
    self.candidate_rounded fin std_sqrt delta_input delta_len dt
      = self.candidate std_sqrt delta_input delta_len dt := by
  cases delta_input <;>
    simp only [MaxCore.candidate_rounded, MaxCore.candidate, Dbl.round_fin,
      norm2_loop_rounded_fin, norm_guard_rounded_fin, canonical_update_rounded_fin]

theorem Step_rounded_fin (std_sqrt : Dbl K → Dbl K) (self : MaxCore K)
    (delta_input : Option (Nat → Dbl K)) (delta_len : Nat) (dt : Dbl K) :
    self.Step_rounded fin std_sqrt delta_input delta_len dt
      = self.Step std_sqrt delta_input delta_len dt := by
  simp only [MaxCore.Step_rounded, MaxCore.Step, candidate_rounded_fin]

theorem Dbl.neg_mul_neg (x : Dbl K) : Dbl.neg x * Dbl.neg x = x * x := by
  cases x <;> simp [Dbl.neg, Dbl.mul_def, Dbl.mul]

theorem is_finite_neg (x : Dbl K) : is_finite (Dbl.neg x) = is_finite x := by
  cases x <;> rfl

theorem norm2_loop_rounded_congr (rnd : K → Dbl K) (d1 d2 : Nat → Dbl K) :
    ∀ (n i : Nat) (acc : Dbl K),
      (∀ j, j < n → is_finite (d1 (i + j)) = is_finite (d2 (i + j)) ∧
        d1 (i + j) * d1 (i + j) = d2 (i + j) * d2 (i + j)) →
      norm2_loop_rounded rnd d1 n i acc = norm2_loop_rounded rnd d2 n i acc := by
  intro n
  induction n with
  | zero => intro i acc _; rfl
  | succ n ih =>
    intro i acc h
    have h0 := h 0 (Nat.succ_pos n)
    rw [Nat.add_zero] at h0
    have hs : ∀ j, j < n → is_finite (d1 (i + 1 + j)) = is_finite (d2 (i + 1 + j)) ∧
        d1 (i + 1 + j) * d1 (i + 1 + j) = d2 (i + 1 + j) * d2 (i + 1 + j) := by
      intro j hj
      have := h (j + 1) (Nat.succ_lt_succ hj)
      rwa [show i + (j + 1) = i + 1 + j by omega] at this
    simp only [norm2_loop_rounded, h0.1, h0.2, ih (i + 1) _ hs]

/-- A sign flip of components leaves `Step` unchanged also when every result is rounded,
whatever the rounding: the squares of the components are the same doubles. -/
theorem Step_rounded_sign_flip (rnd : K → Dbl K) (std_sqrt : Dbl K → Dbl K) (self : MaxCore K)
    (delta : Nat → Dbl K) (flip : Nat → Bool) (delta_len : Nat) (dt : Dbl K) :
    self.Step_rounded rnd std_sqrt
        (some (fun i => if flip i then Dbl.neg (delta i) else delta i)) delta_len dt
      = self.Step_rounded rnd std_sqrt (some delta) delta_len dt := by
  have hloop : norm2_loop_rounded rnd (fun i => if flip i then Dbl.neg (delta i) else delta i)
      self.delta_dim_ 0 0 = norm2_loop_rounded rnd delta self.delta_dim_ 0 0 := by
    apply norm2_loop_rounded_congr
    intro j _
    by_cases hf : flip (0 + j) = true
    · simp only [hf, if_true, is_finite_neg, Dbl.neg_mul_neg, and_self]
    · simp only [hf, if_false, Bool.false_eq_true, and_self]
  simp only [MaxCore.Step_rounded, MaxCore.candidate_rounded, hloop]

end Lemmas

/-! ### Evaluation of the model on concrete engines -/

theorem sqrtQ_spec : SqrtSpec sqrtQ := by
  intro x hx
  have hnum : 0 < x.num := Rat.num_pos.2 hx
  have hden : 0 < x.den := x.den_pos
  have hpos : 0 < x.num.toNat * x.den :=
    Nat.mul_pos (by omega) hden
  have hs : 0 < Nat.sqrt (x.num.toNat * x.den) := Nat.sqrt_pos.2 hpos
  refine ⟨(Nat.sqrt (x.num.toNat * x.den) : ℚ) / (x.den : ℚ), ?_, ?_⟩
  · exact div_pos (by exact_mod_cast hs) (by exact_mod_cast hden)
  · simp [sqrtQ, not_lt.2 hx.le]

theorem Create_canonical :
    MaxCore.Create coeffs_canonical.toDbl 2 ⟨fin 1, fin 2, fin 5⟩ none = some engine_canonical := by
  simp [MaxCore.Create, validate_params, validate_params_loop, validate_initial_state,
    Coeffs.toDbl, coeffs_canonical, engine_canonical]
  norm_num

theorem Create_terminal :
    MaxCore.Create coeffs_canonical.toDbl 2 ⟨fin 1, fin 2, fin 0⟩ none = some engine_terminal := by
  simp [MaxCore.Create, validate_params, validate_params_loop, validate_initial_state,
    Coeffs.toDbl, coeffs_canonical, engine_terminal]

theorem Create_stability :
    MaxCore.Create coeffs_stability.toDbl 2 ⟨fin 0, fin 0, fin 10⟩ none = some engine_stability := by
  simp [MaxCore.Create, validate_params, validate_params_loop, validate_initial_state,
    Coeffs.toDbl, coeffs_stability, engine_stability]

theorem Create_rest :
    MaxCore.Create coeffs_canonical.toDbl 2 ⟨fin 0, fin 0, fin 10⟩ none = some engine_rest := by
  simp [MaxCore.Create, validate_params, validate_params_loop, validate_initial_state,
    Coeffs.toDbl, coeffs_canonical, engine_rest]

theorem engine_canonical_kappa_ne_zero : engine_canonical.current_.kappa ≠ 0 := by
  simp [engine_canonical, MaxCore.new, Dbl.zero_def]

theorem engine_stability_kappa_ne_zero : engine_stability.current_.kappa ≠ 0 := by
  simp [engine_stability, MaxCore.new, Dbl.zero_def]

/-- The committed values of the step of tests/test_canonical.cpp. -/
theorem Step_canonical_values :
    engine_canonical.Step sqrtQ (some (vec2 3 4)) 2 (fin (1 / 10))
      = (EventFlag.NORMAL,
          { engine_canonical with
            current_ := ⟨fin (1019 / 20), fin (2539 / 800), fin (314863 / 80000)⟩
            previous_ := ⟨fin 1, fin 2, fin 5⟩
            lifecycle_ := ⟨1, false, false⟩ }) := by
  simp [MaxCore.Step, MaxCore.candidate, MaxCore.commit, norm2_loop, norm_guard,
    canonical_update, clamp_range, max_rate, Dbl.std_max, engine_canonical, MaxCore.new,
    coeffs_canonical, Coeffs.toDbl, vec2, Dbl.zero_def, Dbl.one_def]
  norm_num

theorem Step_rest_at (c : Nat) :
    (engine_rest_at c).Step sqrtQ rest_call.delta_input rest_call.delta_len rest_call.dt
      = (EventFlag.NORMAL, engine_rest_at ((c + 1) % 2 ^ 64)) := by
  simp [MaxCore.Step, MaxCore.candidate, MaxCore.commit, norm2_loop, norm_guard,
    canonical_update, clamp_range, max_rate, Dbl.std_max, engine_rest_at, engine_rest,
    MaxCore.new, rest_call, coeffs_canonical, Coeffs.toDbl, vec2, Dbl.zero_def, Dbl.one_def]
  norm_num

theorem run_rest_at (n : Nat) :
    ∀ c : Nat, c < 2 ^ 64 →
      (engine_rest_at c).run sqrtQ (List.replicate n rest_call)
        = engine_rest_at ((c + n) % 2 ^ 64) := by
  induction n with
  | zero =>
    intro c hc
    rw [Nat.add_zero, Nat.mod_eq_of_lt hc]
    rfl
  | succ n ih =>
    intro c hc
    rw [List.replicate_succ, MaxCore.run, Step_rest_at, ih _ (Nat.mod_lt _ (by norm_num))]
    congr 1
    omega

/-! ## The claims -/

section Claims

variable {K : Type} [LinearOrderedField K]

/-- C1: whenever `Step` returns ERROR, `current`, `previous` and the lifecycle record
(`step_counter`, `terminal`, `collapse_emitted`) are exactly what they were before the
call. -/
theorem C1_error_leaves_engine_unchanged (std_sqrt : Dbl K → Dbl K) (self : MaxCore K)
    (delta_input : Option (Nat → Dbl K)) (delta_len : Nat) (dt : Dbl K)
    (h : (self.Step std_sqrt delta_input delta_len dt).1 = EventFlag.ERROR) :
    (self.Step std_sqrt delta_input delta_len dt).2.current_ = self.current_ ∧
    (self.Step std_sqrt delta_input delta_len dt).2.previous_ = self.previous_ ∧
    (self.Step std_sqrt delta_input delta_len dt).2.lifecycle_.step_counter
      = self.lifecycle_.step_counter ∧
    (self.Step std_sqrt delta_input delta_len dt).2.lifecycle_.terminal
      = self.lifecycle_.terminal ∧
    (self.Step std_sqrt delta_input delta_len dt).2.lifecycle_.collapse_emitted
      = self.lifecycle_.collapse_emitted := by
  obtain ⟨hz, hc⟩ := (Step_error_iff _ _ _ _ _).1 h
  rw [Step_of_candidate_none _ _ _ _ _ hz hc]
  exact ⟨rfl, rfl, rfl, rfl, rfl⟩

/-- C2: an engine whose `current.kappa == 0` answers every call, whatever its
arguments (a null vector, any length, any `dt`, NaN included), with NORMAL and keeps
`current`, `previous` and the lifecycle record unchanged. -/
theorem C2_terminal_absorbs_every_call (std_sqrt : Dbl K → Dbl K) (self : MaxCore K)
    (delta_input : Option (Nat → Dbl K)) (delta_len : Nat) (dt : Dbl K)
    (h : self.current_.kappa = 0) :
    (self.Step std_sqrt delta_input delta_len dt).1 = EventFlag.NORMAL ∧
    (self.Step std_sqrt delta_input delta_len dt).2.current_ = self.current_ ∧
    (self.Step std_sqrt delta_input delta_len dt).2.previous_ = self.previous_ ∧
    (self.Step std_sqrt delta_input delta_len dt).2.lifecycle_ = self.lifecycle_ := by
  rw [Step_terminal _ _ _ _ _ ((is_zero_iff _).2 h)]
  exact ⟨rfl, rfl, rfl, rfl⟩

/-- C4: in every state reached from a successful `Create` by a finite sequence of `Step`
calls, the three components of `current` are finite, with `phi >= 0`, `memory >= 0` and
`0 <= kappa <= kappa_max`. -/
theorem C4_reachable_state_within_bounds (std_sqrt : Dbl K → Dbl K)
    (params : ParameterSet K) (delta_dim : Nat) (initial_state : StructuralState K)
    (delta_max : Option (Dbl K)) (e : MaxCore K) (calls : List (StepCall K))
    (h : MaxCore.Create params delta_dim initial_state delta_max = some e) :
    ∃ (s : Point K) (kmax : K),
      (e.run std_sqrt calls).current_ = s.toDbl ∧
      (e.run std_sqrt calls).params_.kappa_max = fin kmax ∧
      0 ≤ s.phi ∧ 0 ≤ s.memory ∧ 0 ≤ s.kappa ∧ s.kappa ≤ kmax := by
  obtain ⟨p, s, _, _, hp, hs, _, a1, a2, a3, a4, _⟩ :=
    wellFormed_run std_sqrt calls e (wellFormed_create h)
  exact ⟨s, p.kappa_max, hs, by rw [hp]; rfl, a1, a2, a3, a4⟩

/-- C5: `Create` returns an engine exactly when the dimension is nonzero, each of the
eight parameters is finite and `> 0`, the initial state is finite with `phi >= 0`,
`memory >= 0` and `0 <= kappa <= kappa_max`, and the guard, when supplied, is finite and
`> 0`; otherwise it returns nothing. -/
theorem C5_create_succeeds_iff_valid (params : ParameterSet K) (delta_dim : Nat)
    (initial_state : StructuralState K) (delta_max : Option (Dbl K)) :
    (MaxCore.Create params delta_dim initial_state delta_max).isSome = true ↔
      delta_dim ≠ 0 ∧
      (∀ x, x ∈ [params.alpha, params.eta, params.beta, params.gamma, params.rho,
          params.lambda_phi, params.lambda_m, params.kappa_max] → Dbl.FinPos x) ∧
      (∃ (s : Point K) (kmax : K), initial_state = s.toDbl ∧ params.kappa_max = fin kmax ∧
          0 ≤ s.phi ∧ 0 ≤ s.memory ∧ 0 ≤ s.kappa ∧ s.kappa ≤ kmax) ∧
      (∀ dm, delta_max = some dm → Dbl.FinPos dm) := by
  rw [Option.isSome_iff_exists]
  constructor
  · rintro ⟨e, he⟩
    obtain ⟨h1, h2, h3, h4, _⟩ := (Create_eq_some_iff _ _ _ _ _).1 he
    refine ⟨h1, (validate_params_iff_forall _).1 h2, ?_, h4⟩
    obtain ⟨p, _, rfl⟩ := (validate_params_iff _).1 h2
    obtain ⟨s, hs⟩ := (validate_initial_state_iff _ _).1 h3
    exact ⟨s, p.kappa_max, hs.1, rfl, hs.2⟩
  · rintro ⟨h1, h2, ⟨s, kmax, hs, hk, hb⟩, h4⟩
    refine ⟨_, (Create_eq_some_iff _ _ _ _ _).2
      ⟨h1, (validate_params_iff_forall _).2 h2, ?_, h4, rfl⟩⟩
    rw [hk]
    exact (validate_initial_state_iff _ _).2 ⟨s, hs, hb⟩

/-- C6: the engine returned by a successful `Create` has `previous == current ==
initial_state`, `step_counter == 0`, `terminal == (initial_state.kappa == 0)` and
`collapse_emitted == false`. -/
theorem C6_create_initial_engine (params : ParameterSet K) (delta_dim : Nat)
    (initial_state : StructuralState K) (delta_max : Option (Dbl K)) (e : MaxCore K)
    (h : MaxCore.Create params delta_dim initial_state delta_max = some e) :
    e.previous_ = initial_state ∧ e.current_ = initial_state ∧
    e.lifecycle_.step_counter = 0 ∧
    (e.lifecycle_.terminal = true ↔ initial_state.kappa = 0) ∧
    e.lifecycle_.collapse_emitted = false := by
  obtain ⟨_, _, _, _, rfl⟩ := (Create_eq_some_iff _ _ _ _ _).1 h
  exact ⟨rfl, rfl, rfl, is_zero_iff _, rfl⟩

/-- C7: on an engine with `current.kappa != 0`, `Step` returns ERROR whenever the forcing
vector is null, or its length differs from the configured dimension, or one of its
components is not finite, or `dt` is not finite, or `dt <= 0`. -/
theorem C7_invalid_input_returns_error (std_sqrt : Dbl K → Dbl K) (self : MaxCore K)
    (delta_input : Option (Nat → Dbl K)) (delta_len : Nat) (dt : Dbl K)
    (hk : self.current_.kappa ≠ 0)
    (hbad : delta_input = none ∨ delta_len ≠ self.delta_dim_ ∨
      (∃ delta i, delta_input = some delta ∧ i < delta_len ∧ ∀ x : K, delta i ≠ fin x) ∨
      (∀ t : K, dt ≠ fin t) ∨ (∃ t : K, dt = fin t ∧ t ≤ 0)) :
    (self.Step std_sqrt delta_input delta_len dt).1 = EventFlag.ERROR := by
  refine (Step_error_iff _ _ _ _ _).2 ⟨(is_zero_false_iff _).2 hk, ?_⟩
  cases hc : self.candidate std_sqrt delta_input delta_len dt with
  | none => rfl
  | some next =>
    exfalso
    obtain ⟨delta, norm2, _, h1, h2, h3, h4, _, _, _, h8, _⟩ :=
      (candidate_eq_some_iff _ _ _ _ _ _).1 hc
    rcases hbad with hb | hb | ⟨d, i, hd, hi, hx⟩ | hb | ⟨t, rfl, ht⟩
    · rw [hb] at h1; cases h1
    · exact hb h2
    · have hdd : d = delta := Option.some.inj (hd.symm.trans h1)
      subst hdd
      have hfin := norm2_loop_some_finite d _ 0 0 norm2 h8 i (h2 ▸ hi)
      rw [Nat.zero_add] at hfin
      obtain ⟨x, hx'⟩ := (is_finite_iff _).1 hfin
      exact hx x hx'
    · obtain ⟨t, ht⟩ := (is_finite_iff _).1 h3
      exact hb t ht
    · have : 0 < t := by simpa using h4
      exact absurd this (not_lt.2 ht)

/-- C8: on an engine with `current.kappa != 0` and finite rates, for a finite `dt`: if `dt * max(eta, gamma, rho, lambda_phi, lambda_m)` is not strictly less than 1, `Step`
returns ERROR and the engine is unchanged.  Nothing is assumed of `alpha`, `beta`,
`kappa_max` or of the forcing vector. -/
theorem C8_unstable_dt_returns_error (std_sqrt : Dbl K → Dbl K) (self : MaxCore K)
    (delta_input : Option (Nat → Dbl K)) (delta_len : Nat)
    (eta gamma rho lambda_phi lambda_m t : K)
    (hk : self.current_.kappa ≠ 0)
    (h1 : self.params_.eta = fin eta) (h2 : self.params_.gamma = fin gamma)
    (h3 : self.params_.rho = fin rho) (h4 : self.params_.lambda_phi = fin lambda_phi)
    (h5 : self.params_.lambda_m = fin lambda_m)
    (hbound : ¬ t * max eta (max gamma (max rho (max lambda_phi lambda_m))) < 1) :
    (self.Step std_sqrt delta_input delta_len (fin t)).1 = EventFlag.ERROR ∧
    (self.Step std_sqrt delta_input delta_len (fin t)).2 = self := by
  have hz : is_zero self.current_.kappa = false := (is_zero_false_iff _).2 hk
  have hc : self.candidate std_sqrt delta_input delta_len (fin t) = none := by
    cases hc : self.candidate std_sqrt delta_input delta_len (fin t) with
    | none => rfl
    | some next =>
      exfalso
      obtain ⟨_, _, _, _, _, _, _, _, _, h7, _⟩ := (candidate_eq_some_iff _ _ _ _ _ _).1 hc
      rw [max_rate_of_fin _ _ _ _ _ _ h1 h2 h3 h4 h5] at h7
      exact hbound (by simpa using h7)
  rw [Step_of_candidate_none _ _ _ _ _ hz hc]
  exact ⟨rfl, rfl⟩

/-- C9: on an engine built by `Create` (in any state reached by `Step` calls) with
`current.kappa != 0`, a call whose forcing vector is present with the configured length
and finite components, and whose `dt` is finite, `> 0` and satisfies
`dt * max_rate < 1`, does not return ERROR and increments `step_counter` by exactly 1.
Arithmetic is exact: doubles do not overflow (the number model), `std::sqrt` maps a
finite positive double to a finite positive double, and the 64-bit counter does not
wrap. -/
theorem C9_valid_call_commits_once (std_sqrt : Dbl K → Dbl K) (hsqrt : SqrtSpec std_sqrt)
    (p : Coeffs K) (delta_dim : Nat) (initial_state : StructuralState K)
    (delta_max : Option (Dbl K)) (e : MaxCore K) (calls : List (StepCall K))
    (delta : Nat → Dbl K) (t : K)
    (hcreate : MaxCore.Create p.toDbl delta_dim initial_state delta_max = some e)
    (hk : (e.run std_sqrt calls).current_.kappa ≠ 0)
    (hfin : ∀ i, i < delta_dim → is_finite (delta i) = true)
    (ht : 0 < t) (hst : t * spec_max_rate p < 1)
    (hcnt : (e.run std_sqrt calls).lifecycle_.step_counter + 1 < 2 ^ 64) :
    ((e.run std_sqrt calls).Step std_sqrt (some delta) delta_dim (fin t)).1
      ≠ EventFlag.ERROR ∧
    ((e.run std_sqrt calls).Step std_sqrt (some delta) delta_dim (fin t)).2.lifecycle_.step_counter
      = (e.run std_sqrt calls).lifecycle_.step_counter + 1 := by
  have hz : is_zero (e.run std_sqrt calls).current_.kappa = false := (is_zero_false_iff _).2 hk
  obtain ⟨c1, c2, c3⟩ := run_config std_sqrt calls e
  obtain ⟨_, _, _, _, he⟩ := (Create_eq_some_iff _ _ _ _ _).1 hcreate
  have hp : (e.run std_sqrt calls).params_ = p.toDbl := by rw [c1, ← he]; rfl
  have hdim : (e.run std_sqrt calls).delta_dim_ = delta_dim := by rw [c2, ← he]; rfl
  obtain ⟨p1, s, _, hv, hp1, hs, _, _, _, _, _, _, hg, _⟩ :=
    wellFormed_run std_sqrt calls e (wellFormed_create hcreate)
  have hpp : p1 = p := by
    have := hp1.symm.trans hp
    cases p1; cases p
    simpa [Coeffs.toDbl] using this
  subst hpp
  have hT : ∃ T : Option K, (e.run std_sqrt calls).delta_max_ = T.map fin ∧
      ∀ x, T = some x → 0 < x := by
    cases hdm : (e.run std_sqrt calls).delta_max_ with
    | none => exact ⟨none, rfl, by simp⟩
    | some dm =>
      obtain ⟨x, rfl, hx⟩ := hg dm hdm
      exact ⟨some x, rfl, by intro y hy; cases hy; exact hx⟩
  obtain ⟨T, hT1, hT2⟩ := hT
  have hd : ∀ i, i < (e.run std_sqrt calls).delta_dim_ →
      delta i = fin (Dbl.toK (delta i)) := by
    intro i hi
    exact (Dbl.fin_toK (hfin i (hdim ▸ hi))).symm
  have hc := candidate_of_valid hsqrt (e.run std_sqrt calls) p1 s T delta
    (fun i => Dbl.toK (delta i)) t hp1 hv.2.2.2.2.2.2.2.le hs hT1 hT2 hd ht hst
  rw [hdim] at hc
  rw [Step_of_candidate_some _ _ _ _ _ _ hz hc]
  refine ⟨commit_fst_ne_error _ _, ?_⟩
  show ((e.run std_sqrt calls).lifecycle_.step_counter + 1) % 2 ^ 64 = _
  exact Nat.mod_eq_of_lt hcnt

/-- C10 (amended): on an engine with `current.kappa != 0`, after a call that does not
return ERROR: `previous` is the `current` of before the call, `step_counter` is the old
value plus 1 modulo 2^64 (so the old value plus 1 unless the counter was at its maximum
2^64 - 1), `terminal` is `(new current.kappa == 0)`, and `collapse_emitted` is the old
`collapse_emitted` OR `collapse_now`, where `collapse_now` is
`(old current.kappa > 0) AND (new current.kappa == 0)`. -/
theorem C10_commit_updates_lifecycle (std_sqrt : Dbl K → Dbl K) (self : MaxCore K)
    (delta_input : Option (Nat → Dbl K)) (delta_len : Nat) (dt : Dbl K)
    (hk : self.current_.kappa ≠ 0)
    (hne : (self.Step std_sqrt delta_input delta_len dt).1 ≠ EventFlag.ERROR) :
    (self.Step std_sqrt delta_input delta_len dt).2.previous_ = self.current_ ∧
    (self.Step std_sqrt delta_input delta_len dt).2.lifecycle_.step_counter
      = (self.lifecycle_.step_counter + 1) % 2 ^ 64 ∧
    (self.lifecycle_.step_counter + 1 < 2 ^ 64 →
      (self.Step std_sqrt delta_input delta_len dt).2.lifecycle_.step_counter
        = self.lifecycle_.step_counter + 1) ∧
    ((self.Step std_sqrt delta_input delta_len dt).2.lifecycle_.terminal = true ↔
      (self.Step std_sqrt delta_input delta_len dt).2.current_.kappa = 0) ∧
    ((self.Step std_sqrt delta_input delta_len dt).2.lifecycle_.collapse_emitted = true ↔
      (self.lifecycle_.collapse_emitted = true ∨
        (Dbl.gt self.current_.kappa 0 = true ∧
          (self.Step std_sqrt delta_input delta_len dt).2.current_.kappa = 0))) := by
  have hz : is_zero self.current_.kappa = false := (is_zero_false_iff _).2 hk
  cases hc : self.candidate std_sqrt delta_input delta_len dt with
  | none => exact absurd ((Step_error_iff _ _ _ _ _).2 ⟨hz, hc⟩) hne
  | some next =>
    rw [Step_of_candidate_some _ _ _ _ _ next hz hc]
    refine ⟨rfl, rfl, fun h => Nat.mod_eq_of_lt h, is_zero_iff next.kappa, ?_⟩
    show (if (Dbl.gt self.current_.kappa 0 && is_zero next.kappa) = true then true
      else self.lifecycle_.collapse_emitted) = true ↔
        (self.lifecycle_.collapse_emitted = true ∨
          (Dbl.gt self.current_.kappa 0 = true ∧ next.kappa = 0))
    rw [← is_zero_iff next.kappa]
    cases h1 : Dbl.gt self.current_.kappa 0 <;> cases h2 : is_zero next.kappa <;>
      cases h3 : self.lifecycle_.collapse_emitted <;> simp

/-- C11: on an engine with `current.kappa != 0`, a call that does not return ERROR
returns COLLAPSE exactly when the `current.kappa` of before the call is `> 0` and the
committed `kappa` is `== 0`, and returns NORMAL otherwise. -/
theorem C11_collapse_iff_kappa_reaches_zero (std_sqrt : Dbl K → Dbl K) (self : MaxCore K)
    (delta_input : Option (Nat → Dbl K)) (delta_len : Nat) (dt : Dbl K)
    (hk : self.current_.kappa ≠ 0)
    (hne : (self.Step std_sqrt delta_input delta_len dt).1 ≠ EventFlag.ERROR) :
    ((self.Step std_sqrt delta_input delta_len dt).1 = EventFlag.COLLAPSE ↔
      (Dbl.FinPos self.current_.kappa ∧
        (self.Step std_sqrt delta_input delta_len dt).2.current_.kappa = 0)) ∧
    ((self.Step std_sqrt delta_input delta_len dt).1 ≠ EventFlag.COLLAPSE →
      (self.Step std_sqrt delta_input delta_len dt).1 = EventFlag.NORMAL) := by
  rcases Step_cases std_sqrt self delta_input delta_len dt with
    ⟨hz, _⟩ | ⟨_, _, hs⟩ | ⟨_, next, hc, hs⟩
  · exact absurd ((is_zero_iff _).1 hz) hk
  · rw [hs] at hne; exact absurd rfl hne
  · obtain ⟨_, _, _, _, _, _, _, _, _, _, _, _, _, _, h12⟩ :=
      (candidate_eq_some_iff _ _ _ _ _ _).1 hc
    have hfin : is_finite self.current_.kappa = true := (canonical_update_finite h12).2.1.2.2
    rw [hs]
    constructor
    · rw [commit_collapse_iff, Dbl.gt_zero_iff _ hfin, is_zero_iff]
      rfl
    · intro h
      rw [commit_normal_iff, ← commit_collapse_iff]
      exact h

/-- C12: in every state reached from a successful `Create` by a finite sequence of
`Step` calls, `lifecycle.terminal` is true exactly when `current.kappa == 0`. -/
theorem C12_terminal_iff_kappa_zero (std_sqrt : Dbl K → Dbl K)
    (params : ParameterSet K) (delta_dim : Nat) (initial_state : StructuralState K)
    (delta_max : Option (Dbl K)) (e : MaxCore K) (calls : List (StepCall K))
    (h : MaxCore.Create params delta_dim initial_state delta_max = some e) :
    (e.run std_sqrt calls).lifecycle_.terminal = true ↔
      (e.run std_sqrt calls).current_.kappa = 0 := by
  obtain ⟨_, _, _, _, rfl⟩ := (Create_eq_some_iff _ _ _ _ _).1 h
  rw [run_terminal_flag std_sqrt calls _ rfl, is_zero_iff]

/-- C13: in the events of any finite sequence of `Step` calls on any engine, COLLAPSE
occurs at most once, and every event after a COLLAPSE is NORMAL. -/
theorem C13_collapse_at_most_once (std_sqrt : Dbl K → Dbl K) (e : MaxCore K)
    (calls : List (StepCall K)) :
    (e.trace std_sqrt calls).count EventFlag.COLLAPSE ≤ 1 ∧
    ∀ pre post, e.trace std_sqrt calls = pre ++ EventFlag.COLLAPSE :: post →
      ∀ ev, ev ∈ post → ev = EventFlag.NORMAL := by
  induction calls generalizing e with
  | nil =>
    refine ⟨by simp [MaxCore.trace], ?_⟩
    intro pre post h
    simp [MaxCore.trace] at h
  | cons c cs ih =>
    by_cases hev : (e.Step std_sqrt c.delta_input c.delta_len c.dt).1 = EventFlag.COLLAPSE
    · have hterm := Step_collapse_terminal std_sqrt e c.delta_input c.delta_len c.dt hev
      have htr := (run_of_terminal std_sqrt cs _ hterm).2
      simp only [MaxCore.trace, hev, htr]
      refine ⟨by simp [List.count_cons, List.count_replicate], ?_⟩
      intro pre post h ev hmem
      cases pre with
      | nil =>
        simp only [List.nil_append, List.cons.injEq, true_and] at h
        rw [← h] at hmem
        exact List.eq_of_mem_replicate hmem
      | cons a pre =>
        simp only [List.cons_append, List.cons.injEq] at h
        have : EventFlag.COLLAPSE ∈ List.replicate cs.length EventFlag.NORMAL := by
          rw [h.2]; simp
        exact absurd (List.eq_of_mem_replicate this) (by decide)
    · obtain ⟨h1, h2⟩ := ih (e.Step std_sqrt c.delta_input c.delta_len c.dt).2
      simp only [MaxCore.trace]
      refine ⟨by rw [List.count_cons_of_ne (Ne.symm hev)]; exact h1, ?_⟩
      intro pre post h ev hmem
      cases pre with
      | nil =>
        simp only [List.nil_append, List.cons.injEq] at h
        exact absurd h.1 hev
      | cons a pre =>
        simp only [List.cons_append, List.cons.injEq] at h
        exact h2 pre post h.2 ev hmem

/-- C14: `collapse_emitted` is monotonic.  For every engine and every call, if it is
true before the call it is true after it; and along any finite sequence of calls its
successive values (before the first call and after each call) are a run of `false`
followed by a run of `true`: it changes from false to true at most once and never back. -/
theorem C14_collapse_emitted_monotonic (std_sqrt : Dbl K → Dbl K) (e : MaxCore K)
    (delta_input : Option (Nat → Dbl K)) (delta_len : Nat) (dt : Dbl K)
    (calls : List (StepCall K)) :
    (e.lifecycle_.collapse_emitted = true →
      (e.Step std_sqrt delta_input delta_len dt).2.lifecycle_.collapse_emitted = true) ∧
    ∃ a b : Nat,
      (e.states std_sqrt calls).map (fun x => x.lifecycle_.collapse_emitted)
        = List.replicate a false ++ List.replicate b true := by
  refine ⟨Step_collapse_emitted_mono std_sqrt e delta_input delta_len dt, ?_⟩
  induction calls generalizing e with
  | nil =>
    cases h : e.lifecycle_.collapse_emitted with
    | false => exact ⟨1, 0, by simp [MaxCore.states, h]⟩
    | true => exact ⟨0, 1, by simp [MaxCore.states, h]⟩
  | cons c cs ih =>
    cases h : e.lifecycle_.collapse_emitted with
    | true =>
      exact ⟨0, (c :: cs).length + 1, by
        rw [states_collapse_emitted std_sqrt (c :: cs) e h]; simp⟩
    | false =>
      obtain ⟨a, b, hab⟩ := ih (e.Step std_sqrt c.delta_input c.delta_len c.dt).2
      exact ⟨a + 1, b, by
        simp only [MaxCore.states, List.map_cons, h, hab, List.replicate_succ,
          List.cons_append]⟩

/-- C15: the state machine on engines reached from a successful `Create`.  For a call
on such an engine with `current.kappa != 0`: if `Step` returns NORMAL the engine stays
Active (the new `kappa` is finite and `> 0`, `terminal` is false); if it returns
COLLAPSE the engine becomes Terminal (the new `kappa == 0`, `terminal` and
`collapse_emitted` are true) and `step_counter` has been incremented once (the 64-bit
increment: the old value plus 1 modulo 2^64, which is the old value plus 1 below the
maximum); if it returns ERROR the engine is unchanged and still Active. -/
theorem C15_state_machine (std_sqrt : Dbl K → Dbl K)
    (params : ParameterSet K) (delta_dim : Nat) (initial_state : StructuralState K)
    (delta_max : Option (Dbl K)) (e : MaxCore K) (calls : List (StepCall K))
    (delta_input : Option (Nat → Dbl K)) (delta_len : Nat) (dt : Dbl K)
    (hcreate : MaxCore.Create params delta_dim initial_state delta_max = some e)
    (hk : (e.run std_sqrt calls).current_.kappa ≠ 0) :
    (((e.run std_sqrt calls).Step std_sqrt delta_input delta_len dt).1 = EventFlag.NORMAL →
      Dbl.FinPos ((e.run std_sqrt calls).Step std_sqrt delta_input delta_len dt).2.current_.kappa ∧
      ((e.run std_sqrt calls).Step std_sqrt delta_input delta_len dt).2.lifecycle_.terminal
        = false) ∧
    (((e.run std_sqrt calls).Step std_sqrt delta_input delta_len dt).1 = EventFlag.COLLAPSE →
      ((e.run std_sqrt calls).Step std_sqrt delta_input delta_len dt).2.current_.kappa = 0 ∧
      ((e.run std_sqrt calls).Step std_sqrt delta_input delta_len dt).2.lifecycle_.terminal
        = true ∧
      ((e.run std_sqrt calls).Step std_sqrt delta_input delta_len
        dt).2.lifecycle_.collapse_emitted = true ∧
      ((e.run std_sqrt calls).Step std_sqrt delta_input delta_len dt).2.lifecycle_.step_counter
        = ((e.run std_sqrt calls).lifecycle_.step_counter + 1) % 2 ^ 64 ∧
      ((e.run std_sqrt calls).lifecycle_.step_counter + 1 < 2 ^ 64 →
        ((e.run std_sqrt calls).Step std_sqrt delta_input delta_len
          dt).2.lifecycle_.step_counter = (e.run std_sqrt calls).lifecycle_.step_counter + 1)) ∧
    (((e.run std_sqrt calls).Step std_sqrt delta_input delta_len dt).1 = EventFlag.ERROR →
      ((e.run std_sqrt calls).Step std_sqrt delta_input delta_len dt).2 = e.run std_sqrt calls ∧
      Dbl.FinPos (e.run std_sqrt calls).current_.kappa ∧
      (e.run std_sqrt calls).lifecycle_.terminal = false) := by
  obtain ⟨p, s, _, hv, hp, hs, _, _, _, hs3, _, _, _, _⟩ :=
    wellFormed_run std_sqrt calls e (wellFormed_create hcreate)
  have hflag : (e.run std_sqrt calls).lifecycle_.terminal
      = is_zero (e.run std_sqrt calls).current_.kappa := by
    obtain ⟨_, _, _, _, rfl⟩ := (Create_eq_some_iff _ _ _ _ _).1 hcreate
    exact run_terminal_flag std_sqrt calls _ rfl
  have hz : is_zero (e.run std_sqrt calls).current_.kappa = false := (is_zero_false_iff _).2 hk
  have hpos : Dbl.FinPos (e.run std_sqrt calls).current_.kappa := by
    rw [hs] at hz ⊢
    refine ⟨s.kappa, rfl, lt_of_le_of_ne hs3 ?_⟩
    intro h0
    simp [Point.toDbl, ← h0] at hz
  have hgt : Dbl.gt (e.run std_sqrt calls).current_.kappa 0 = true :=
    ((Dbl.finPos_iff _).1 hpos).2
  rcases Step_cases std_sqrt (e.run std_sqrt calls) delta_input delta_len dt with
    ⟨hz1, _⟩ | ⟨_, _, hstep⟩ | ⟨_, next, hc, hstep⟩
  · rw [hz] at hz1; cases hz1
  · rw [hstep]
    refine ⟨(fun h => by cases h), (fun h => by cases h), fun _ => ⟨rfl, hpos, ?_⟩⟩
    rw [hflag, hz]
  · rw [hstep]
    obtain ⟨_, v, s1, t, T, _, _, _, _, _, _, _, _, _, hn⟩ :=
      candidate_some_spec p hp hv.2.2.2.2.2.2.2.le hc
    refine ⟨?_, ?_, fun h => absurd h (commit_fst_ne_error _ _)⟩
    · intro h
      have hnz : is_zero next.kappa = false := by
        have := (commit_normal_iff _ _).1 h
        rw [hgt] at this
        simpa using this
      refine ⟨?_, hnz⟩
      show Dbl.FinPos next.kappa
      have hk1 : next.kappa
          = fin (spec_kappa p s1
              (spec_guard T (spec_norm2 v (e.run std_sqrt calls).delta_dim_)) t) := by
        rw [hn]; rfl
      rw [hk1] at hnz ⊢
      have hne0 : spec_kappa p s1
          (spec_guard T (spec_norm2 v (e.run std_sqrt calls).delta_dim_)) t ≠ 0 := by
        simpa using hnz
      exact ⟨_, rfl, lt_of_le_of_ne (spec_clamp_bounds _ _ _ hv.2.2.2.2.2.2.2.le).1
        (Ne.symm hne0)⟩
    · intro h
      have hcz := (commit_collapse_iff _ _).1 h
      refine ⟨(is_zero_iff _).1 hcz.2, hcz.2, ?_, rfl, fun hlt => Nat.mod_eq_of_lt hlt⟩
      show (if (Dbl.gt (e.run std_sqrt calls).current_.kappa 0 && is_zero next.kappa) = true
        then true else (e.run std_sqrt calls).lifecycle_.collapse_emitted) = true
      rw [hcz.1, hcz.2]
      rfl

/-- C16: magnitude-guard equivalence in exact arithmetic.  For an engine with guard
`T > 0` and a forcing vector `V` of finite components whose sum of squares exceeds
`T*T`, with `r = ||V||` (that is `r > 0` and `r*r` the sum of squares): one `Step` fed
`V` returns the same event and leaves the same `current`, `previous` and lifecycle as
one `Step` of the otherwise identical engine without a guard fed `V` scaled by `T/r`.
This holds for every parameter set, state, length argument and `dt`. -/
theorem C16_guard_equals_explicit_rescale (std_sqrt : Dbl K → Dbl K)
    (hsqrt : SqrtSpec std_sqrt) (self : MaxCore K) (T r : K) (delta : Nat → Dbl K)
    (v : Nat → K) (delta_len : Nat) (dt : Dbl K)
    (hg : self.delta_max_ = some (fin T)) (hT : 0 < T)
    (hd : ∀ i, i < self.delta_dim_ → delta i = fin (v i))
    (hr : 0 < r) (hrr : r * r = spec_norm2 v self.delta_dim_)
    (hbig : T * T < spec_norm2 v self.delta_dim_) :
    (self.Step std_sqrt (some delta) delta_len dt).1
      = (self.without_guard.Step std_sqrt (some (fun i => delta i * fin (T / r)))
          delta_len dt).1 ∧
    (self.Step std_sqrt (some delta) delta_len dt).2.current_
      = (self.without_guard.Step std_sqrt (some (fun i => delta i * fin (T / r)))
          delta_len dt).2.current_ ∧
    (self.Step std_sqrt (some delta) delta_len dt).2.previous_
      = (self.without_guard.Step std_sqrt (some (fun i => delta i * fin (T / r)))
          delta_len dt).2.previous_ ∧
    (self.Step std_sqrt (some delta) delta_len dt).2.lifecycle_
      = (self.without_guard.Step std_sqrt (some (fun i => delta i * fin (T / r)))
          delta_len dt).2.lifecycle_ := by
  have hcand := candidate_guard_rescale std_sqrt hsqrt self T r delta v delta_len dt hg hT hd
    hr hrr hbig
  rcases Step_cases std_sqrt self (some delta) delta_len dt with
    ⟨hz, hs⟩ | ⟨hz, hc, hs⟩ | ⟨hz, next, hc, hs⟩
  · rw [hs, Step_terminal std_sqrt self.without_guard _ delta_len dt hz]
    exact ⟨rfl, rfl, rfl, rfl⟩
  · rw [hs, Step_of_candidate_none std_sqrt self.without_guard _ delta_len dt hz
      (hcand ▸ hc)]
    exact ⟨rfl, rfl, rfl, rfl⟩
  · rw [hs, Step_of_candidate_some std_sqrt self.without_guard _ delta_len dt next hz
      (hcand ▸ hc)]
    exact ⟨rfl, rfl, rfl, rfl⟩

/-- C17: the collapse scenario.  The engine created with parameters
(1, 0.1, 0.5, 0.1, 0.05, 0.25, 0.25, 10), dimension 2 and initial state (0, 0, 10),
called repeatedly with forcing (1, 2) and `dt = 0.01`, returns NORMAL for the calls
1 to n-1 and COLLAPSE at call n, for n = 39 (which is <= 500); after call n,
`step_counter == n`, `current.kappa == 0`, and `terminal` and `collapse_emitted` are
true. -/
theorem C17_collapse_scenario :
    MaxCore.Create coeffs_collapse.toDbl 2 ⟨fin 0, fin 0, fin 10⟩ none = some engine_collapse ∧
    ∃ n : Nat, n = 39 ∧ n ≤ 500 ∧
      engine_collapse.trace sqrtQ (List.replicate n collapse_call)
        = List.replicate (n - 1) EventFlag.NORMAL ++ [EventFlag.COLLAPSE] ∧
      (engine_collapse.run sqrtQ (List.replicate n collapse_call)).lifecycle_.step_counter = n ∧
      (engine_collapse.run sqrtQ (List.replicate n collapse_call)).current_.kappa = 0 ∧
      (engine_collapse.run sqrtQ (List.replicate n collapse_call)).lifecycle_.terminal = true ∧
      (engine_collapse.run sqrtQ (List.replicate n collapse_call)).lifecycle_.collapse_emitted
        = true := by
  refine ⟨by decide!, 39, rfl, by decide, by decide!, by decide!, by decide!, by decide!,
    by decide!⟩

/-- C19: recoverability after ERROR.  For every engine and every finite sequence of
calls, deleting the calls that returned ERROR leaves the events of the remaining calls
and the final engine (`current`, `previous`, lifecycle) unchanged; and a call made right
after a call that returned ERROR behaves as if the failing call had not been made. -/
theorem C19_errors_can_be_dropped (std_sqrt : Dbl K → Dbl K) (e : MaxCore K)
    (calls : List (StepCall K)) (bad good : StepCall K) :
    e.trace std_sqrt (e.dropErrors std_sqrt calls)
      = (e.trace std_sqrt calls).filter (fun ev => decide (ev ≠ EventFlag.ERROR)) ∧
    (e.run std_sqrt (e.dropErrors std_sqrt calls)).current_
      = (e.run std_sqrt calls).current_ ∧
    (e.run std_sqrt (e.dropErrors std_sqrt calls)).previous_
      = (e.run std_sqrt calls).previous_ ∧
    (e.run std_sqrt (e.dropErrors std_sqrt calls)).lifecycle_
      = (e.run std_sqrt calls).lifecycle_ ∧
    ((e.Step std_sqrt bad.delta_input bad.delta_len bad.dt).1 = EventFlag.ERROR →
      (e.Step std_sqrt bad.delta_input bad.delta_len bad.dt).2.Step std_sqrt
          good.delta_input good.delta_len good.dt
        = e.Step std_sqrt good.delta_input good.delta_len good.dt) := by
  obtain ⟨h1, h2⟩ := dropErrors_spec std_sqrt calls e
  refine ⟨h1, by rw [h2], by rw [h2], by rw [h2], ?_⟩
  intro hbad
  obtain ⟨hz, hc⟩ := (Step_error_iff _ _ _ _ _).1 hbad
  rw [Step_of_candidate_none _ _ _ _ _ hz hc]

/-- C20: `step_counter` counts the successful commits.  After a finite sequence of
`Step` calls on a freshly created engine, with fewer than 2^64 commits, `step_counter`
is the number of calls that were made while `current.kappa != 0` and did not return
ERROR. -/
theorem C20_step_counter_counts_commits (std_sqrt : Dbl K → Dbl K)
    (params : ParameterSet K) (delta_dim : Nat) (initial_state : StructuralState K)
    (delta_max : Option (Dbl K)) (e : MaxCore K) (calls : List (StepCall K))
    (hcreate : MaxCore.Create params delta_dim initial_state delta_max = some e)
    (hlt : e.commits std_sqrt calls < 2 ^ 64) :
    (e.run std_sqrt calls).lifecycle_.step_counter = e.commits std_sqrt calls := by
  obtain ⟨_, _, _, _, rfl⟩ := (Create_eq_some_iff _ _ _ _ _).1 hcreate
  rw [run_step_counter std_sqrt calls _ (by simp [MaxCore.new])]
  simp only [MaxCore.new, Nat.zero_add]
  exact Nat.mod_eq_of_lt hlt

/-- C21: an engine constructed with initial `kappa == 0` is terminal at once
(`step_counter` 0, `terminal` true, `collapse_emitted` false); and after any finite
sequence of `Step` calls with arbitrary arguments every call has returned NORMAL,
`step_counter` is still 0, `terminal` still true, `collapse_emitted` still false, and
`current` and `previous` still equal the initial state. -/
theorem C21_initially_terminal_engine (std_sqrt : Dbl K → Dbl K)
    (params : ParameterSet K) (delta_dim : Nat) (initial_state : StructuralState K)
    (delta_max : Option (Dbl K)) (e : MaxCore K) (calls : List (StepCall K))
    (hcreate : MaxCore.Create params delta_dim initial_state delta_max = some e)
    (hk : initial_state.kappa = 0) :
    (e.lifecycle_.step_counter = 0 ∧ e.lifecycle_.terminal = true ∧
      e.lifecycle_.collapse_emitted = false) ∧
    (∀ ev, ev ∈ e.trace std_sqrt calls → ev = EventFlag.NORMAL) ∧
    (e.run std_sqrt calls).lifecycle_.step_counter = 0 ∧
    (e.run std_sqrt calls).lifecycle_.terminal = true ∧
    (e.run std_sqrt calls).lifecycle_.collapse_emitted = false ∧
    (e.run std_sqrt calls).current_ = initial_state ∧
    (e.run std_sqrt calls).previous_ = initial_state := by
  obtain ⟨_, _, _, _, rfl⟩ := (Create_eq_some_iff _ _ _ _ _).1 hcreate
  have hz : is_zero initial_state.kappa = true := (is_zero_iff _).2 hk
  obtain ⟨hrun, htrace⟩ := run_of_terminal std_sqrt calls
    (MaxCore.new params delta_dim initial_state delta_max) hz
  rw [hrun, htrace]
  refine ⟨⟨rfl, hz, rfl⟩, fun ev hev => List.eq_of_mem_replicate hev, rfl, hz, rfl, rfl, rfl⟩

/-- C22: the configuration is immutable.  Whatever a `Step` call returns, the stored
parameter set, forcing-vector dimension and optional guard are the same after the call
as before it. -/
theorem C22_step_keeps_configuration (std_sqrt : Dbl K → Dbl K) (self : MaxCore K)
    (delta_input : Option (Nat → Dbl K)) (delta_len : Nat) (dt : Dbl K) :
    (self.Step std_sqrt delta_input delta_len dt).2.params_ = self.params_ ∧
    (self.Step std_sqrt delta_input delta_len dt).2.delta_dim_ = self.delta_dim_ ∧
    (self.Step std_sqrt delta_input delta_len dt).2.delta_max_ = self.delta_max_ :=
  Step_config std_sqrt self delta_input delta_len dt

/-- C23: whenever `ComputeDerived` yields a frame, its arguments are finite, `d_phi`,
`d_memory`, `d_kappa` are `current - previous` componentwise, and `phi_rate`,
`memory_rate`, `kappa_rate` are the corresponding delta divided by `dt`. -/
theorem C23_derived_deltas_and_rates (current previous : StructuralState K)
    (lifecycle : LifecycleContext) (params : ParameterSet K) (dt : Dbl K)
    (f : DerivedFrame K) (h : ComputeDerived current previous lifecycle params dt = some f) :
    ∃ (c q : Point K) (t : K),
      current = c.toDbl ∧ previous = q.toDbl ∧ dt = fin t ∧ 0 < t ∧
      f.d_phi = fin (c.phi - q.phi) ∧ f.d_memory = fin (c.memory - q.memory) ∧
      f.d_kappa = fin (c.kappa - q.kappa) ∧
      f.phi_rate = fin ((c.phi - q.phi) / t) ∧ f.memory_rate = fin ((c.memory - q.memory) / t) ∧
      f.kappa_rate = fin ((c.kappa - q.kappa) / t) := by
  obtain ⟨c, q, lp, lm, rho, km, t, h1, h2, _, _, _, _, h7, _, ht, _, rfl⟩ :=
    ComputeDerived_some_inv h
  exact ⟨c, q, t, h1, h2, h7, ht, rfl, rfl, rfl, rfl, rfl, rfl⟩

/-- C24: whenever `ComputeDerived` yields a frame, for any arguments,
`kappa_ratio == clamp(current.kappa / kappa_max, 0, 1)`, and so
`0 <= kappa_ratio <= 1`. -/
theorem C24_kappa_ratio_clamped (current previous : StructuralState K)
    (lifecycle : LifecycleContext) (params : ParameterSet K) (dt : Dbl K)
    (f : DerivedFrame K) (h : ComputeDerived current previous lifecycle params dt = some f) :
    ∃ (kappa kappa_max ratio : K),
      current.kappa = fin kappa ∧ params.kappa_max = fin kappa_max ∧ kappa_max ≠ 0 ∧
      f.kappa_ratio = fin ratio ∧ ratio = max 0 (min 1 (kappa / kappa_max)) ∧
      0 ≤ ratio ∧ ratio ≤ 1 := by
  obtain ⟨c, q, lp, lm, rho, km, t, h1, _, _, _, _, h6, _, hkm, _, _, rfl⟩ :=
    ComputeDerived_some_inv h
  refine ⟨c.kappa, km, spec_clamp (c.kappa / km) 0 1, by rw [h1]; rfl, h6, hkm.ne', rfl, rfl,
    (spec_clamp_bounds _ _ _ zero_le_one).1, (spec_clamp_bounds _ _ _ zero_le_one).2⟩

/-- C25: whenever `ComputeDerived` yields a frame, `kappa_distance == current.kappa`,
`load_term == lambda_phi*current.phi + lambda_m*current.memory` and
`regen_term == rho*(kappa_max - current.kappa)`, all from the current snapshot. -/
theorem C25_derived_current_terms (current previous : StructuralState K)
    (lifecycle : LifecycleContext) (params : ParameterSet K) (dt : Dbl K)
    (f : DerivedFrame K) (h : ComputeDerived current previous lifecycle params dt = some f) :
    ∃ (c : Point K) (lambda_phi lambda_m rho kappa_max : K),
      current = c.toDbl ∧ params.lambda_phi = fin lambda_phi ∧
      params.lambda_m = fin lambda_m ∧ params.rho = fin rho ∧
      params.kappa_max = fin kappa_max ∧
      f.kappa_distance = fin c.kappa ∧
      f.load_term = fin (lambda_phi * c.phi + lambda_m * c.memory) ∧
      f.regen_term = fin (rho * (kappa_max - c.kappa)) := by
  obtain ⟨c, q, lp, lm, rho, km, t, h1, _, h3, h4, h5, h6, _, _, _, _, rfl⟩ :=
    ComputeDerived_some_inv h
  exact ⟨c, lp, lm, rho, km, h1, h3, h4, h5, h6, rfl, rfl, rfl⟩

/-- C27 (amended): for arguments whose current-state, previous-state and parameter
components are all finite and whose `dt` is finite, `ComputeDerived` yields a frame, the
complete frame of the spec, exactly when `kappa_max > 0`, `dt > 0` and
`current.kappa >= 0`; otherwise it yields nothing.  A negative `current.kappa` is a
projection failure too. -/
theorem C27_derived_succeeds_iff (c q : Point K) (lifecycle : LifecycleContext)
    (p : Coeffs K) (t : K) :
    ComputeDerived c.toDbl q.toDbl lifecycle p.toDbl (fin t)
      = if 0 < p.kappa_max ∧ 0 < t ∧ 0 ≤ c.kappa then
          some (spec_derived c q lifecycle p.lambda_phi p.lambda_m p.rho p.kappa_max t)
        else none :=
  ComputeDerived_fin c q lifecycle p.toDbl p.lambda_phi p.lambda_m p.rho p.kappa_max t
    rfl rfl rfl rfl

/-- C28: for every engine state reached from a successful `Create` by a finite sequence
of `Step` calls and every finite `dt > 0`, `ComputeDerived` applied to `Current()`,
`Previous()`, `Lifecycle()`, the parameters of the engine and `dt` yields a frame. -/
theorem C28_derived_succeeds_on_reachable (std_sqrt : Dbl K → Dbl K)
    (params : ParameterSet K) (delta_dim : Nat) (initial_state : StructuralState K)
    (delta_max : Option (Dbl K)) (e : MaxCore K) (calls : List (StepCall K)) (t : K)
    (hcreate : MaxCore.Create params delta_dim initial_state delta_max = some e)
    (ht : 0 < t) :
    ∃ f : DerivedFrame K,
      ComputeDerived (e.run std_sqrt calls).current_ (e.run std_sqrt calls).previous_
        (e.run std_sqrt calls).lifecycle_ params (fin t) = some f := by
  obtain ⟨p, s, s0, hv, hp, hs, hs0, _, _, hk, _, _, _, _⟩ :=
    wellFormed_run std_sqrt calls e (wellFormed_create hcreate)
  have hpar : params = p.toDbl := by
    obtain ⟨_, _, _, _, he⟩ := (Create_eq_some_iff _ _ _ _ _).1 hcreate
    rw [← hp, (run_config std_sqrt calls e).1, ← he]
    rfl
  rw [hs, hs0, hpar, ComputeDerived_fin s s0 _ p.toDbl p.lambda_phi p.lambda_m p.rho
    p.kappa_max t rfl rfl rfl rfl, if_pos ⟨hv.2.2.2.2.2.2.2, ht, hk⟩]
  exact ⟨_, rfl⟩

/-- C29: whenever `ComputeDerived` yields a frame, its `step_counter`, `terminal` and
`collapse_emitted` are those of the lifecycle argument, whatever the states are. -/
theorem C29_derived_mirrors_lifecycle (current previous : StructuralState K)
    (lifecycle : LifecycleContext) (params : ParameterSet K) (dt : Dbl K)
    (f : DerivedFrame K) (h : ComputeDerived current previous lifecycle params dt = some f) :
    f.step_counter = lifecycle.step_counter ∧ f.terminal = lifecycle.terminal ∧
    f.collapse_emitted = lifecycle.collapse_emitted := by
  obtain ⟨c, q, lp, lm, rho, km, t, _, _, _, _, _, _, _, _, _, _, rfl⟩ :=
    ComputeDerived_some_inv h
  exact ⟨rfl, rfl, rfl⟩

/-- C30: parity of the C interface with the core, the handle allocation being taken
to succeed.  For every parameter set, dimension, initial state and optional guard:
`maxcore_create` returns a handle exactly when `MaxCore::Create` returns an engine; and
then, for every finite sequence of calls, the events of `maxcore_step` have the integer
values of the events of `Step` (NORMAL = 0, COLLAPSE = 1, ERROR = 2), and after the calls
`maxcore_get_current`, `maxcore_get_previous`, `maxcore_get_lifecycle` and
`maxcore_compute_derived` succeed or fail as `Current()`, `Previous()`, `Lifecycle()`
and `ComputeDerived` do on the core and write the same values, booleans as 0 or 1. -/
theorem C30_c_api_parity (std_sqrt : Dbl K → Dbl K) (params : maxcore_params K)
    (delta_dim : Nat) (initial_state : maxcore_state K) (delta_max_opt : Option (Dbl K))
    (calls : List (StepCall K)) (dt : Dbl K) (out_s : maxcore_state K)
    (out_l : maxcore_lifecycle) (out_d : maxcore_derived_frame K) :
    ((maxcore_create true (some params) delta_dim (some initial_state) delta_max_opt).isSome
      = (MaxCore.Create (to_cpp_params params) delta_dim (to_cpp_state initial_state)
          delta_max_opt).isSome) ∧
    ∀ e : MaxCore K,
      MaxCore.Create (to_cpp_params params) delta_dim (to_cpp_state initial_state)
        delta_max_opt = some e →
      (capi_trace std_sqrt
          (maxcore_create true (some params) delta_dim (some initial_state) delta_max_opt)
          calls).map maxcore_event.code
        = (e.trace std_sqrt calls).map EventFlag.code ∧
      maxcore_get_current
          (capi_run std_sqrt
            (maxcore_create true (some params) delta_dim (some initial_state) delta_max_opt)
            calls) (some out_s)
        = (1, some ⟨(e.run std_sqrt calls).current_.phi, (e.run std_sqrt calls).current_.memory,
            (e.run std_sqrt calls).current_.kappa⟩) ∧
      maxcore_get_previous
          (capi_run std_sqrt
            (maxcore_create true (some params) delta_dim (some initial_state) delta_max_opt)
            calls) (some out_s)
        = (1, some ⟨(e.run std_sqrt calls).previous_.phi,
            (e.run std_sqrt calls).previous_.memory, (e.run std_sqrt calls).previous_.kappa⟩) ∧
      maxcore_get_lifecycle
          (capi_run std_sqrt
            (maxcore_create true (some params) delta_dim (some initial_state) delta_max_opt)
            calls) (some out_l)
        = (1, some ⟨(e.run std_sqrt calls).lifecycle_.step_counter,
            if (e.run std_sqrt calls).lifecycle_.terminal then 1 else 0,
            if (e.run std_sqrt calls).lifecycle_.collapse_emitted then 1 else 0⟩) ∧
      maxcore_compute_derived
          (capi_run std_sqrt
            (maxcore_create true (some params) delta_dim (some initial_state) delta_max_opt)
            calls) dt (some out_d)
        = derived_parity
            (ComputeDerived (e.run std_sqrt calls).current_ (e.run std_sqrt calls).previous_
              (e.run std_sqrt calls).lifecycle_ (to_cpp_params params) dt) out_d := by
  rw [maxcore_create_eq]
  refine ⟨by simp, ?_⟩
  intro e he
  rw [he]
  obtain ⟨h1, g1, g2, g3, g4⟩ := capi_run_some std_sqrt calls
    (⟨to_cpp_params params, delta_dim, delta_max_opt, e, ""⟩ : maxcore_handle K)
  simp only [Option.map_some'] 
  rw [g1, g4]
  simp only at g2 g3
  refine ⟨rfl, ?_, ?_, ?_, ?_⟩
  · simp only [maxcore_get_current, from_cpp_state, g2]
  · simp only [maxcore_get_previous, from_cpp_state, g2]
  · simp only [maxcore_get_lifecycle, from_cpp_lifecycle, g2]
  · simp only [maxcore_compute_derived, derived_parity, g2, g3]
    cases ComputeDerived (e.run std_sqrt calls).current_ (e.run std_sqrt calls).previous_
      (e.run std_sqrt calls).lifecycle_ (to_cpp_params params) dt <;> rfl

/-- C31: the last-error channel of the C interface.  Right after a `maxcore_create`
that returned a handle, `maxcore_last_error` returns the empty string; and for every
non-null handle, `maxcore_step` leaves the handle non-null, `maxcore_last_error`
returns the empty string right after a call that returned NORMAL or COLLAPSE and a
non-empty string right after a call that returned ERROR. -/
theorem C31_last_error_channel (std_sqrt : Dbl K → Dbl K) (alloc : Bool)
    (params : Option (maxcore_params K)) (delta_dim : Nat)
    (initial_state : Option (maxcore_state K)) (delta_max_opt : Option (Dbl K))
    (h : maxcore_handle K) (delta_input : Option (Nat → Dbl K)) (delta_len : Nat)
    (dt : Dbl K) :
    (∀ h0, maxcore_create alloc params delta_dim initial_state delta_max_opt = some h0 →
      maxcore_last_error (some h0) = "") ∧
    (∃ h1, (maxcore_step std_sqrt (some h) delta_input delta_len dt).2 = some h1) ∧
    ((maxcore_step std_sqrt (some h) delta_input delta_len dt).1
          = maxcore_event.MAXCORE_EVENT_NORMAL ∨
        (maxcore_step std_sqrt (some h) delta_input delta_len dt).1
          = maxcore_event.MAXCORE_EVENT_COLLAPSE →
      maxcore_last_error (maxcore_step std_sqrt (some h) delta_input delta_len dt).2 = "") ∧
    ((maxcore_step std_sqrt (some h) delta_input delta_len dt).1
        = maxcore_event.MAXCORE_EVENT_ERROR →
      maxcore_last_error (maxcore_step std_sqrt (some h) delta_input delta_len dt).2 ≠ "") := by
  refine ⟨?_, ?_, ?_, ?_⟩
  · intro h0 hc
    simp [maxcore_last_error, maxcore_create_last_error alloc params delta_dim initial_state
      delta_max_opt h0 hc]
  · obtain ⟨h1, g, _⟩ := maxcore_step_some std_sqrt h delta_input delta_len dt
    exact ⟨h1, g⟩
  · intro hev
    rw [maxcore_step_last_error]
    rcases hev with hev | hev <;> simp [hev]
  · intro hev
    rw [maxcore_step_last_error, if_pos hev]
    decide

/-- C32: called with a null handle, `maxcore_last_error` returns the diagnostic string
"null handle", which is not empty; the result depends on nothing else, and calls of
`maxcore_step` on the null handle in between do not change it. -/
theorem C32_last_error_null_handle (std_sqrt : Dbl K → Dbl K) (calls : List (StepCall K)) :
    maxcore_last_error (none : Option (maxcore_handle K)) = "null handle" ∧
    maxcore_last_error (none : Option (maxcore_handle K)) ≠ "" ∧
    maxcore_last_error (capi_run std_sqrt (none : Option (maxcore_handle K)) calls)
      = "null handle" := by
  refine ⟨rfl, by simp [maxcore_last_error], ?_⟩
  have : capi_run std_sqrt (none : Option (maxcore_handle K)) calls = none := by
    induction calls with
    | nil => rfl
    | cons c cs ih => simpa [capi_run, maxcore_step] using ih
  rw [this]
  rfl

/-- C33: under the stability bound only the lower clamp of kappa can bind.  For valid
coefficients, a state with `phi >= 0`, `memory >= 0`, `kappa <= kappa_max` (the bound
`0 <= kappa` is not needed), a squared norm `n >= 0` and `dt > 0` with
`dt * max_rate < 1`, the unclamped candidates
satisfy `phi + alpha*n - eta*phi*dt >= 0`,
`memory + beta*phi'*dt - gamma*memory*dt >= 0` and
`kappa + rho*(kappa_max - kappa)*dt - lambda_phi*phi'*dt - lambda_m*memory'*dt
<= kappa_max`, and the canonical update of `Step` yields the unclamped energy and memory
and the stability candidate clamped from below only. -/
theorem C33_only_kappa_lower_clamp_binds (p : Coeffs K) (s : Point K) (n t : K)
    (hv : p.Valid) (h1 : 0 ≤ s.phi) (h2 : 0 ≤ s.memory) (h4 : s.kappa ≤ p.kappa_max)
    (hn : 0 ≤ n) (ht : 0 < t) (hst : t * spec_max_rate p < 1) :
    0 ≤ spec_phi_raw p s n t ∧ 0 ≤ spec_memory_raw p s n t ∧
    spec_kappa_raw p s n t ≤ p.kappa_max ∧
    canonical_update p.toDbl s.toDbl (fin n) (fin t)
      = some ⟨fin (spec_phi_raw p s n t), fin (spec_memory_raw p s n t),
          fin (max 0 (spec_kappa_raw p s n t))⟩ := by
  obtain ⟨r1, r2, r3⟩ := spec_raw_bounds p s n t hv h1 h2 h4 hn ht hst
  obtain ⟨u1, u2, u3⟩ := spec_update_raw p s n t hv h1 h2 h4 hn ht hst
  refine ⟨r1, r2, r3, ?_⟩
  rw [canonical_update_fin p s n t hv.2.2.2.2.2.2.2.le]
  simp only [spec_update, Point.toDbl, u1, u2, u3]

/-- C34: monotonicity in the forcing magnitude.  On an engine with valid coefficients and
`current.kappa != 0`, if two calls with the same `dt` are both accepted and their
effective squared norms (after the guard) satisfy `n1 <= n2`, then the committed states
satisfy `phi'(n1) <= phi'(n2)`, `memory'(n1) <= memory'(n2)` and
`kappa'(n1) >= kappa'(n2)`. -/
theorem C34_monotone_in_forcing (std_sqrt : Dbl K → Dbl K) (self : MaxCore K) (p : Coeffs K)
    (T : Option K) (delta1 delta2 : Nat → Dbl K) (v1 v2 : Nat → K) (delta_len : Nat)
    (dt : Dbl K)
    (hp : self.params_ = p.toDbl) (hv : p.Valid) (hk : self.current_.kappa ≠ 0)
    (hg : self.delta_max_ = T.map fin)
    (hd1 : ∀ i, i < self.delta_dim_ → delta1 i = fin (v1 i))
    (hd2 : ∀ i, i < self.delta_dim_ → delta2 i = fin (v2 i))
    (ha1 : (self.Step std_sqrt (some delta1) delta_len dt).1 ≠ EventFlag.ERROR)
    (ha2 : (self.Step std_sqrt (some delta2) delta_len dt).1 ≠ EventFlag.ERROR)
    (hle : spec_guard T (spec_norm2 v1 self.delta_dim_)
      ≤ spec_guard T (spec_norm2 v2 self.delta_dim_)) :
    ∃ s1 s2 : Point K,
      (self.Step std_sqrt (some delta1) delta_len dt).2.current_ = s1.toDbl ∧
      (self.Step std_sqrt (some delta2) delta_len dt).2.current_ = s2.toDbl ∧
      s1.phi ≤ s2.phi ∧ s1.memory ≤ s2.memory ∧ s2.kappa ≤ s1.kappa := by
  have hz : is_zero self.current_.kappa = false := (is_zero_false_iff _).2 hk
  have hkm : 0 ≤ p.kappa_max := hv.2.2.2.2.2.2.2.le
  obtain ⟨s, t, e1, e2, e3, _, _, e6⟩ :=
    Step_accepted_spec std_sqrt self p T delta1 v1 delta_len dt hp hkm hz hg hd1 ha1
  obtain ⟨s', t', f1, f2, _, _, _, f6⟩ :=
    Step_accepted_spec std_sqrt self p T delta2 v2 delta_len dt hp hkm hz hg hd2 ha2
  have hs : s' = s := point_toDbl_inj (f1.symm.trans e1)
  have htt : t' = t := by
    have := f2.symm.trans e2
    simpa using this
  subst hs; subst htt
  obtain ⟨m1, m2, m3⟩ := spec_update_mono p s' _ _ t' hv e3.le hle
  exact ⟨_, _, e6, f6, m1, m2, m3⟩

/-- C35 (amended): taking the arithmetic as exact, `Step` depends on the forcing vector
only through its sum of squares.  For every engine and `dt`, two forcing vectors of the
configured length whose components are all finite and whose sums of squares are equal
give the same event and the same engine after the call (`current`, `previous`, lifecycle
and configuration). -/
theorem C35_depends_on_sum_of_squares (std_sqrt : Dbl K → Dbl K) (self : MaxCore K)
    (delta1 delta2 : Nat → Dbl K) (v1 v2 : Nat → K) (dt : Dbl K)
    (hd1 : ∀ i, i < self.delta_dim_ → delta1 i = fin (v1 i))
    (hd2 : ∀ i, i < self.delta_dim_ → delta2 i = fin (v2 i))
    (heq : spec_norm2 v1 self.delta_dim_ = spec_norm2 v2 self.delta_dim_) :
    self.Step std_sqrt (some delta1) self.delta_dim_ dt
      = self.Step std_sqrt (some delta2) self.delta_dim_ dt := by
  have hc : self.candidate std_sqrt (some delta1) self.delta_dim_ dt
      = self.candidate std_sqrt (some delta2) self.delta_dim_ dt := by
    simp only [MaxCore.candidate, norm2_loop_of_fin delta1 v1 _ hd1,
      norm2_loop_of_fin delta2 v2 _ hd2, heq]
  simp only [MaxCore.Step, hc]

/-- C36: an inactive guard is transparent.  For an engine built by `Create` with guard
`T`, in any state it reaches, and a call whose forcing vector has finite components with
sum of squares `<= T*T`, `Step` returns the same event and produces the same `current`,
`previous` and lifecycle as the otherwise identical engine with no guard. -/
theorem C36_inactive_guard_transparent (std_sqrt : Dbl K → Dbl K) (params : ParameterSet K)
    (delta_dim : Nat) (initial_state : StructuralState K) (T : K) (e : MaxCore K)
    (calls : List (StepCall K)) (delta : Nat → Dbl K) (v : Nat → K) (delta_len : Nat)
    (dt : Dbl K)
    (hcreate : MaxCore.Create params delta_dim initial_state (some (fin T)) = some e)
    (hd : ∀ i, i < delta_dim → delta i = fin (v i))
    (hsmall : spec_norm2 v delta_dim ≤ T * T) :
    ((e.run std_sqrt calls).Step std_sqrt (some delta) delta_len dt).1
      = ((e.run std_sqrt calls).without_guard.Step std_sqrt (some delta) delta_len dt).1 ∧
    ((e.run std_sqrt calls).Step std_sqrt (some delta) delta_len dt).2.current_
      = ((e.run std_sqrt calls).without_guard.Step std_sqrt (some delta) delta_len
          dt).2.current_ ∧
    ((e.run std_sqrt calls).Step std_sqrt (some delta) delta_len dt).2.previous_
      = ((e.run std_sqrt calls).without_guard.Step std_sqrt (some delta) delta_len
          dt).2.previous_ ∧
    ((e.run std_sqrt calls).Step std_sqrt (some delta) delta_len dt).2.lifecycle_
      = ((e.run std_sqrt calls).without_guard.Step std_sqrt (some delta) delta_len
          dt).2.lifecycle_ := by
  obtain ⟨c1, c2, c3⟩ := run_config std_sqrt calls e
  obtain ⟨_, _, _, hdm, he⟩ := (Create_eq_some_iff _ _ _ _ _).1 hcreate
  have hdim : (e.run std_sqrt calls).delta_dim_ = delta_dim := by rw [c2, ← he]; rfl
  have hmax : (e.run std_sqrt calls).delta_max_ = some (fin T) := by rw [c3, ← he]; rfl
  have hT : 0 < T := by
    obtain ⟨x, hx, hpos⟩ := hdm _ rfl
    cases hx
    exact hpos
  generalize e.run std_sqrt calls = self at hdim hmax ⊢
  have hc : self.candidate std_sqrt (some delta) delta_len dt
      = self.without_guard.candidate std_sqrt (some delta) delta_len dt := by
    simp only [MaxCore.candidate, MaxCore.without_guard, hdim, hmax,
      norm2_loop_of_fin delta v _ hd, norm_guard_inactive std_sqrt T _ hT hsmall]
    simp [norm_guard]
  rcases Bool.eq_false_or_eq_true (is_zero self.current_.kappa) with hz | hz
  · have hz' : is_zero self.without_guard.current_.kappa = true := hz
    rw [Step_terminal _ _ _ _ _ hz, Step_terminal _ _ _ _ _ hz']
    exact ⟨rfl, rfl, rfl, rfl⟩
  · have hz' : is_zero self.without_guard.current_.kappa = false := hz
    cases hcs : self.candidate std_sqrt (some delta) delta_len dt with
    | none =>
      rw [Step_of_candidate_none _ _ _ _ _ hz hcs,
        Step_of_candidate_none _ _ _ _ _ hz' (hc ▸ hcs)]
      exact ⟨rfl, rfl, rfl, rfl⟩
    | some next =>
      rw [Step_of_candidate_some _ _ _ _ _ next hz hcs,
        Step_of_candidate_some _ _ _ _ _ next hz' (hc ▸ hcs)]
      exact ⟨rfl, rfl, rfl, rfl⟩

/-- C37: in every state reached from a successful `Create` by a finite sequence of
`Step` calls, `collapse_emitted == true` implies `terminal == true` and
`current.kappa == 0`; and this is still so after any further calls. -/
theorem C37_collapse_emitted_implies_terminal (std_sqrt : Dbl K → Dbl K)
    (params : ParameterSet K) (delta_dim : Nat) (initial_state : StructuralState K)
    (delta_max : Option (Dbl K)) (e : MaxCore K) (calls more : List (StepCall K))
    (hcreate : MaxCore.Create params delta_dim initial_state delta_max = some e)
    (hc : (e.run std_sqrt calls).lifecycle_.collapse_emitted = true) :
    ((e.run std_sqrt calls).lifecycle_.terminal = true ∧
      (e.run std_sqrt calls).current_.kappa = 0) ∧
    (((e.run std_sqrt calls).run std_sqrt more).lifecycle_.terminal = true ∧
      ((e.run std_sqrt calls).run std_sqrt more).current_.kappa = 0) := by
  obtain ⟨_, _, _, _, rfl⟩ := (Create_eq_some_iff _ _ _ _ _).1 hcreate
  have hz := run_collapse_inv std_sqrt calls
    (MaxCore.new params delta_dim initial_state delta_max) (fun h => by cases h) hc
  have ht := run_terminal_flag std_sqrt calls
    (MaxCore.new params delta_dim initial_state delta_max) rfl
  have hmore := (run_of_terminal std_sqrt more _ hz).1
  rw [hmore]
  exact ⟨⟨ht.trans hz, (is_zero_iff _).1 hz⟩, ht.trans hz, (is_zero_iff _).1 hz⟩

/-- C38: the guard bounds the energy injection.  For an engine built by `Create` with
guard `T`, in any state it reaches, the energy `phi` is finite and `>= 0`, and every call
that does not return ERROR leaves an energy `phi' <= phi + alpha*T*T`, whatever the
forcing vector. -/
theorem C38_guard_bounds_energy (std_sqrt : Dbl K → Dbl K) (p : Coeffs K) (delta_dim : Nat)
    (initial_state : StructuralState K) (T : K) (e : MaxCore K) (calls : List (StepCall K))
    (delta_input : Option (Nat → Dbl K)) (delta_len : Nat) (dt : Dbl K)
    (hcreate : MaxCore.Create p.toDbl delta_dim initial_state (some (fin T)) = some e)
    (ha : ((e.run std_sqrt calls).Step std_sqrt delta_input delta_len dt).1
      ≠ EventFlag.ERROR) :
    ∃ phi phi1 : K,
      (e.run std_sqrt calls).current_.phi = fin phi ∧ 0 ≤ phi ∧
      ((e.run std_sqrt calls).Step std_sqrt delta_input delta_len dt).2.current_.phi
        = fin phi1 ∧
      phi1 ≤ phi + p.alpha * T * T := by
  obtain ⟨hv, hp, hdim, hmax, hdm, s, hs, b1, _, _, _⟩ :=
    run_of_create_spec std_sqrt p delta_dim initial_state (some (fin T)) e calls hcreate
  have hT : 0 < T := by
    obtain ⟨x, hx, hpos⟩ := hdm _ rfl
    cases hx
    exact hpos
  have hTT : 0 ≤ p.alpha * T * T := by
    have := mul_nonneg hv.1.le (mul_self_nonneg T)
    rwa [← mul_assoc] at this
  generalize e.run std_sqrt calls = self at hp hdim hmax hs ha ⊢
  rcases Step_cases std_sqrt self delta_input delta_len dt with
    ⟨_, hst⟩ | ⟨_, _, hst⟩ | ⟨hz, next, hc, hst⟩
  · rw [hst, hs]
    exact ⟨s.phi, s.phi, rfl, b1, rfl, by linarith⟩
  · rw [hst] at ha; exact absurd rfl ha
  · obtain ⟨d1, v1, s1, t, T1, _, _, _, e4, _, e6, e7, e8, _, e10⟩ :=
      candidate_some_spec p hp hv.2.2.2.2.2.2.2.le hc
    have hss : s1 = s := point_toDbl_inj (e4.symm.trans hs)
    subst hss
    have hT1 : T1 = some T := option_map_fin_inj (e8.symm.trans hmax)
    subst hT1
    rw [hst, hs]
    refine ⟨s1.phi, spec_phi p s1 (spec_guard (some T) (spec_norm2 v1 self.delta_dim_)) t,
      rfl, b1, ?_, ?_⟩
    · show next.phi = _
      rw [e10]; rfl
    · have hg : spec_guard (some T) (spec_norm2 v1 self.delta_dim_) ≤ T * T := by
        simp only [spec_guard]
        split_ifs with h
        · exact le_rfl
        · exact not_lt.1 h
      unfold spec_phi
      apply max_le (by linarith)
      have h1 := mul_le_mul_of_nonneg_left hg hv.1.le
      have h2 := mul_nonneg (mul_nonneg hv.2.1.le b1) e6.le
      have h3 : p.alpha * (T * T) = p.alpha * T * T := by ring
      linarith

/-- C40: on an engine built by `Create`, in any state it reaches, and with a square root
that maps positive finite values to positive finite values, the defensive ERROR exits of
`Step` are never taken: (1) `max_rate` is finite; (2) `dt * max_rate` is finite for a
finite `dt`; (3) the accumulated sum of squares is finite and not `< 0`; (4) a configured
guard is finite and `> 0`, its square is finite, and when the sum of squares exceeds it
both `sqrt(norm2)` and `scale` are finite and `> 0`; (5) on finite `norm2` and `dt` the
canonical update passes its finiteness checks, the final one on the clamped candidate
included.  Hence (6) the candidate is rejected exactly by the input validation: a null
vector, a wrong length, a `dt` that is not finite or not `> 0`, `dt * max_rate` not
`< 1`, or a component that is not finite. -/
theorem C40_defensive_branches_unreachable (std_sqrt : Dbl K → Dbl K)
    (hsqrt : SqrtSpec std_sqrt) (params : ParameterSet K) (delta_dim : Nat)
    (initial_state : StructuralState K) (delta_max : Option (Dbl K)) (e : MaxCore K)
    (calls : List (StepCall K))
    (hcreate : MaxCore.Create params delta_dim initial_state delta_max = some e) :
    is_finite (max_rate (e.run std_sqrt calls).params_) = true ∧
    (∀ dt : Dbl K, is_finite dt = true →
      is_finite (dt * max_rate (e.run std_sqrt calls).params_) = true) ∧
    (∀ (delta : Nat → Dbl K) (norm2 : Dbl K),
      norm2_loop delta (e.run std_sqrt calls).delta_dim_ 0 0 = some norm2 →
        is_finite norm2 = true ∧ Dbl.lt norm2 0 = false) ∧
    (∀ dm : Dbl K, (e.run std_sqrt calls).delta_max_ = some dm →
      (is_finite dm = true ∧ Dbl.gt dm 0 = true) ∧ is_finite (dm * dm) = true ∧
      ∀ norm2 : Dbl K, is_finite norm2 = true → Dbl.gt norm2 (dm * dm) = true →
        (is_finite (std_sqrt norm2) = true ∧ Dbl.gt (std_sqrt norm2) 0 = true) ∧
        (is_finite (dm / std_sqrt norm2) = true ∧ Dbl.gt (dm / std_sqrt norm2) 0 = true)) ∧
    (∀ norm2 dt : Dbl K, is_finite norm2 = true → is_finite dt = true →
      ∃ next, canonical_update (e.run std_sqrt calls).params_ (e.run std_sqrt calls).current_
        norm2 dt = some next) ∧
    (∀ (delta_input : Option (Nat → Dbl K)) (delta_len : Nat) (dt : Dbl K),
      (e.run std_sqrt calls).candidate std_sqrt delta_input delta_len dt = none ↔
        (delta_input = none ∨ delta_len ≠ (e.run std_sqrt calls).delta_dim_ ∨
          is_finite dt = false ∨ Dbl.gt dt 0 = false ∨
          Dbl.lt (dt * max_rate (e.run std_sqrt calls).params_) 1 = false ∨
          ∃ delta i, delta_input = some delta ∧ i < (e.run std_sqrt calls).delta_dim_ ∧
            is_finite (delta i) = false)) := by
  have hw := wellFormed_run std_sqrt calls e (wellFormed_create hcreate)
  generalize e.run std_sqrt calls = self at hw ⊢
  refine ⟨?_, ?_, ?_, ?_, ?_, fun di dl dt => candidate_none_iff hsqrt self hw di dl dt⟩
  all_goals obtain ⟨p, s, _, hv, hp, hs, _, _, _, _, _, _, hg, _⟩ := hw
  · rw [hp, max_rate_fin]; rfl
  · intro dt hdt
    obtain ⟨t, rfl⟩ := (is_finite_iff dt).1 hdt
    rw [hp, max_rate_fin]; rfl
  · intro delta norm2 h
    obtain ⟨_, rfl⟩ := norm2_loop_spec delta _ _ h
    have h0 := spec_norm2_nonneg (fun i => Dbl.toK (delta i)) self.delta_dim_
    exact ⟨rfl, by simp [h0]⟩
  · intro dm hdm
    obtain ⟨x, rfl, hx⟩ := hg dm hdm
    refine ⟨⟨rfl, by simp [hx]⟩, rfl, ?_⟩
    intro norm2 hfin hgt
    obtain ⟨n, rfl⟩ := (is_finite_iff norm2).1 hfin
    have hn : x * x < n := by simpa using hgt
    have hn0 : 0 < n := lt_of_le_of_lt (mul_self_nonneg x) hn
    obtain ⟨r, hr, hsq⟩ := hsqrt n hn0
    rw [hsq, Dbl.fin_div_fin x r hr.ne']
    exact ⟨⟨rfl, by simp [hr]⟩, rfl, by simp [div_pos hx hr]⟩
  · intro norm2 dt h1 h2
    obtain ⟨n, rfl⟩ := (is_finite_iff norm2).1 h1
    obtain ⟨t, rfl⟩ := (is_finite_iff dt).1 h2
    rw [hp, hs, canonical_update_fin p s n t hv.2.2.2.2.2.2.2.le]
    exact ⟨_, rfl⟩

end Claims

/-! ## Concrete instances of the claims -/

/-- Witness of C1: the call with `dt == 0` on the canonical engine (case A of
tests/test_validation.cpp) returns ERROR and changes nothing. -/
theorem C1_error_leaves_engine_unchanged_witness :
    (engine_canonical.Step sqrtQ (some (vec2 1 2)) 2 (fin 0)).1 = EventFlag.ERROR ∧
    (engine_canonical.Step sqrtQ (some (vec2 1 2)) 2 (fin 0)).2.current_
      = engine_canonical.current_ ∧
    (engine_canonical.Step sqrtQ (some (vec2 1 2)) 2 (fin 0)).2.previous_
      = engine_canonical.previous_ ∧
    (engine_canonical.Step sqrtQ (some (vec2 1 2)) 2 (fin 0)).2.lifecycle_.step_counter
      = engine_canonical.lifecycle_.step_counter ∧
    (engine_canonical.Step sqrtQ (some (vec2 1 2)) 2 (fin 0)).2.lifecycle_.terminal
      = engine_canonical.lifecycle_.terminal ∧
    (engine_canonical.Step sqrtQ (some (vec2 1 2)) 2 (fin 0)).2.lifecycle_.collapse_emitted
      = engine_canonical.lifecycle_.collapse_emitted := by
  have h : (engine_canonical.Step sqrtQ (some (vec2 1 2)) 2 (fin 0)).1 = EventFlag.ERROR := by
    simp [MaxCore.Step, MaxCore.candidate, engine_canonical, MaxCore.new]
  exact ⟨h, C1_error_leaves_engine_unchanged sqrtQ engine_canonical (some (vec2 1 2)) 2
    (fin 0) h⟩

/-- Witness of C2: a terminal engine called with a null vector, length 0 and a NaN
`dt`, as in tests/test_terminal_shortcircuit.cpp. -/
theorem C2_terminal_absorbs_every_call_witness :
    engine_terminal.current_.kappa = 0 ∧
    (engine_terminal.Step sqrtQ none 0 nan).1 = EventFlag.NORMAL ∧
    (engine_terminal.Step sqrtQ none 0 nan).2.current_ = engine_terminal.current_ ∧
    (engine_terminal.Step sqrtQ none 0 nan).2.previous_ = engine_terminal.previous_ ∧
    (engine_terminal.Step sqrtQ none 0 nan).2.lifecycle_ = engine_terminal.lifecycle_ :=
  ⟨rfl, C2_terminal_absorbs_every_call sqrtQ engine_terminal none 0 nan rfl⟩

/-- Witness of C4: the canonical engine after the step of tests/test_canonical.cpp. -/
theorem C4_reachable_state_within_bounds_witness :
    ∃ (s : Point ℚ) (kmax : ℚ),
      (engine_canonical.run sqrtQ [⟨some (vec2 3 4), 2, fin (1 / 10)⟩]).current_ = s.toDbl ∧
      (engine_canonical.run sqrtQ [⟨some (vec2 3 4), 2, fin (1 / 10)⟩]).params_.kappa_max
        = fin kmax ∧
      0 ≤ s.phi ∧ 0 ≤ s.memory ∧ 0 ≤ s.kappa ∧ s.kappa ≤ kmax :=
  C4_reachable_state_within_bounds sqrtQ coeffs_canonical.toDbl 2 ⟨fin 1, fin 2, fin 5⟩ none
    engine_canonical [⟨some (vec2 3 4), 2, fin (1 / 10)⟩] Create_canonical

/-- Witness of C6: the canonical engine, and the engine created with `kappa == 0`. -/
theorem C6_create_initial_engine_witness :
    (engine_canonical.previous_ = ⟨fin 1, fin 2, fin 5⟩ ∧
      engine_canonical.current_ = ⟨fin 1, fin 2, fin 5⟩ ∧
      engine_canonical.lifecycle_.step_counter = 0 ∧
      (engine_canonical.lifecycle_.terminal = true ↔ (fin 5 : Dbl ℚ) = 0) ∧
      engine_canonical.lifecycle_.collapse_emitted = false) ∧
    (engine_terminal.previous_ = ⟨fin 1, fin 2, fin 0⟩ ∧
      engine_terminal.current_ = ⟨fin 1, fin 2, fin 0⟩ ∧
      engine_terminal.lifecycle_.step_counter = 0 ∧
      (engine_terminal.lifecycle_.terminal = true ↔ (fin 0 : Dbl ℚ) = 0) ∧
      engine_terminal.lifecycle_.collapse_emitted = false) :=
  ⟨C6_create_initial_engine coeffs_canonical.toDbl 2 ⟨fin 1, fin 2, fin 5⟩ none
      engine_canonical Create_canonical,
    C6_create_initial_engine coeffs_canonical.toDbl 2 ⟨fin 1, fin 2, fin 0⟩ none
      engine_terminal Create_terminal⟩

/-- Witness of C7: the five kinds of invalid input on the canonical engine: a null
vector, a wrong length, a NaN component, a NaN `dt` and `dt == 0`. -/
theorem C7_invalid_input_returns_error_witness :
    (engine_canonical.Step sqrtQ none 2 (fin (1 / 100))).1 = EventFlag.ERROR ∧
    (engine_canonical.Step sqrtQ (some (vec2 1 2)) 1 (fin (1 / 100))).1 = EventFlag.ERROR ∧
    (engine_canonical.Step sqrtQ (some vec_nan) 2 (fin (1 / 100))).1 = EventFlag.ERROR ∧
    (engine_canonical.Step sqrtQ (some (vec2 1 2)) 2 nan).1 = EventFlag.ERROR ∧
    (engine_canonical.Step sqrtQ (some (vec2 1 2)) 2 (fin 0)).1 = EventFlag.ERROR :=
  ⟨C7_invalid_input_returns_error sqrtQ engine_canonical none 2 (fin (1 / 100))
      engine_canonical_kappa_ne_zero (Or.inl rfl),
    C7_invalid_input_returns_error sqrtQ engine_canonical (some (vec2 1 2)) 1 (fin (1 / 100))
      engine_canonical_kappa_ne_zero (Or.inr (Or.inl (by decide))),
    C7_invalid_input_returns_error sqrtQ engine_canonical (some vec_nan) 2 (fin (1 / 100))
      engine_canonical_kappa_ne_zero
      (Or.inr (Or.inr (Or.inl ⟨vec_nan, 1, rfl, by decide, by intro x; simp [vec_nan]⟩))),
    C7_invalid_input_returns_error sqrtQ engine_canonical (some (vec2 1 2)) 2 nan
      engine_canonical_kappa_ne_zero (Or.inr (Or.inr (Or.inr (Or.inl (by intro t; simp))))),
    C7_invalid_input_returns_error sqrtQ engine_canonical (some (vec2 1 2)) 2 (fin 0)
      engine_canonical_kappa_ne_zero
      (Or.inr (Or.inr (Or.inr (Or.inr ⟨0, rfl, le_refl 0⟩))))⟩

/-- Witness of C8: the `dt_bad` call of tests/test_dt_stability.cpp, `eta = 2` the
largest rate and `dt = 0.5`, product exactly 1. -/
theorem C8_unstable_dt_returns_error_witness :
    (engine_stability.Step sqrtQ (some (vec2 1 2)) 2 (fin (1 / 2))).1 = EventFlag.ERROR ∧
    (engine_stability.Step sqrtQ (some (vec2 1 2)) 2 (fin (1 / 2))).2 = engine_stability :=
  C8_unstable_dt_returns_error sqrtQ engine_stability (some (vec2 1 2)) 2
    2 (1 / 10) (1 / 5) (1 / 10) (1 / 10) (1 / 2)
    engine_stability_kappa_ne_zero rfl rfl rfl rfl rfl (by norm_num)

/-- Witness of C9: the `dt_ok` call of tests/test_dt_stability.cpp, largest rate 2,
`dt = 0.49`, forcing (1, 2), on the freshly created engine. -/
theorem C9_valid_call_commits_once_witness :
    (engine_stability.Step sqrtQ (some (vec2 1 2)) 2 (fin (49 / 100))).1 ≠ EventFlag.ERROR ∧
    (engine_stability.Step sqrtQ (some (vec2 1 2)) 2 (fin (49 / 100))).2.lifecycle_.step_counter
      = engine_stability.lifecycle_.step_counter + 1 :=
  C9_valid_call_commits_once sqrtQ sqrtQ_spec coeffs_stability 2 ⟨fin 0, fin 0, fin 10⟩ none
    engine_stability [] (vec2 1 2) (49 / 100) Create_stability engine_stability_kappa_ne_zero
    (by intro i _; simp only [vec2]; split <;> rfl) (by norm_num)
    (by norm_num [spec_max_rate, coeffs_stability])
    (by simp [MaxCore.run, engine_stability, MaxCore.new])

/-- Witness of C10 (amended): the step of tests/test_canonical.cpp. -/
theorem C10_commit_updates_lifecycle_witness :
    (engine_canonical.Step sqrtQ (some (vec2 3 4)) 2 (fin (1 / 10))).2.previous_
      = engine_canonical.current_ ∧
    (engine_canonical.Step sqrtQ (some (vec2 3 4)) 2 (fin (1 / 10))).2.lifecycle_.step_counter
      = (engine_canonical.lifecycle_.step_counter + 1) % 2 ^ 64 ∧
    (engine_canonical.lifecycle_.step_counter + 1 < 2 ^ 64 →
      (engine_canonical.Step sqrtQ (some (vec2 3 4)) 2 (fin (1 / 10))).2.lifecycle_.step_counter
        = engine_canonical.lifecycle_.step_counter + 1) ∧
    ((engine_canonical.Step sqrtQ (some (vec2 3 4)) 2 (fin (1 / 10))).2.lifecycle_.terminal = true ↔
      (engine_canonical.Step sqrtQ (some (vec2 3 4)) 2 (fin (1 / 10))).2.current_.kappa = 0) ∧
    ((engine_canonical.Step sqrtQ (some (vec2 3 4)) 2
        (fin (1 / 10))).2.lifecycle_.collapse_emitted = true ↔
      (engine_canonical.lifecycle_.collapse_emitted = true ∨
        (Dbl.gt engine_canonical.current_.kappa 0 = true ∧
          (engine_canonical.Step sqrtQ (some (vec2 3 4)) 2 (fin (1 / 10))).2.current_.kappa = 0))) :=
  C10_commit_updates_lifecycle sqrtQ engine_canonical (some (vec2 3 4)) 2 (fin (1 / 10))
    engine_canonical_kappa_ne_zero (by rw [Step_canonical_values]; decide)

/-- Counterexample to C10 as stated: the engine created at rest, after 2^64 - 1 calls
that keep it at rest, has `step_counter = 2^64 - 1`; one more such call is accepted
(NORMAL) and leaves `step_counter = 0`, not the old value plus 1. -/
theorem C10_counter_wraps_counterexample :
    MaxCore.Create coeffs_canonical.toDbl 2 ⟨fin 0, fin 0, fin 10⟩ none = some engine_rest ∧
    engine_rest.run sqrtQ (List.replicate (2 ^ 64 - 1) rest_call)
      = engine_rest_at (2 ^ 64 - 1) ∧
    (engine_rest_at (2 ^ 64 - 1)).current_.kappa ≠ 0 ∧
    ((engine_rest_at (2 ^ 64 - 1)).Step sqrtQ (some (vec2 0 0)) 2 (fin (1 / 10))).1
      = EventFlag.NORMAL ∧
    ((engine_rest_at (2 ^ 64 - 1)).Step sqrtQ (some (vec2 0 0)) 2
      (fin (1 / 10))).2.lifecycle_.step_counter = 0 ∧
    ((engine_rest_at (2 ^ 64 - 1)).Step sqrtQ (some (vec2 0 0)) 2
      (fin (1 / 10))).2.lifecycle_.step_counter
        ≠ (engine_rest_at (2 ^ 64 - 1)).lifecycle_.step_counter + 1 := by
  have hstep := Step_rest_at (2 ^ 64 - 1)
  have hrun := run_rest_at (2 ^ 64 - 1) 0 (by norm_num)
  simp only [rest_call] at hstep
  refine ⟨Create_rest, ?_, ?_, ?_, ?_, ?_⟩
  · have h0 : engine_rest_at 0 = engine_rest := rfl
    rw [h0] at hrun
    rw [hrun]
    norm_num
  · simp [engine_rest_at, engine_rest, MaxCore.new, Dbl.zero_def]
  · rw [hstep]
  · rw [hstep]; simp [engine_rest_at]
  · rw [hstep]; simp [engine_rest_at]

/-- Witness of C11: call 39 of the collapse scenario returns COLLAPSE, from
`kappa > 0` to `kappa == 0`. -/
theorem C11_collapse_iff_kappa_reaches_zero_witness :
    ((engine_collapse.run sqrtQ (List.replicate 38 collapse_call)).Step sqrtQ
        (some (vec2 1 2)) 2 (fin (1 / 100))).1 = EventFlag.COLLAPSE ∧
    ((((engine_collapse.run sqrtQ (List.replicate 38 collapse_call)).Step sqrtQ
        (some (vec2 1 2)) 2 (fin (1 / 100))).1 = EventFlag.COLLAPSE ↔
      (Dbl.FinPos (engine_collapse.run sqrtQ (List.replicate 38 collapse_call)).current_.kappa ∧
        ((engine_collapse.run sqrtQ (List.replicate 38 collapse_call)).Step sqrtQ
          (some (vec2 1 2)) 2 (fin (1 / 100))).2.current_.kappa = 0)) ∧
    (((engine_collapse.run sqrtQ (List.replicate 38 collapse_call)).Step sqrtQ
        (some (vec2 1 2)) 2 (fin (1 / 100))).1 ≠ EventFlag.COLLAPSE →
      ((engine_collapse.run sqrtQ (List.replicate 38 collapse_call)).Step sqrtQ
        (some (vec2 1 2)) 2 (fin (1 / 100))).1 = EventFlag.NORMAL)) :=
  ⟨by decide!,
    C11_collapse_iff_kappa_reaches_zero sqrtQ
      (engine_collapse.run sqrtQ (List.replicate 38 collapse_call)) (some (vec2 1 2)) 2
      (fin (1 / 100)) (by decide!) (by decide!)⟩

theorem Create_collapse :
    MaxCore.Create coeffs_collapse.toDbl 2 ⟨fin 0, fin 0, fin 10⟩ none = some engine_collapse := by
  decide!

/-- Witness of C12: the collapse scenario after 38 calls (Active) and after 39 calls
(Terminal). -/
theorem C12_terminal_iff_kappa_zero_witness :
    ((engine_collapse.run sqrtQ (List.replicate 38 collapse_call)).lifecycle_.terminal = true ↔
      (engine_collapse.run sqrtQ (List.replicate 38 collapse_call)).current_.kappa = 0) ∧
    ((engine_collapse.run sqrtQ (List.replicate 39 collapse_call)).lifecycle_.terminal = true ↔
      (engine_collapse.run sqrtQ (List.replicate 39 collapse_call)).current_.kappa = 0) :=
  ⟨C12_terminal_iff_kappa_zero sqrtQ coeffs_collapse.toDbl 2 ⟨fin 0, fin 0, fin 10⟩ none
      engine_collapse (List.replicate 38 collapse_call) Create_collapse,
    C12_terminal_iff_kappa_zero sqrtQ coeffs_collapse.toDbl 2 ⟨fin 0, fin 0, fin 10⟩ none
      engine_collapse (List.replicate 39 collapse_call) Create_collapse⟩

/-- Witness of C13: 49 calls of the collapse scenario, as in tests/test_collapse.cpp. -/
theorem C13_collapse_at_most_once_witness :
    (engine_collapse.trace sqrtQ (List.replicate 49 collapse_call)).count EventFlag.COLLAPSE ≤ 1 ∧
    ∀ pre post,
      engine_collapse.trace sqrtQ (List.replicate 49 collapse_call)
        = pre ++ EventFlag.COLLAPSE :: post →
      ∀ ev, ev ∈ post → ev = EventFlag.NORMAL :=
  C13_collapse_at_most_once sqrtQ engine_collapse (List.replicate 49 collapse_call)

/-- Witness of C14: 49 calls of the collapse scenario. -/
theorem C14_collapse_emitted_monotonic_witness :
    (engine_collapse.lifecycle_.collapse_emitted = true →
      (engine_collapse.Step sqrtQ (some (vec2 1 2)) 2
        (fin (1 / 100))).2.lifecycle_.collapse_emitted = true) ∧
    ∃ a b : Nat,
      (engine_collapse.states sqrtQ (List.replicate 49 collapse_call)).map
          (fun x => x.lifecycle_.collapse_emitted)
        = List.replicate a false ++ List.replicate b true :=
  C14_collapse_emitted_monotonic sqrtQ engine_collapse (some (vec2 1 2)) 2 (fin (1 / 100))
    (List.replicate 49 collapse_call)

/-- The values of `collapse_emitted` along 49 calls of the collapse scenario: false
before the first call and after each of the calls 1 to 38, true from call 39 on. -/
theorem collapse_emitted_values :
    (engine_collapse.states sqrtQ (List.replicate 49 collapse_call)).map
        (fun x => x.lifecycle_.collapse_emitted)
      = List.replicate 39 false ++ List.replicate 11 true := by
  decide!

/-- Witness of C15: call 39 of the collapse scenario, made on the engine reached by the
first 38 calls. -/
theorem C15_state_machine_witness :
    (((engine_collapse.run sqrtQ (List.replicate 38 collapse_call)).Step sqrtQ
        (some (vec2 1 2)) 2 (fin (1 / 100))).1 = EventFlag.NORMAL →
      Dbl.FinPos ((engine_collapse.run sqrtQ (List.replicate 38 collapse_call)).Step sqrtQ
        (some (vec2 1 2)) 2 (fin (1 / 100))).2.current_.kappa ∧
      ((engine_collapse.run sqrtQ (List.replicate 38 collapse_call)).Step sqrtQ
        (some (vec2 1 2)) 2 (fin (1 / 100))).2.lifecycle_.terminal = false) ∧
    (((engine_collapse.run sqrtQ (List.replicate 38 collapse_call)).Step sqrtQ
        (some (vec2 1 2)) 2 (fin (1 / 100))).1 = EventFlag.COLLAPSE →
      ((engine_collapse.run sqrtQ (List.replicate 38 collapse_call)).Step sqrtQ
        (some (vec2 1 2)) 2 (fin (1 / 100))).2.current_.kappa = 0 ∧
      ((engine_collapse.run sqrtQ (List.replicate 38 collapse_call)).Step sqrtQ
        (some (vec2 1 2)) 2 (fin (1 / 100))).2.lifecycle_.terminal = true ∧
      ((engine_collapse.run sqrtQ (List.replicate 38 collapse_call)).Step sqrtQ
        (some (vec2 1 2)) 2 (fin (1 / 100))).2.lifecycle_.collapse_emitted = true ∧
      ((engine_collapse.run sqrtQ (List.replicate 38 collapse_call)).Step sqrtQ
        (some (vec2 1 2)) 2 (fin (1 / 100))).2.lifecycle_.step_counter
        = ((engine_collapse.run sqrtQ (List.replicate 38
            collapse_call)).lifecycle_.step_counter + 1) % 2 ^ 64 ∧
      ((engine_collapse.run sqrtQ (List.replicate 38 collapse_call)).lifecycle_.step_counter + 1
          < 2 ^ 64 →
        ((engine_collapse.run sqrtQ (List.replicate 38 collapse_call)).Step sqrtQ
          (some (vec2 1 2)) 2 (fin (1 / 100))).2.lifecycle_.step_counter
          = (engine_collapse.run sqrtQ (List.replicate 38
              collapse_call)).lifecycle_.step_counter + 1)) ∧
    (((engine_collapse.run sqrtQ (List.replicate 38 collapse_call)).Step sqrtQ
        (some (vec2 1 2)) 2 (fin (1 / 100))).1 = EventFlag.ERROR →
      ((engine_collapse.run sqrtQ (List.replicate 38 collapse_call)).Step sqrtQ
        (some (vec2 1 2)) 2 (fin (1 / 100))).2
        = engine_collapse.run sqrtQ (List.replicate 38 collapse_call) ∧
      Dbl.FinPos (engine_collapse.run sqrtQ (List.replicate 38 collapse_call)).current_.kappa ∧
      (engine_collapse.run sqrtQ (List.replicate 38 collapse_call)).lifecycle_.terminal
        = false) :=
  C15_state_machine sqrtQ coeffs_collapse.toDbl 2 ⟨fin 0, fin 0, fin 10⟩ none engine_collapse
    (List.replicate 38 collapse_call) (some (vec2 1 2)) 2 (fin (1 / 100)) Create_collapse
    (by decide!)

/-- Witness of C16.  Over the rationals: guard 5, forcing (300, 400) of norm 500, scaled
by 5/500.  Over the reals, with the real square root: guard 5, forcing (100, 200) of
norm sqrt(50000), scaled by 5/sqrt(50000), `dt = 0.01`, as in
tests/test_norm_guard.cpp. -/
theorem C16_guard_equals_explicit_rescale_witness :
    (((engine_guard : MaxCore ℚ).Step sqrtQ (some (fun i => fin (pair 300 400 i))) 2
          (fin (1 / 100))).1
        = ((engine_guard : MaxCore ℚ).without_guard.Step sqrtQ
            (some (fun i => fin (pair 300 400 i) * fin (5 / 500))) 2 (fin (1 / 100))).1 ∧
      ((engine_guard : MaxCore ℚ).Step sqrtQ (some (fun i => fin (pair 300 400 i))) 2
          (fin (1 / 100))).2.current_
        = ((engine_guard : MaxCore ℚ).without_guard.Step sqrtQ
            (some (fun i => fin (pair 300 400 i) * fin (5 / 500))) 2
            (fin (1 / 100))).2.current_ ∧
      ((engine_guard : MaxCore ℚ).Step sqrtQ (some (fun i => fin (pair 300 400 i))) 2
          (fin (1 / 100))).2.previous_
        = ((engine_guard : MaxCore ℚ).without_guard.Step sqrtQ
            (some (fun i => fin (pair 300 400 i) * fin (5 / 500))) 2
            (fin (1 / 100))).2.previous_ ∧
      ((engine_guard : MaxCore ℚ).Step sqrtQ (some (fun i => fin (pair 300 400 i))) 2
          (fin (1 / 100))).2.lifecycle_
        = ((engine_guard : MaxCore ℚ).without_guard.Step sqrtQ
            (some (fun i => fin (pair 300 400 i) * fin (5 / 500))) 2
            (fin (1 / 100))).2.lifecycle_) ∧
    (((engine_guard : MaxCore ℝ).Step (sqrt_lift Real.sqrt)
          (some (fun i => fin (pair 100 200 i))) 2 (fin (1 / 100))).1
        = ((engine_guard : MaxCore ℝ).without_guard.Step (sqrt_lift Real.sqrt)
            (some (fun i => fin (pair 100 200 i) * fin (5 / Real.sqrt 50000))) 2
            (fin (1 / 100))).1 ∧
      ((engine_guard : MaxCore ℝ).Step (sqrt_lift Real.sqrt)
          (some (fun i => fin (pair 100 200 i))) 2 (fin (1 / 100))).2.current_
        = ((engine_guard : MaxCore ℝ).without_guard.Step (sqrt_lift Real.sqrt)
            (some (fun i => fin (pair 100 200 i) * fin (5 / Real.sqrt 50000))) 2
            (fin (1 / 100))).2.current_ ∧
      ((engine_guard : MaxCore ℝ).Step (sqrt_lift Real.sqrt)
          (some (fun i => fin (pair 100 200 i))) 2 (fin (1 / 100))).2.previous_
        = ((engine_guard : MaxCore ℝ).without_guard.Step (sqrt_lift Real.sqrt)
            (some (fun i => fin (pair 100 200 i) * fin (5 / Real.sqrt 50000))) 2
            (fin (1 / 100))).2.previous_ ∧
      ((engine_guard : MaxCore ℝ).Step (sqrt_lift Real.sqrt)
          (some (fun i => fin (pair 100 200 i))) 2 (fin (1 / 100))).2.lifecycle_
        = ((engine_guard : MaxCore ℝ).without_guard.Step (sqrt_lift Real.sqrt)
            (some (fun i => fin (pair 100 200 i) * fin (5 / Real.sqrt 50000))) 2
            (fin (1 / 100))).2.lifecycle_) :=
  ⟨C16_guard_equals_explicit_rescale sqrtQ sqrtQ_spec (engine_guard : MaxCore ℚ) 5 500
      (fun i => fin (pair 300 400 i)) (pair 300 400) 2 (fin (1 / 100)) rfl (by norm_num)
      (fun _ _ => rfl) (by norm_num)
      (by simp [spec_norm2, pair, engine_guard, MaxCore.new, Finset.sum_range_succ]; norm_num)
      (by simp [spec_norm2, pair, engine_guard, MaxCore.new, Finset.sum_range_succ]; norm_num),
    C16_guard_equals_explicit_rescale (sqrt_lift Real.sqrt)
      (sqrt_lift_spec Real.sqrt (fun _ hx => Real.sqrt_pos.2 hx)) (engine_guard : MaxCore ℝ) 5
      (Real.sqrt 50000) (fun i => fin (pair 100 200 i)) (pair 100 200) 2 (fin (1 / 100)) rfl
      (by norm_num) (fun _ _ => rfl) (Real.sqrt_pos.2 (by norm_num))
      (by
        rw [Real.mul_self_sqrt (by norm_num)]
        simp [spec_norm2, pair, engine_guard, MaxCore.new, Finset.sum_range_succ]
        norm_num)
      (by simp [spec_norm2, pair, engine_guard, MaxCore.new, Finset.sum_range_succ]; norm_num)⟩

/-- The unguarded step of the rational instance of C16, fed the rescaled vector, is
accepted and commits the capped energy `phi = alpha * T * T = 25`. -/
theorem Step_rescaled_values :
    ((engine_guard : MaxCore ℚ).without_guard.Step sqrtQ
        (some (fun i => fin (pair 300 400 i) * fin (5 / 500))) 2 (fin (1 / 100))).1
      = EventFlag.NORMAL ∧
    ((engine_guard : MaxCore ℚ).without_guard.Step sqrtQ
        (some (fun i => fin (pair 300 400 i) * fin (5 / 500))) 2
        (fin (1 / 100))).2.current_.phi = fin 25 := by
  decide!

/-- The two buffers of the instance of C18 differ behind the vector, and the events are
NORMAL then ERROR. -/
theorem determinism_values :
    vec2 3 4 2 ≠ vec2_then_garbage 2 ∧
    engine_canonical.trace sqrtQ [⟨some vec2_then_garbage, 2, fin (1 / 10)⟩, ⟨none, 0, nan⟩]
      = [EventFlag.NORMAL, EventFlag.ERROR] := by
  decide!

/-- Witness of C19: on the canonical engine, a call with `dt == 0` (ERROR) followed by
the valid call of tests/test_canonical.cpp. -/
theorem C19_errors_can_be_dropped_witness :
    engine_canonical.trace sqrtQ
        (engine_canonical.dropErrors sqrtQ
          [⟨some (vec2 1 2), 2, fin 0⟩, ⟨some (vec2 3 4), 2, fin (1 / 10)⟩])
      = (engine_canonical.trace sqrtQ
          [⟨some (vec2 1 2), 2, fin 0⟩, ⟨some (vec2 3 4), 2, fin (1 / 10)⟩]).filter
          (fun ev => decide (ev ≠ EventFlag.ERROR)) ∧
    (engine_canonical.run sqrtQ
        (engine_canonical.dropErrors sqrtQ
          [⟨some (vec2 1 2), 2, fin 0⟩, ⟨some (vec2 3 4), 2, fin (1 / 10)⟩])).current_
      = (engine_canonical.run sqrtQ
          [⟨some (vec2 1 2), 2, fin 0⟩, ⟨some (vec2 3 4), 2, fin (1 / 10)⟩]).current_ ∧
    (engine_canonical.run sqrtQ
        (engine_canonical.dropErrors sqrtQ
          [⟨some (vec2 1 2), 2, fin 0⟩, ⟨some (vec2 3 4), 2, fin (1 / 10)⟩])).previous_
      = (engine_canonical.run sqrtQ
          [⟨some (vec2 1 2), 2, fin 0⟩, ⟨some (vec2 3 4), 2, fin (1 / 10)⟩]).previous_ ∧
    (engine_canonical.run sqrtQ
        (engine_canonical.dropErrors sqrtQ
          [⟨some (vec2 1 2), 2, fin 0⟩, ⟨some (vec2 3 4), 2, fin (1 / 10)⟩])).lifecycle_
      = (engine_canonical.run sqrtQ
          [⟨some (vec2 1 2), 2, fin 0⟩, ⟨some (vec2 3 4), 2, fin (1 / 10)⟩]).lifecycle_ ∧
    ((engine_canonical.Step sqrtQ (some (vec2 1 2)) 2 (fin 0)).1 = EventFlag.ERROR →
      (engine_canonical.Step sqrtQ (some (vec2 1 2)) 2 (fin 0)).2.Step sqrtQ
          (some (vec2 3 4)) 2 (fin (1 / 10))
        = engine_canonical.Step sqrtQ (some (vec2 3 4)) 2 (fin (1 / 10))) :=
  C19_errors_can_be_dropped sqrtQ engine_canonical
    [⟨some (vec2 1 2), 2, fin 0⟩, ⟨some (vec2 3 4), 2, fin (1 / 10)⟩]
    ⟨some (vec2 1 2), 2, fin 0⟩ ⟨some (vec2 3 4), 2, fin (1 / 10)⟩

/-- The events of the two calls of the instance of C19: ERROR, then NORMAL. -/
theorem trace_error_then_valid :
    engine_canonical.trace sqrtQ
        [⟨some (vec2 1 2), 2, fin 0⟩, ⟨some (vec2 3 4), 2, fin (1 / 10)⟩]
      = [EventFlag.ERROR, EventFlag.NORMAL] := by
  decide!

/-- Witness of C20: 49 calls of the collapse scenario, 39 of them commits (the last ten
are absorbed by the terminal engine). -/
theorem C20_step_counter_counts_commits_witness :
    engine_collapse.commits sqrtQ (List.replicate 49 collapse_call) = 39 ∧
    (engine_collapse.run sqrtQ (List.replicate 49 collapse_call)).lifecycle_.step_counter
      = engine_collapse.commits sqrtQ (List.replicate 49 collapse_call) :=
  ⟨by decide!,
    C20_step_counter_counts_commits sqrtQ coeffs_collapse.toDbl 2 ⟨fin 0, fin 0, fin 10⟩ none
      engine_collapse (List.replicate 49 collapse_call) Create_collapse (by decide!)⟩

/-- The frame of the derived projection after the step of tests/test_canonical.cpp. -/
theorem ComputeDerived_canonical :
    ComputeDerived state_canonical ⟨fin 1, fin 2, fin 5⟩ ⟨1, false, false⟩
      coeffs_canonical.toDbl (fin (1 / 10)) = some frame_canonical := by
  decide!

/-- Witness of C21: the first call is `Step(null, 999, NaN)`, as in
tests/test_initial_terminal.cpp, the second a valid call. -/
theorem C21_initially_terminal_engine_witness :
    (engine_terminal.lifecycle_.step_counter = 0 ∧ engine_terminal.lifecycle_.terminal = true ∧
      engine_terminal.lifecycle_.collapse_emitted = false) ∧
    (∀ ev, ev ∈ engine_terminal.trace sqrtQ
        [⟨none, 999, nan⟩, ⟨some (vec2 1 2), 2, fin (1 / 100)⟩] → ev = EventFlag.NORMAL) ∧
    (engine_terminal.run sqrtQ
      [⟨none, 999, nan⟩, ⟨some (vec2 1 2), 2, fin (1 / 100)⟩]).lifecycle_.step_counter = 0 ∧
    (engine_terminal.run sqrtQ
      [⟨none, 999, nan⟩, ⟨some (vec2 1 2), 2, fin (1 / 100)⟩]).lifecycle_.terminal = true ∧
    (engine_terminal.run sqrtQ
      [⟨none, 999, nan⟩, ⟨some (vec2 1 2), 2, fin (1 / 100)⟩]).lifecycle_.collapse_emitted
        = false ∧
    (engine_terminal.run sqrtQ
      [⟨none, 999, nan⟩, ⟨some (vec2 1 2), 2, fin (1 / 100)⟩]).current_
        = ⟨fin 1, fin 2, fin 0⟩ ∧
    (engine_terminal.run sqrtQ
      [⟨none, 999, nan⟩, ⟨some (vec2 1 2), 2, fin (1 / 100)⟩]).previous_
        = ⟨fin 1, fin 2, fin 0⟩ :=
  C21_initially_terminal_engine sqrtQ coeffs_canonical.toDbl 2 ⟨fin 1, fin 2, fin 0⟩ none
    engine_terminal [⟨none, 999, nan⟩, ⟨some (vec2 1 2), 2, fin (1 / 100)⟩] Create_terminal rfl

/-- Witness of C23: the frame after the step of tests/test_canonical.cpp. -/
theorem C23_derived_deltas_and_rates_witness :
    ∃ (c q : Point ℚ) (t : ℚ),
      state_canonical = c.toDbl ∧ (⟨fin 1, fin 2, fin 5⟩ : StructuralState ℚ) = q.toDbl ∧
      (fin (1 / 10) : Dbl ℚ) = fin t ∧ 0 < t ∧
      frame_canonical.d_phi = fin (c.phi - q.phi) ∧
      frame_canonical.d_memory = fin (c.memory - q.memory) ∧
      frame_canonical.d_kappa = fin (c.kappa - q.kappa) ∧
      frame_canonical.phi_rate = fin ((c.phi - q.phi) / t) ∧
      frame_canonical.memory_rate = fin ((c.memory - q.memory) / t) ∧
      frame_canonical.kappa_rate = fin ((c.kappa - q.kappa) / t) :=
  C23_derived_deltas_and_rates state_canonical ⟨fin 1, fin 2, fin 5⟩ ⟨1, false, false⟩
    coeffs_canonical.toDbl (fin (1 / 10)) frame_canonical ComputeDerived_canonical

/-- Witness of C24: the frame after the step of tests/test_canonical.cpp. -/
theorem C24_kappa_ratio_clamped_witness :
    ∃ (kappa kappa_max ratio : ℚ),
      state_canonical.kappa = fin kappa ∧ coeffs_canonical.toDbl.kappa_max = fin kappa_max ∧
      kappa_max ≠ 0 ∧ frame_canonical.kappa_ratio = fin ratio ∧
      ratio = max 0 (min 1 (kappa / kappa_max)) ∧ 0 ≤ ratio ∧ ratio ≤ 1 :=
  C24_kappa_ratio_clamped state_canonical ⟨fin 1, fin 2, fin 5⟩ ⟨1, false, false⟩
    coeffs_canonical.toDbl (fin (1 / 10)) frame_canonical ComputeDerived_canonical

/-- Witness of C25: the frame after the step of tests/test_canonical.cpp. -/
theorem C25_derived_current_terms_witness :
    ∃ (c : Point ℚ) (lambda_phi lambda_m rho kappa_max : ℚ),
      state_canonical = c.toDbl ∧ coeffs_canonical.toDbl.lambda_phi = fin lambda_phi ∧
      coeffs_canonical.toDbl.lambda_m = fin lambda_m ∧ coeffs_canonical.toDbl.rho = fin rho ∧
      coeffs_canonical.toDbl.kappa_max = fin kappa_max ∧
      frame_canonical.kappa_distance = fin c.kappa ∧
      frame_canonical.load_term = fin (lambda_phi * c.phi + lambda_m * c.memory) ∧
      frame_canonical.regen_term = fin (rho * (kappa_max - c.kappa)) :=
  C25_derived_current_terms state_canonical ⟨fin 1, fin 2, fin 5⟩ ⟨1, false, false⟩
    coeffs_canonical.toDbl (fin (1 / 10)) frame_canonical ComputeDerived_canonical

/-- C26, at a failing input: with `alpha = NaN`, `eta = +inf`, `beta = -inf` and
`gamma = NaN`, four of the eight coefficients are not finite, and `ComputeDerived` still
yields a frame, the same frame as with finite values of the four. -/
theorem C26_nonfinite_coefficients_accepted :
    is_finite params_nonfinite.alpha = false ∧ is_finite params_nonfinite.eta = false ∧
    is_finite params_nonfinite.beta = false ∧ is_finite params_nonfinite.gamma = false ∧
    ComputeDerived state_canonical ⟨fin 1, fin 2, fin 5⟩ ⟨1, false, false⟩ params_nonfinite
      (fin (1 / 10)) = some frame_canonical := by
  refine ⟨rfl, rfl, rfl, rfl, ?_⟩
  decide!

/-- Counterexample to C27 as stated: every component of the current state (0, 0, -1),
of the previous state (0, 0, 0) and of the parameter set is finite, `kappa_max = 10 > 0`
and `dt = 0.1 > 0`, and `ComputeDerived` yields nothing, because `current.kappa < 0`. -/
theorem C27_negative_kappa_counterexample :
    (0 : ℚ) < coeffs_canonical.kappa_max ∧ (0 : ℚ) < 1 / 10 ∧
    ComputeDerived (Point.toDbl ⟨0, 0, -1⟩) (Point.toDbl ⟨0, 0, 0⟩) ⟨0, false, false⟩
      coeffs_canonical.toDbl (fin (1 / 10)) = none := by
  refine ⟨by norm_num [coeffs_canonical], by norm_num, ?_⟩
  decide!

/-- Witness of C27 (amended): the arguments of the frame after the step of
tests/test_canonical.cpp. -/
theorem C27_derived_succeeds_iff_witness :
    ComputeDerived
        (Point.toDbl ⟨1019 / 20, 2539 / 800, 314863 / 80000⟩) (Point.toDbl ⟨1, 2, 5⟩)
        ⟨1, false, false⟩ coeffs_canonical.toDbl (fin (1 / 10))
      = if 0 < coeffs_canonical.kappa_max ∧ (0 : ℚ) < 1 / 10 ∧
          (0 : ℚ) ≤ (⟨1019 / 20, 2539 / 800, 314863 / 80000⟩ : Point ℚ).kappa then
          some (spec_derived ⟨1019 / 20, 2539 / 800, 314863 / 80000⟩ ⟨1, 2, 5⟩
            ⟨1, false, false⟩ coeffs_canonical.lambda_phi coeffs_canonical.lambda_m
            coeffs_canonical.rho coeffs_canonical.kappa_max (1 / 10))
        else none :=
  C27_derived_succeeds_iff ⟨1019 / 20, 2539 / 800, 314863 / 80000⟩ ⟨1, 2, 5⟩
    ⟨1, false, false⟩ coeffs_canonical (1 / 10)

/-- Witness of C28: the canonical engine after a valid call and a rejected call. -/
theorem C28_derived_succeeds_on_reachable_witness :
    ∃ f : DerivedFrame ℚ,
      ComputeDerived (engine_canonical.run sqrtQ calls_valid_then_error).current_
        (engine_canonical.run sqrtQ calls_valid_then_error).previous_
        (engine_canonical.run sqrtQ calls_valid_then_error).lifecycle_
        coeffs_canonical.toDbl (fin (1 / 10)) = some f :=
  C28_derived_succeeds_on_reachable sqrtQ coeffs_canonical.toDbl 2 ⟨fin 1, fin 2, fin 5⟩ none
    engine_canonical calls_valid_then_error (1 / 10) Create_canonical (by norm_num)

/-- Witness of C29: the frame after the step of tests/test_canonical.cpp. -/
theorem C29_derived_mirrors_lifecycle_witness :
    frame_canonical.step_counter = 1 ∧ frame_canonical.terminal = false ∧
    frame_canonical.collapse_emitted = false :=
  C29_derived_mirrors_lifecycle state_canonical ⟨fin 1, fin 2, fin 5⟩ ⟨1, false, false⟩
    coeffs_canonical.toDbl (fin (1 / 10)) frame_canonical ComputeDerived_canonical

/-- Witness of C30: the data of tests/test_canonical.cpp through the C interface, a
valid call followed by a rejected call. -/
theorem C30_c_api_parity_witness :
    ((maxcore_create true (some capi_params_canonical) 2 (some capi_state_canonical)
        none).isSome
      = (MaxCore.Create (to_cpp_params capi_params_canonical) 2
          (to_cpp_state capi_state_canonical) none).isSome) ∧
    ∀ e : MaxCore ℚ,
      MaxCore.Create (to_cpp_params capi_params_canonical) 2
        (to_cpp_state capi_state_canonical) none = some e →
      (capi_trace sqrtQ
          (maxcore_create true (some capi_params_canonical) 2 (some capi_state_canonical) none)
          calls_valid_then_error).map maxcore_event.code
        = (e.trace sqrtQ calls_valid_then_error).map EventFlag.code ∧
      maxcore_get_current
          (capi_run sqrtQ
            (maxcore_create true (some capi_params_canonical) 2 (some capi_state_canonical)
              none) calls_valid_then_error) (some ⟨nan, nan, nan⟩)
        = (1, some ⟨(e.run sqrtQ calls_valid_then_error).current_.phi,
            (e.run sqrtQ calls_valid_then_error).current_.memory,
            (e.run sqrtQ calls_valid_then_error).current_.kappa⟩) ∧
      maxcore_get_previous
          (capi_run sqrtQ
            (maxcore_create true (some capi_params_canonical) 2 (some capi_state_canonical)
              none) calls_valid_then_error) (some ⟨nan, nan, nan⟩)
        = (1, some ⟨(e.run sqrtQ calls_valid_then_error).previous_.phi,
            (e.run sqrtQ calls_valid_then_error).previous_.memory,
            (e.run sqrtQ calls_valid_then_error).previous_.kappa⟩) ∧
      maxcore_get_lifecycle
          (capi_run sqrtQ
            (maxcore_create true (some capi_params_canonical) 2 (some capi_state_canonical)
              none) calls_valid_then_error) (some ⟨7, 7, 7⟩)
        = (1, some ⟨(e.run sqrtQ calls_valid_then_error).lifecycle_.step_counter,
            if (e.run sqrtQ calls_valid_then_error).lifecycle_.terminal then 1 else 0,
            if (e.run sqrtQ calls_valid_then_error).lifecycle_.collapse_emitted then 1
            else 0⟩) ∧
      maxcore_compute_derived
          (capi_run sqrtQ
            (maxcore_create true (some capi_params_canonical) 2 (some capi_state_canonical)
              none) calls_valid_then_error) (fin (1 / 10)) (some frame_canonical.toC)
        = derived_parity
            (ComputeDerived (e.run sqrtQ calls_valid_then_error).current_
              (e.run sqrtQ calls_valid_then_error).previous_
              (e.run sqrtQ calls_valid_then_error).lifecycle_
              (to_cpp_params capi_params_canonical) (fin (1 / 10))) frame_canonical.toC :=
  C30_c_api_parity sqrtQ capi_params_canonical 2 capi_state_canonical none
    calls_valid_then_error (fin (1 / 10)) ⟨nan, nan, nan⟩ ⟨7, 7, 7⟩ frame_canonical.toC

/-- The values seen through the C interface in the instance of C30: events 0 (NORMAL)
and 2 (ERROR), and the lifecycle (1, 0, 0). -/
theorem capi_canonical_values :
    (capi_trace sqrtQ
        (maxcore_create true (some capi_params_canonical) 2 (some capi_state_canonical) none)
        calls_valid_then_error).map maxcore_event.code = [0, 2] ∧
    maxcore_get_lifecycle
        (capi_run sqrtQ
          (maxcore_create true (some capi_params_canonical) 2 (some capi_state_canonical)
            none) calls_valid_then_error) (some ⟨7, 7, 7⟩)
      = (1, some ⟨1, 0, 0⟩) := by
  decide!

theorem maxcore_create_channel :
    maxcore_create true (some capi_params_channel) 2 (some capi_state_rest) none
      = some handle_channel := by
  decide!

theorem maxcore_step_channel_events :
    (maxcore_step sqrtQ (some handle_channel) (some (vec2 1 2)) 2 (fin (1 / 100))).1
      = maxcore_event.MAXCORE_EVENT_NORMAL ∧
    (maxcore_step sqrtQ (some handle_channel) (some (vec2 1 2)) 2 nan).1
      = maxcore_event.MAXCORE_EVENT_ERROR ∧
    (maxcore_step sqrtQ (some handle_channel_error) (some (vec2 1 2)) 2 (fin (1 / 100))).1
      = maxcore_event.MAXCORE_EVENT_NORMAL := by
  decide!

theorem Create_guard :
    MaxCore.Create (coeffs_guard : Coeffs ℚ).toDbl 2 ⟨fin 0, fin 0, fin 10⟩ (some (fin 5))
      = some engine_guard := by
  decide!

theorem coeffs_guard_valid : (coeffs_guard : Coeffs ℚ).Valid := by
  simp [Coeffs.Valid, coeffs_guard]

theorem Step_guard_accepted :
    ((engine_guard : MaxCore ℚ).Step sqrtQ (some (vec2 300 400)) 2 (fin (1 / 100))).1
      ≠ EventFlag.ERROR := by
  have hc := candidate_of_valid sqrtQ_spec (engine_guard : MaxCore ℚ) coeffs_guard ⟨0, 0, 10⟩
    (some 5) (vec2 300 400) (pair 300 400) (1 / 100) rfl (by norm_num [coeffs_guard]) rfl rfl
    (by intro x hx; cases hx; norm_num)
    (by intro i _; simp only [vec2, pair]; split <;> rfl) (by norm_num)
    (by norm_num [spec_max_rate, coeffs_guard])
  have hz : is_zero (engine_guard : MaxCore ℚ).current_.kappa = false := by decide!
  have hs := Step_of_candidate_some sqrtQ (engine_guard : MaxCore ℚ) (some (vec2 300 400)) 2
    (fin (1 / 100)) _ hz hc
  rw [hs]
  exact commit_fst_ne_error _ _

/-- Witness of C31: the calls of tests/test_c_api_error_channel.cpp.  The channel is
empty after `maxcore_create` and after a valid call, not empty after a call with a NaN
`dt`, and empty again after a valid call made in the error state. -/
theorem C31_last_error_channel_witness :
    maxcore_last_error (some handle_channel) = "" ∧
    maxcore_last_error
        (maxcore_step sqrtQ (some handle_channel) (some (vec2 1 2)) 2 (fin (1 / 100))).2 = "" ∧
    maxcore_last_error (maxcore_step sqrtQ (some handle_channel) (some (vec2 1 2)) 2 nan).2
      ≠ "" ∧
    maxcore_last_error
        (maxcore_step sqrtQ (some handle_channel_error) (some (vec2 1 2)) 2
          (fin (1 / 100))).2 = "" :=
  ⟨(C31_last_error_channel sqrtQ true (some capi_params_channel) 2 (some capi_state_rest) none
      handle_channel (some (vec2 1 2)) 2 (fin (1 / 100))).1 handle_channel
      maxcore_create_channel,
    (C31_last_error_channel sqrtQ true (some capi_params_channel) 2 (some capi_state_rest) none
      handle_channel (some (vec2 1 2)) 2 (fin (1 / 100))).2.2.1
      (Or.inl maxcore_step_channel_events.1),
    (C31_last_error_channel sqrtQ true (some capi_params_channel) 2 (some capi_state_rest) none
      handle_channel (some (vec2 1 2)) 2 nan).2.2.2 maxcore_step_channel_events.2.1,
    (C31_last_error_channel sqrtQ true (some capi_params_channel) 2 (some capi_state_rest) none
      handle_channel_error (some (vec2 1 2)) 2 (fin (1 / 100))).2.2.1
      (Or.inl maxcore_step_channel_events.2.2)⟩

/-- Witness of C33: the coefficients and the state of tests/test_canonical.cpp with
squared norm 25 and `dt = 0.1`. -/
theorem C33_only_kappa_lower_clamp_binds_witness :
    0 ≤ spec_phi_raw coeffs_canonical ⟨1, 2, 5⟩ 25 (1 / 10) ∧
    0 ≤ spec_memory_raw coeffs_canonical ⟨1, 2, 5⟩ 25 (1 / 10) ∧
    spec_kappa_raw coeffs_canonical ⟨1, 2, 5⟩ 25 (1 / 10) ≤ coeffs_canonical.kappa_max ∧
    canonical_update coeffs_canonical.toDbl (⟨1, 2, 5⟩ : Point ℚ).toDbl (fin 25) (fin (1 / 10))
      = some ⟨fin (spec_phi_raw coeffs_canonical ⟨1, 2, 5⟩ 25 (1 / 10)),
          fin (spec_memory_raw coeffs_canonical ⟨1, 2, 5⟩ 25 (1 / 10)),
          fin (max 0 (spec_kappa_raw coeffs_canonical ⟨1, 2, 5⟩ 25 (1 / 10)))⟩ :=
  C33_only_kappa_lower_clamp_binds coeffs_canonical ⟨1, 2, 5⟩ 25 (1 / 10)
    (by simp [Coeffs.Valid, coeffs_canonical]) (by norm_num) (by norm_num)
    (by norm_num [coeffs_canonical]) (by norm_num) (by norm_num)
    (by norm_num [spec_max_rate, coeffs_canonical])

/-- The unclamped candidates in the instance of C33 are those of
tests/test_canonical.cpp: (50.95, 3.17375, 3.9357875). -/
theorem spec_raw_canonical_values :
    spec_phi_raw coeffs_canonical ⟨1, 2, 5⟩ 25 (1 / 10) = 1019 / 20 ∧
    spec_memory_raw coeffs_canonical ⟨1, 2, 5⟩ 25 (1 / 10) = 2539 / 800 ∧
    spec_kappa_raw coeffs_canonical ⟨1, 2, 5⟩ 25 (1 / 10) = 314863 / 80000 := by
  decide!

/-- Witness of C34: on the canonical engine, the forcing vectors (3, 4) and (6, 8) with
squared norms 25 and 100. -/
theorem C34_monotone_in_forcing_witness :
    ∃ s1 s2 : Point ℚ,
      (engine_canonical.Step sqrtQ (some (vec2 3 4)) 2 (fin (1 / 10))).2.current_ = s1.toDbl ∧
      (engine_canonical.Step sqrtQ (some (vec2 6 8)) 2 (fin (1 / 10))).2.current_ = s2.toDbl ∧
      s1.phi ≤ s2.phi ∧ s1.memory ≤ s2.memory ∧ s2.kappa ≤ s1.kappa :=
  C34_monotone_in_forcing sqrtQ engine_canonical coeffs_canonical none (vec2 3 4) (vec2 6 8)
    (pair 3 4) (pair 6 8) 2 (fin (1 / 10)) rfl (by simp [Coeffs.Valid, coeffs_canonical])
    engine_canonical_kappa_ne_zero rfl
    (by intro i _; simp only [vec2, pair]; split <;> rfl)
    (by intro i _; simp only [vec2, pair]; split <;> rfl)
    (by decide!) (by decide!)
    (by simp [spec_guard, spec_norm2, pair, engine_canonical, MaxCore.new,
      Finset.sum_range_succ]; norm_num)

/-- The committed states in the instance of C34. -/
theorem Step_canonical_double_values :
    (engine_canonical.Step sqrtQ (some (vec2 6 8)) 2 (fin (1 / 10))).2.current_
      = ⟨fin (4019 / 20), fin (5539 / 800), fin (65863 / 80000)⟩ := by
  decide!

theorem round_binary64_values :
    round_binary64 (2 ^ 54 + 1) = fin (2 ^ 54) ∧
    round_binary64 (2 ^ 54 + 3) = fin (2 ^ 54 + 4) ∧
    round_binary64 (2 ^ 54 + 2) = fin (2 ^ 54) ∧
    round_binary64 (2 ^ 54 + 6) = fin (2 ^ 54 + 8) ∧
    round_binary64 (1 / 10) = fin (3602879701896397 / 2 ^ 55) ∧
    round_binary64 (-(1 / 10)) = fin (-(3602879701896397 / 2 ^ 55)) ∧
    round_binary64 (1 - 1 / 2 ^ 54) = fin 1 ∧
    round_binary64 (2 ^ 1200) = pinf ∧
    round_binary64 (-(2 ^ 1200)) = ninf ∧
    round_binary64 (2 ^ 1024 - 2 ^ 970) = pinf ∧
    round_binary64 (2 ^ 1024 - 2 ^ 971) = fin (2 ^ 1024 - 2 ^ 971) ∧
    round_binary64 (1 / 2 ^ 1075) = fin 0 ∧
    round_binary64 (3 / 2 ^ 1075) = fin (1 / 2 ^ 1073) ∧
    round_binary64 (1 / 2 ^ 1074) = fin (1 / 2 ^ 1074) ∧
    round_binary64 (1 / 2) = fin (1 / 2) ∧
    round_binary64 8 = fin 8 := by
  decide!

/-- C35 as first stated fails on doubles: with every result rounded to binary64, the
forcing vector `(2^27, 1, 1, 1)` and its permutation `(1, 1, 1, 2^27)` have the same sum
of squares `2^54 + 3`, but the loop accumulates `2^54` for the first (each `+ 1` is
rounded away) and `2^54 + 4` for the second, and the two calls commit different
states. -/
theorem C35_rounding_counterexample :
    MaxCore.Create coeffs_dyadic.toDbl 4 ⟨fin 0, fin 0, fin 8⟩ none = some engine_dyadic ∧
    spec_norm2 (quad (2 ^ 27) 1 1 1) 4 = spec_norm2 (quad 1 1 1 (2 ^ 27)) 4 ∧
    norm2_loop_rounded round_binary64 (fun i => fin (quad (2 ^ 27) 1 1 1 i)) 4 0 0
      = some (fin (2 ^ 54)) ∧
    norm2_loop_rounded round_binary64 (fun i => fin (quad 1 1 1 (2 ^ 27) i)) 4 0 0
      = some (fin (2 ^ 54 + 4)) ∧
    (engine_dyadic.Step_rounded round_binary64 sqrtQ
        (some (fun i => fin (quad (2 ^ 27) 1 1 1 i))) 4 (fin (1 / 2))).2.current_
      = ⟨fin (2 ^ 54), fin (2 ^ 51), fin 0⟩ ∧
    (engine_dyadic.Step_rounded round_binary64 sqrtQ
        (some (fun i => fin (quad 1 1 1 (2 ^ 27) i))) 4 (fin (1 / 2))).2.current_
      = ⟨fin (2 ^ 54 + 4), fin (2 ^ 51 + 1 / 2), fin 0⟩ := by
  decide!

/-- Witness of C35 (amended): on the canonical engine, the forcing vector (3, 4) and its
permutation with a sign flip (-4, 3). -/
theorem C35_depends_on_sum_of_squares_witness :
    engine_canonical.Step sqrtQ (some (vec2 3 4)) 2 (fin (1 / 10))
      = engine_canonical.Step sqrtQ (some (vec2 (-4) 3)) 2 (fin (1 / 10)) :=
  C35_depends_on_sum_of_squares sqrtQ engine_canonical (vec2 3 4) (vec2 (-4) 3) (pair 3 4)
    (pair (-4) 3) (fin (1 / 10))
    (by intro i _; simp only [vec2, pair]; split <;> rfl)
    (by intro i _; simp only [vec2, pair]; split <;> rfl)
    (by simp [spec_norm2, pair, engine_canonical, MaxCore.new, Finset.sum_range_succ]; norm_num)

/-- Witness of C36: the guarded engine of tests/test_norm_guard.cpp (guard 5) with the
forcing vector (3, 4), whose sum of squares is exactly 25. -/
theorem C36_inactive_guard_transparent_witness :
    ((engine_guard.run sqrtQ []).Step sqrtQ (some (vec2 3 4)) 2 (fin (1 / 100))).1
      = ((engine_guard.run sqrtQ []).without_guard.Step sqrtQ (some (vec2 3 4)) 2
          (fin (1 / 100))).1 ∧
    ((engine_guard.run sqrtQ []).Step sqrtQ (some (vec2 3 4)) 2 (fin (1 / 100))).2.current_
      = ((engine_guard.run sqrtQ []).without_guard.Step sqrtQ (some (vec2 3 4)) 2
          (fin (1 / 100))).2.current_ ∧
    ((engine_guard.run sqrtQ []).Step sqrtQ (some (vec2 3 4)) 2 (fin (1 / 100))).2.previous_
      = ((engine_guard.run sqrtQ []).without_guard.Step sqrtQ (some (vec2 3 4)) 2
          (fin (1 / 100))).2.previous_ ∧
    ((engine_guard.run sqrtQ []).Step sqrtQ (some (vec2 3 4)) 2 (fin (1 / 100))).2.lifecycle_
      = ((engine_guard.run sqrtQ []).without_guard.Step sqrtQ (some (vec2 3 4)) 2
          (fin (1 / 100))).2.lifecycle_ :=
  C36_inactive_guard_transparent sqrtQ (coeffs_guard : Coeffs ℚ).toDbl 2
    ⟨fin 0, fin 0, fin 10⟩ 5 engine_guard [] (vec2 3 4) (pair 3 4) 2 (fin (1 / 100))
    Create_guard (by intro i _; simp only [vec2, pair]; split <;> rfl)
    (by simp [spec_norm2, pair, Finset.sum_range_succ]; norm_num)

/-- The values in the instance of C36: the call is accepted and commits `phi = 25`. -/
theorem Step_guard_inactive_values :
    ((engine_guard : MaxCore ℚ).Step sqrtQ (some (vec2 3 4)) 2 (fin (1 / 100))).1
      = EventFlag.NORMAL ∧
    ((engine_guard : MaxCore ℚ).Step sqrtQ (some (vec2 3 4)) 2 (fin (1 / 100))).2.current_.phi
      = fin 25 := by
  decide!

/-- Witness of C37: the engine of tests/test_collapse.cpp after the 39 calls that bring
it to collapse, and after one more call. -/
theorem C37_collapse_emitted_implies_terminal_witness :
    ((engine_collapse.run sqrtQ (List.replicate 39 collapse_call)).lifecycle_.terminal = true ∧
      (engine_collapse.run sqrtQ (List.replicate 39 collapse_call)).current_.kappa = 0) ∧
    (((engine_collapse.run sqrtQ (List.replicate 39 collapse_call)).run sqrtQ
        [collapse_call]).lifecycle_.terminal = true ∧
      ((engine_collapse.run sqrtQ (List.replicate 39 collapse_call)).run sqrtQ
        [collapse_call]).current_.kappa = 0) :=
  C37_collapse_emitted_implies_terminal sqrtQ coeffs_collapse.toDbl 2 ⟨fin 0, fin 0, fin 10⟩
    none engine_collapse (List.replicate 39 collapse_call) [collapse_call] Create_collapse
    (by decide!)

/-- Witness of C38: the guarded engine of tests/test_norm_guard.cpp (guard 5, alpha 1)
with the forcing vector (300, 400) of that test. -/
theorem C38_guard_bounds_energy_witness :
    ∃ phi phi1 : ℚ,
      ((engine_guard : MaxCore ℚ).run sqrtQ []).current_.phi = fin phi ∧ 0 ≤ phi ∧
      (((engine_guard : MaxCore ℚ).run sqrtQ []).Step sqrtQ (some (vec2 300 400)) 2
        (fin (1 / 100))).2.current_.phi = fin phi1 ∧
      phi1 ≤ phi + (coeffs_guard : Coeffs ℚ).alpha * 5 * 5 :=
  C38_guard_bounds_energy sqrtQ coeffs_guard 2 ⟨fin 0, fin 0, fin 10⟩ 5 engine_guard []
    (some (vec2 300 400)) 2 (fin (1 / 100)) Create_guard Step_guard_accepted

/-- Witness of C40: the guarded engine of tests/test_norm_guard.cpp after the call with
the forcing vector (3, 4). -/
theorem C40_defensive_branches_unreachable_witness :
    is_finite (max_rate
      ((engine_guard : MaxCore ℚ).run sqrtQ [⟨some (vec2 3 4), 2, fin (1 / 100)⟩]).params_)
      = true ∧
    (∀ dt : Dbl ℚ, is_finite dt = true →
      is_finite (dt * max_rate
        ((engine_guard : MaxCore ℚ).run sqrtQ [⟨some (vec2 3 4), 2, fin (1 / 100)⟩]).params_)
        = true) ∧
    (∀ (delta : Nat → Dbl ℚ) (norm2 : Dbl ℚ),
      norm2_loop delta
        ((engine_guard : MaxCore ℚ).run sqrtQ
          [⟨some (vec2 3 4), 2, fin (1 / 100)⟩]).delta_dim_ 0 0 = some norm2 →
        is_finite norm2 = true ∧ Dbl.lt norm2 0 = false) ∧
    (∀ dm : Dbl ℚ,
      ((engine_guard : MaxCore ℚ).run sqrtQ
        [⟨some (vec2 3 4), 2, fin (1 / 100)⟩]).delta_max_ = some dm →
      (is_finite dm = true ∧ Dbl.gt dm 0 = true) ∧ is_finite (dm * dm) = true ∧
      ∀ norm2 : Dbl ℚ, is_finite norm2 = true → Dbl.gt norm2 (dm * dm) = true →
        (is_finite (sqrtQ norm2) = true ∧ Dbl.gt (sqrtQ norm2) 0 = true) ∧
        (is_finite (dm / sqrtQ norm2) = true ∧ Dbl.gt (dm / sqrtQ norm2) 0 = true)) ∧
    (∀ norm2 dt : Dbl ℚ, is_finite norm2 = true → is_finite dt = true →
      ∃ next, canonical_update
        ((engine_guard : MaxCore ℚ).run sqrtQ [⟨some (vec2 3 4), 2, fin (1 / 100)⟩]).params_
        ((engine_guard : MaxCore ℚ).run sqrtQ [⟨some (vec2 3 4), 2, fin (1 / 100)⟩]).current_
        norm2 dt = some next) ∧
    (∀ (delta_input : Option (Nat → Dbl ℚ)) (delta_len : Nat) (dt : Dbl ℚ),
      ((engine_guard : MaxCore ℚ).run sqrtQ
        [⟨some (vec2 3 4), 2, fin (1 / 100)⟩]).candidate sqrtQ delta_input delta_len dt
        = none ↔
        (delta_input = none ∨
          delta_len ≠ ((engine_guard : MaxCore ℚ).run sqrtQ
            [⟨some (vec2 3 4), 2, fin (1 / 100)⟩]).delta_dim_ ∨
          is_finite dt = false ∨ Dbl.gt dt 0 = false ∨
          Dbl.lt (dt * max_rate ((engine_guard : MaxCore ℚ).run sqrtQ
            [⟨some (vec2 3 4), 2, fin (1 / 100)⟩]).params_) 1 = false ∨
          ∃ delta i, delta_input = some delta ∧
            i < ((engine_guard : MaxCore ℚ).run sqrtQ
              [⟨some (vec2 3 4), 2, fin (1 / 100)⟩]).delta_dim_ ∧
            is_finite (delta i) = false)) :=
  C40_defensive_branches_unreachable sqrtQ sqrtQ_spec (coeffs_guard : Coeffs ℚ).toDbl 2
    ⟨fin 0, fin 0, fin 10⟩ (some (fin 5)) engine_guard [⟨some (vec2 3 4), 2, fin (1 / 100)⟩]
    Create_guard

end maxcore
